import Mathlib

/-!
Verification of the PlayRho 2-D physics engine core against its
natural-language specification.  The development shallowly embeds the
relevant C++ source files (WorldImpl.cpp, ArrayAllocator.hpp, UnitVec2.hpp,
Body.cpp, RopeJoint.cpp) into Lean: machine scalars become exact rationals,
identifier types become naturals, fallible operations return an error sum,
and the components of the repository that are outside the sampled sources
(the dynamic AABB tree internals, shape geometry, trigonometric and square
root routines, the shape-vs-shape collision dispatcher, and the conservative
advancement computer) are modelled from the specification as explicit
function parameters or adapter records, exactly as the specification
describes them (spec section 1 lists them as external collaborators).
-/

namespace PlayRho

/-! ## Basic geometric scalar and vector data (Math.hpp / Vector2.hpp model)

The vector and transform types mirror the data layout of the source; the
scalar type Real (a float in the source) is embedded as the exact rationals.
-/

/-- A 2-D vector of rational coordinates, embedding the Vec2 / Length2 types. -/
structure Vec2 where
  x : ℚ
  y : ℚ
  deriving DecidableEq, Repr

instance : Inhabited Vec2 := ⟨⟨0, 0⟩⟩

instance : Add Vec2 := ⟨fun a b => ⟨a.x + b.x, a.y + b.y⟩⟩

instance : Sub Vec2 := ⟨fun a b => ⟨a.x - b.x, a.y - b.y⟩⟩

instance : Neg Vec2 := ⟨fun a => ⟨-a.x, -a.y⟩⟩

instance : SMul ℚ Vec2 := ⟨fun c v => ⟨c * v.x, c * v.y⟩⟩

/-- Dot product of two 2-D vectors (Math.hpp Dot). -/
def Dot (a b : Vec2) : ℚ := a.x * b.x + a.y * b.y

/-- Two-dimensional cross product returning a scalar (Math.hpp Cross). -/
def Cross (a b : Vec2) : ℚ := a.x * b.y - a.y * b.x

/-- Square of the magnitude of a vector (Math.hpp GetMagnitudeSquared). -/
def GetMagnitudeSquared (v : Vec2) : ℚ := v.x * v.x + v.y * v.y

/-- Counter-clockwise perpendicular of a plain vector
(Math.hpp GetRevPerpendicular for Vec2). -/
def GetRevPerpendicular (v : Vec2) : Vec2 := ⟨-v.y, v.x⟩

/-! ## UnitVec2 (src/PlayRho/Common/UnitVec2.hpp)

The class stores a cosine/sine pair; the embedding keeps the two stored
coordinates without enforcing the unit-length invariant, as the class
itself stores plain values.
-/

/-- A stored 2-D direction, embedding class UnitVec2. -/
structure UnitVec2 where
  x : ℚ
  y : ℚ
  deriving DecidableEq, Repr

instance : Inhabited UnitVec2 := ⟨⟨0, 0⟩⟩

/-- UnitVec2::Rotate: rotates this unit vector by the amount expressed by
the other unit vector. -/
def UnitVec2.Rotate (v : UnitVec2) (amount : UnitVec2) : UnitVec2 :=
  ⟨v.x * amount.x - v.y * amount.y, v.y * amount.x + v.x * amount.y⟩

/-- UnitVec2::FlipY: negates the Y coordinate. -/
def UnitVec2.FlipY (v : UnitVec2) : UnitVec2 := ⟨v.x, -v.y⟩

/-- Free function Rotate for unit vectors (UnitVec2.hpp line 308). -/
def Rotate (vector : UnitVec2) (angle : UnitVec2) : UnitVec2 :=
  vector.Rotate angle

/-- Free function InverseRotate (UnitVec2.hpp line 314): rotation by the
angle-conjugate unit vector. -/
def InverseRotate (vector : UnitVec2) (angle : UnitVec2) : UnitVec2 :=
  vector.Rotate angle.FlipY

/-- Rotation of a plain vector by a unit vector, modelling the Math.hpp
Rotate(Vec2, UnitVec2) free function (same component formula as
UnitVec2::Rotate). -/
def RotateVec (v : Vec2) (q : UnitVec2) : Vec2 :=
  ⟨v.x * q.x - v.y * q.y, v.y * q.x + v.x * q.y⟩

/-- Transformation: a translation plus a rotation (Math.hpp Transformation). -/
structure Transformation where
  p : Vec2
  q : UnitVec2
  deriving DecidableEq, Repr

instance : Inhabited Transformation := ⟨⟨default, ⟨1, 0⟩⟩⟩

/-- Applies a transformation to a local point (Math.hpp Transform). -/
def Transform (v : Vec2) (xfm : Transformation) : Vec2 :=
  RotateVec v xfm.q + xfm.p

/-! ## Slot allocator (src/PlayRho/Common/ArrayAllocator.hpp)

The allocator stores an array of values plus a vector of free indices; the
std vectors are embedded as lists whose back is the last list element.
-/

/-- Value of a size_type holding the bit pattern of -1: the sentinel tested
by ArrayAllocator::Free. -/
def nposSize : Nat := 18446744073709551615

/-- Array allocator: array data plus the indices of free elements
(ArrayAllocator.hpp lines 31-155). -/
structure ArrayAllocator (T : Type) where
  data : List T
  free : List Nat

/-- ArrayAllocator::Allocate (lines 72-85): reuse the back of the free list
when non-empty, otherwise append; returns the index used. -/
def ArrayAllocator.Allocate {T : Type} (a : ArrayAllocator T) (copy : T) :
    Nat × ArrayAllocator T :=
  match a.free.getLast? with
  | some index => (index, ⟨a.data.set index copy, a.free.dropLast⟩)
  | none => (a.data.length, ⟨a.data ++ [copy], a.free⟩)

/-- ArrayAllocator::Free (lines 87-95): zero the payload of the slot and
push its index onto the free list, unless given the -1 sentinel. -/
def ArrayAllocator.Free {T : Type} [Inhabited T] (a : ArrayAllocator T)
    (index : Nat) : ArrayAllocator T :=
  if index ≠ nposSize then ⟨a.data.set index default, a.free ++ [index]⟩
  else a

/-- ArrayAllocator::size: number of elements, used and free together. -/
def ArrayAllocator.size {T : Type} (a : ArrayAllocator T) : Nat :=
  a.data.length

/-- Reads the slot at the given index, with the default value out of range
(embedding the unchecked array index operator). -/
def ArrayAllocator.get {T : Type} [Inhabited T] (a : ArrayAllocator T)
    (pos : Nat) : T :=
  a.data.getD pos default

/-- Overwrites the slot at the given index (embedding assignment through
the array index operator). -/
def ArrayAllocator.set {T : Type} (a : ArrayAllocator T) (pos : Nat)
    (v : T) : ArrayAllocator T :=
  ⟨a.data.set pos v, a.free⟩

/-- Maps a function over the slot at the given index. -/
def ArrayAllocator.modify {T : Type} [Inhabited T] (a : ArrayAllocator T)
    (pos : Nat) (f : T → T) : ArrayAllocator T :=
  a.set pos (f (a.get pos))

/-! ## Kinematic state records (Math.hpp Position, Velocity, Sweep model) -/

/-- Linear and angular velocity of a body. -/
structure Velocity where
  linear : Vec2
  angular : ℚ
  deriving DecidableEq, Repr

instance : Inhabited Velocity := ⟨⟨default, 0⟩⟩

/-- Linear position plus angle. -/
structure Position where
  linear : Vec2
  angular : ℚ
  deriving DecidableEq, Repr

instance : Inhabited Position := ⟨⟨default, 0⟩⟩

instance : Add Position := ⟨fun a b => ⟨a.linear + b.linear, a.angular + b.angular⟩⟩

instance : Sub Position := ⟨fun a b => ⟨a.linear - b.linear, a.angular - b.angular⟩⟩

instance : Add Velocity := ⟨fun a b => ⟨a.linear + b.linear, a.angular + b.angular⟩⟩

instance : Sub Velocity := ⟨fun a b => ⟨a.linear - b.linear, a.angular - b.angular⟩⟩

/-- A sweep: two positions bracketing a step, the local center of mass, and
the start fraction.  Modelled from the spec section 4.3 (Sweep.hpp is not
among the sampled sources): a sweep is (alpha0, pos0, pos1, localCenter). -/
structure Sweep where
  pos0 : Position
  pos1 : Position
  localCenter : Vec2
  alpha0 : ℚ
  deriving DecidableEq, Repr

instance : Inhabited Sweep := ⟨⟨default, default, default, 0⟩⟩

/-- Modelled from the spec section 4.3: interpolates the sweep positions at
a fractional time, the basis for Advance0. -/
def Sweep.GetPosition (s : Sweep) (beta : ℚ) : Position :=
  ⟨⟨(1 - beta) * s.pos0.linear.x + beta * s.pos1.linear.x,
    (1 - beta) * s.pos0.linear.y + beta * s.pos1.linear.y⟩,
   (1 - beta) * s.pos0.angular + beta * s.pos1.angular⟩

/-- Modelled from the spec section 4.3: Advance slides alpha0 forward and
replaces pos0 with the interpolated value (Sweep.hpp is not sampled). -/
def Sweep.Advance0 (s : Sweep) (alpha : ℚ) : Sweep :=
  let beta := if s.alpha0 = 1 then 0 else (alpha - s.alpha0) / (1 - s.alpha0)
  ⟨s.GetPosition beta, s.pos1, s.localCenter, alpha⟩

/-- Modelled from the spec section 4.3: Normalize reduces the two sweep
angles into the same window to protect the TOI root finding; the embedding
subtracts a whole number of turns (with tau standing for one full turn,
embedded as an abstract positive rational constant 710/113 of the model
since pi is irrational; only the sweep-shape is relevant to the claims). -/
def Sweep.GetNormalized (s : Sweep) : Sweep :=
  let tau : ℚ := 710 / 113
  let d : ℚ := tau * ⌊s.pos0.angular / tau⌋
  ⟨⟨s.pos0.linear, s.pos0.angular - d⟩, ⟨s.pos1.linear, s.pos1.angular - d⟩,
   s.localCenter, s.alpha0⟩

/-! ## Rope joint (src/Box2D/Box2D/Dynamics/Joints/RopeJoint.cpp)

The joint members keep their source names.  The square root and the
cosine/sine pair constructor are external math routines not among the
sampled sources; they enter as explicit function parameters.
-/

/-- Joint limit state enumeration (Joint.hpp model). -/
inductive LimitState where
  | e_inactiveLimit
  | e_atLowerLimit
  | e_atUpperLimit
  | e_equalLimits
  deriving DecidableEq, Repr

/-- Transient per-body solver record (BodyConstraint.hpp model): local
center, inverse mass, inverse rotational inertia, position, velocity. -/
structure BodyConstraint where
  localCenter : Vec2
  invMass : ℚ
  invRotInertia : ℚ
  position : Position
  velocity : Velocity
  deriving DecidableEq, Repr

instance : Inhabited BodyConstraint := ⟨⟨default, 0, 0, default, default⟩⟩

/-- The step configuration fields the rope joint reads (StepConf.hpp model):
the warm start toggle, the dt ratio, and the inverse time of the step. -/
structure JointStepConf where
  doWarmStart : Bool
  dtRatio : ℚ
  invTime : ℚ
  deriving DecidableEq, Repr

/-- The constraint solver configuration fields the rope joint reads
(ConstraintSolverConf model). -/
structure JointSolverConf where
  linearSlop : ℚ
  maxLinearCorrection : ℚ
  deriving DecidableEq, Repr

/-- Rope joint state: the definition fields and the cached solver fields of
class RopeJoint, with the source member names. -/
structure RopeJoint where
  m_localAnchorA : Vec2
  m_localAnchorB : Vec2
  m_maxLength : ℚ
  m_length : ℚ
  m_impulse : ℚ
  m_mass : ℚ
  m_state : LimitState
  m_u : Vec2
  m_rA : Vec2
  m_rB : Vec2
  m_localCenterA : Vec2
  m_localCenterB : Vec2
  m_invMassA : ℚ
  m_invMassB : ℚ
  m_invIA : ℚ
  m_invIB : ℚ
  deriving DecidableEq, Repr

/-- Rope joint definition data (RopeJointDef model). -/
structure RopeJointDef where
  localAnchorA : Vec2
  localAnchorB : Vec2
  maxLength : ℚ
  deriving DecidableEq, Repr

/-- RopeJoint constructor (RopeJoint.cpp lines 36-48): zeroes mass, impulse
and length; the limit state starts inactive. -/
def RopeJoint.mkFromDef (def_ : RopeJointDef) : RopeJoint :=
  { m_localAnchorA := def_.localAnchorA
    m_localAnchorB := def_.localAnchorB
    m_maxLength := def_.maxLength
    m_length := 0
    m_impulse := 0
    m_mass := 0
    m_state := LimitState.e_inactiveLimit
    m_u := default
    m_rA := default
    m_rB := default
    m_localCenterA := default
    m_localCenterB := default
    m_invMassA := 0
    m_invMassB := 0
    m_invIA := 0
    m_invIB := 0 }

/-- RopeJoint::InitVelocityConstraints (RopeJoint.cpp lines 50-115).  The
sqrtFn parameter stands for the square root used by GetLength and cossin
for the UnitVec2 angle constructor; both are outside the sampled sources.
Returns the updated joint and the two updated body constraints. -/
def RopeJoint.InitVelocityConstraints (sqrtFn : ℚ → ℚ) (cossin : ℚ → UnitVec2)
    (j : RopeJoint) (bodiesA bodiesB : BodyConstraint) (step : JointStepConf)
    (conf : JointSolverConf) : RopeJoint × BodyConstraint × BodyConstraint :=
  let m_localCenterA := bodiesA.localCenter
  let m_invMassA := bodiesA.invMass
  let m_invIA := bodiesA.invRotInertia
  let posA := bodiesA.position
  let velA := bodiesA.velocity
  let m_localCenterB := bodiesB.localCenter
  let m_invMassB := bodiesB.invMass
  let m_invIB := bodiesB.invRotInertia
  let posB := bodiesB.position
  let velB := bodiesB.velocity
  let qA := cossin posA.angular
  let qB := cossin posB.angular
  let m_rA := RotateVec (j.m_localAnchorA - m_localCenterA) qA
  let m_rB := RotateVec (j.m_localAnchorB - m_localCenterB) qB
  let m_u := posB.linear + m_rB - posA.linear - m_rA
  let m_length := sqrtFn (GetMagnitudeSquared m_u)
  let C := m_length - j.m_maxLength
  let m_state := if C > 0 then LimitState.e_atUpperLimit
                 else LimitState.e_inactiveLimit
  if m_length > conf.linearSlop then
    let m_u := (1 / m_length) • m_u
    let crA := Cross m_rA m_u
    let crB := Cross m_rB m_u
    let invMass := m_invMassA + m_invIA * crA * crA + m_invMassB
                     + m_invIB * crB * crB
    let m_mass := if invMass ≠ 0 then 1 / invMass else 0
    if step.doWarmStart then
      let m_impulse := j.m_impulse * step.dtRatio
      let P := m_impulse • m_u
      let velA := velA - ⟨m_invMassA • P, m_invIA * Cross m_rA P⟩
      let velB := velB + ⟨m_invMassB • P, m_invIB * Cross m_rB P⟩
      ({ j with
          m_localCenterA := m_localCenterA
          m_localCenterB := m_localCenterB
          m_invMassA := m_invMassA
          m_invMassB := m_invMassB
          m_invIA := m_invIA
          m_invIB := m_invIB
          m_rA := m_rA
          m_rB := m_rB
          m_u := m_u
          m_length := m_length
          m_state := m_state
          m_mass := m_mass
          m_impulse := m_impulse },
       { bodiesA with velocity := velA }, { bodiesB with velocity := velB })
    else
      ({ j with
          m_localCenterA := m_localCenterA
          m_localCenterB := m_localCenterB
          m_invMassA := m_invMassA
          m_invMassB := m_invMassB
          m_invIA := m_invIA
          m_invIB := m_invIB
          m_rA := m_rA
          m_rB := m_rB
          m_u := m_u
          m_length := m_length
          m_state := m_state
          m_mass := m_mass
          m_impulse := 0 },
       { bodiesA with velocity := velA }, { bodiesB with velocity := velB })
  else
    ({ j with
        m_localCenterA := m_localCenterA
        m_localCenterB := m_localCenterB
        m_invMassA := m_invMassA
        m_invMassB := m_invMassB
        m_invIA := m_invIA
        m_invIB := m_invIB
        m_rA := m_rA
        m_rB := m_rB
        m_u := (⟨0, 0⟩ : Vec2)
        m_length := m_length
        m_state := m_state
        m_mass := 0
        m_impulse := 0 },
     bodiesA, bodiesB)

/-- RopeJoint::SolveVelocityConstraints (RopeJoint.cpp lines 117-150).
Returns the updated joint, the two updated body constraints and the
incremental impulse the function returns. -/
def RopeJoint.SolveVelocityConstraints (j : RopeJoint)
    (bodiesA bodiesB : BodyConstraint) (step : JointStepConf) :
    RopeJoint × BodyConstraint × BodyConstraint × ℚ :=
  let velA := bodiesA.velocity
  let velB := bodiesB.velocity
  let vpA := velA.linear + velA.angular • GetRevPerpendicular j.m_rA
  let vpB := velB.linear + velB.angular • GetRevPerpendicular j.m_rB
  let C := j.m_length - j.m_maxLength
  let Cdot := Dot j.m_u (vpB - vpA)
  let Cdot := if C < 0 then Cdot + step.invTime * C else Cdot
  let impulse := -j.m_mass * Cdot
  let oldImpulse := j.m_impulse
  let m_impulse := min 0 (j.m_impulse + impulse)
  let impulse := m_impulse - oldImpulse
  let P := impulse • j.m_u
  let velA := velA - ⟨j.m_invMassA • P, j.m_invIA * Cross j.m_rA P⟩
  let velB := velB + ⟨j.m_invMassB • P, j.m_invIB * Cross j.m_rB P⟩
  ({ j with m_impulse := m_impulse },
   { bodiesA with velocity := velA }, { bodiesB with velocity := velB },
   impulse)

/-- RopeJoint::GetReactionForce (RopeJoint.cpp lines 193-196). -/
def RopeJoint.GetReactionForce (j : RopeJoint) (inv_dt : ℚ) : Vec2 :=
  (inv_dt * j.m_impulse) • j.m_u

/-! ## Identifiers and sentinels

Entity identifiers are opaque integers in the source (strong typedefs over
unsigned integers with an all-ones invalid sentinel); the embedding uses
naturals with explicit sentinel constants.
-/

/-- Invalid body identifier sentinel (32-bit all-ones). -/
def InvalidBodyID : Nat := 4294967295

/-- Invalid contact identifier sentinel (32-bit all-ones). -/
def InvalidContactID : Nat := 4294967295

/-- Invalid joint identifier sentinel (32-bit all-ones). -/
def InvalidJointID : Nat := 4294967295

/-- Maximum number of contacts (Settings.hpp constant, not among the
sampled sources; modelled from the spec section 7 as a fixed maximum). -/
def MaxContacts : Nat := 2147483647

/-- Maximum number of bodies (modelled from the spec section 7). -/
def MaxBodies : Nat := 4294967294

/-- Maximum number of joints (modelled from the spec section 7). -/
def MaxJoints : Nat := 4294967294

/-- Maximum number of fixtures (modelled from the spec section 7). -/
def MaxFixtures : Nat := 4294967294

/-! ## AABBs and the broad-phase tree model

The dynamic AABB tree implementation is not among the sampled sources; per
the spec sections 4.2 and 4.13 only leaf creation and removal, the stored
fattened AABB of a leaf, the overlap test, and overlap enumeration are
consumed by the world code under study.  The tree is therefore modelled
from the spec as a flat array of optional leaves.
-/

/-- An axis-aligned bounding box given by the two corner points. -/
structure AABB where
  loX : ℚ
  loY : ℚ
  hiX : ℚ
  hiY : ℚ
  deriving DecidableEq, Repr

instance : Inhabited AABB := ⟨⟨0, 0, 0, 0⟩⟩

/-- Overlap test of two AABBs (AABB.hpp TestOverlap model): the boxes
intersect iff the ranges intersect on both axes. -/
def TestOverlapAABB (a b : AABB) : Bool :=
  decide (a.loX ≤ b.hiX ∧ b.loX ≤ a.hiX ∧ a.loY ≤ b.hiY ∧ b.loY ≤ a.hiY)

/-- Containment test of AABBs (AABB.hpp Contains model): the first box
contains the second. -/
def ContainsAABB (a b : AABB) : Bool :=
  decide (a.loX ≤ b.loX ∧ a.loY ≤ b.loY ∧ b.hiX ≤ a.hiX ∧ b.hiY ≤ a.hiY)

/-- Fattens an AABB on all sides by the given extension
(AABB.hpp GetFattenedAABB model). -/
def GetFattenedAABB (a : AABB) (extension : ℚ) : AABB :=
  ⟨a.loX - extension, a.loY - extension, a.hiX + extension, a.hiY + extension⟩

/-- Expands an AABB in the direction of a displacement
(AABB.hpp GetDisplacedAABB model). -/
def GetDisplacedAABB (a : AABB) (displacement : Vec2) : AABB :=
  ⟨a.loX + min displacement.x 0, a.loY + min displacement.y 0,
   a.hiX + max displacement.x 0, a.hiY + max displacement.y 0⟩

/-- The per-leaf user data of the dynamic tree: the owning body, fixture
and child index (DynamicTree LeafData model). -/
structure Leaf where
  aabb : AABB
  body : Nat
  fixture : Nat
  childIndex : Nat
  deriving DecidableEq, Repr

/-- Modelled from the spec section 4.2: the dynamic tree as observed by the
world code, reduced to its leaves indexed by node identifier. -/
def TreeModel : Type := List (Option Leaf)

/-- Modelled from the spec: leaf lookup in the tree. -/
def TreeModel.leafAt (t : TreeModel) (i : Nat) : Option Leaf :=
  List.getD t i none

/-- Modelled from the spec: DynamicTree GetAABB of a leaf (default AABB on
an absent node, which the world never queries). -/
def TreeModel.GetAABB (t : TreeModel) (i : Nat) : AABB :=
  match t.leafAt i with
  | some leaf => leaf.aabb
  | none => default

/-- Modelled from the spec: TestOverlap free function on two tree nodes. -/
def TreeModel.TestOverlap (t : TreeModel) (i j : Nat) : Bool :=
  TestOverlapAABB (t.GetAABB i) (t.GetAABB j)

/-- Modelled from the spec: DynamicTree CreateLeaf appends a leaf and
returns its node identifier. -/
def TreeModel.CreateLeaf (t : TreeModel) (aabb : AABB) (body fixture childIndex : Nat) :
    Nat × TreeModel :=
  (List.length t, List.append t [some (Leaf.mk aabb body fixture childIndex)])

/-- Modelled from the spec: DynamicTree DestroyLeaf detaches the leaf. -/
def TreeModel.DestroyLeaf (t : TreeModel) (i : Nat) : TreeModel :=
  List.set t i none

/-- Modelled from the spec: DynamicTree UpdateLeaf replaces the stored
AABB of a leaf. -/
def TreeModel.UpdateLeaf (t : TreeModel) (i : Nat) (aabb : AABB) : TreeModel :=
  match t.leafAt i with
  | some leaf => List.set t i (some { leaf with aabb := aabb })
  | none => t

/-- Modelled from the spec section 4.2: Query enumerates the identifiers of
every leaf whose AABB overlaps the query AABB. -/
def TreeModel.Query (t : TreeModel) (aabb : AABB) : List Nat :=
  (List.range (List.length t)).filter (fun i =>
    match t.leafAt i with
    | some leaf => TestOverlapAABB leaf.aabb aabb
    | none => false)

/-! ## Shape adapter, fixtures, filters

Individual shapes are external collaborators (spec section 4.4): the core
consumes only child count, vertex radius, distance proxy, AABB computation
and mass data, so the shape is embedded as that capability record.
-/

/-- A distance proxy: an ordered sequence of vertices plus a vertex radius
(spec section 4.4). -/
structure DistanceProxy where
  vertices : List Vec2
  vertexRadius : ℚ
  deriving DecidableEq, Repr

instance : Inhabited DistanceProxy := ⟨⟨[], 0⟩⟩

/-- Mass data of a shape: center, mass and rotational inertia
(MassData.hpp model). -/
structure MassData where
  center : Vec2
  mass : ℚ
  I : ℚ
  deriving DecidableEq, Repr

instance : Inhabited MassData := ⟨⟨default, 0, 0⟩⟩

/-- Modelled from the spec section 4.4: the shape capability record the
core requires of any shape variant. -/
structure Shape where
  childCount : Nat
  vertexRadius : Nat → ℚ
  child : Nat → DistanceProxy
  computeAABB : Nat → Transformation → AABB
  computeSweptAABB : Nat → Transformation → Transformation → AABB
  massData : MassData

instance : Inhabited Shape :=
  ⟨⟨0, fun _ => 0, fun _ => default, fun _ _ => default, fun _ _ _ => default,
    default⟩⟩

/-- Contact filtering data: category bits, mask bits and group index
(Filter.hpp model). -/
structure Filter where
  categoryBits : Nat
  maskBits : Nat
  groupIndex : Int
  deriving DecidableEq, Repr

instance : Inhabited Filter := ⟨⟨1, 65535, 0⟩⟩

/-- A fixture: owning body, shape, material data, filter, sensor flag and
broad-phase proxy list (Fixture.hpp model; only these fields are consumed
by the sampled world code). -/
structure Fixture where
  body : Nat
  shape : Shape
  density : ℚ
  friction : ℚ
  restitution : ℚ
  filter : Filter
  isSensor : Bool
  proxies : List Nat

instance : Inhabited Fixture :=
  ⟨⟨InvalidBodyID, default, 0, 0, 0, default, false, []⟩⟩

/-- Modelled from the spec section 3 (filter pair allows collision): the
standard category/mask/group rule of the engine family, used by the world
contact logic through ShouldCollide on two fixtures (Fixture.hpp is not
among the sampled sources).  A shared non-zero group forces the outcome by
its sign; otherwise both mask/category pairs must accept. -/
def ShouldCollideFilters (filterA filterB : Filter) : Bool :=
  if filterA.groupIndex = filterB.groupIndex ∧ filterA.groupIndex ≠ 0 then
    decide (filterA.groupIndex > 0)
  else
    decide ((filterA.maskBits &&& filterB.categoryBits) ≠ 0 ∧
            (filterB.maskBits &&& filterA.categoryBits) ≠ 0)

/-- Modelled from the spec: ShouldCollide on two fixtures compares their
filter data. -/
def ShouldCollideFixtures (fixtureA fixtureB : Fixture) : Bool :=
  ShouldCollideFilters fixtureA.filter fixtureB.filter

/-! ## Contacts, contact keys and manifolds -/

/-- A broad-phase pair key: the two tree node identifiers in sorted order
(ContactKey.hpp model). -/
structure ContactKey where
  minK : Nat
  maxK : Nat
  deriving DecidableEq, Repr

/-- ContactKey constructor: orders the two node identifiers. -/
def ContactKey.make (a b : Nat) : ContactKey :=
  if a < b then ⟨a, b⟩ else ⟨b, a⟩

/-- Lexicographic boolean order on contact keys, used for sorting the
enqueued keys before deduplication. -/
def ContactKey.leb (k1 k2 : ContactKey) : Bool :=
  decide (k1.minK < k2.minK ∨ (k1.minK = k2.minK ∧ k1.maxK ≤ k2.maxK))

/-- A cached impulse-carrying manifold point: local point, contact feature
identifier, and the two cached impulses (Manifold.hpp model, from the spec
section 3 manifold row). -/
structure ManifoldPoint where
  localPoint : Vec2
  contactFeature : Nat
  normalImpulse : ℚ
  tangentImpulse : ℚ
  deriving DecidableEq, Repr

instance : Inhabited ManifoldPoint := ⟨⟨default, 0, 0, 0⟩⟩

/-- A manifold: up to two impulse-carrying points (Manifold.hpp model; the
local normal or point of the variant does not enter the sampled logic).
The default value is the empty manifold with zero points. -/
structure Manifold where
  points : List ManifoldPoint
  deriving DecidableEq, Repr

instance : Inhabited Manifold := ⟨⟨[]⟩⟩

/-- Manifold::GetPointCount. -/
def Manifold.GetPointCount (m : Manifold) : Nat := m.points.length

/-- Manifold::GetContactFeature of the point at an index. -/
def Manifold.GetContactFeature (m : Manifold) (i : Nat) : Nat :=
  (m.points.getD i default).contactFeature

/-- Manifold::GetPoint at an index. -/
def Manifold.GetPoint (m : Manifold) (i : Nat) : ManifoldPoint :=
  m.points.getD i default

/-- The cached impulse pair of the point at an index. -/
def Manifold.GetContactImpulses (m : Manifold) (i : Nat) : ℚ × ℚ :=
  ((m.points.getD i default).normalImpulse, (m.points.getD i default).tangentImpulse)

/-- Manifold::SetContactImpulses at an index. -/
def Manifold.SetContactImpulses (m : Manifold) (i : Nat) (imp : ℚ × ℚ) : Manifold :=
  ⟨m.points.set i { m.points.getD i default with
      normalImpulse := imp.1
      tangentImpulse := imp.2 }⟩

/-- A contact: the two (body, fixture, child) endpoints, material data,
flags, and the cached time of impact data (Contact.hpp model; the flag bits
become booleans, the conditionally valid TOI becomes an option).  The
default field values model a newly constructed contact, which starts
enabled and needing an update. -/
structure Contact where
  bodyA : Nat := InvalidBodyID
  fixtureA : Nat := 0
  childA : Nat := 0
  bodyB : Nat := InvalidBodyID
  fixtureB : Nat := 0
  childB : Nat := 0
  friction : ℚ := 0
  restitution : ℚ := 0
  tangentSpeed : ℚ := 0
  enabled : Bool := true
  touching : Bool := false
  sensor : Bool := false
  impenetrable : Bool := false
  isActive : Bool := false
  needsFiltering : Bool := false
  needsUpdating : Bool := true
  toi : Option ℚ := none
  toiCount : Nat := 0
  deriving DecidableEq, Repr

instance : Inhabited Contact := ⟨{}⟩

/-- Contact::HasValidToi. -/
def Contact.HasValidToi (c : Contact) : Bool := c.toi.isSome

/-- Contact::GetToi (defined when the TOI is valid; defaults to zero). -/
def Contact.GetToi (c : Contact) : ℚ := c.toi.getD 0

/-! ## Bodies -/

/-- The body type enumeration. -/
inductive BodyType where
  | Static
  | Kinematic
  | Dynamic
  deriving DecidableEq, Repr

/-- A body: kinematic state, mass data, flags and adjacency lists
(Body.hpp model with the fields the sampled code reads and writes).  The
joints adjacency list stores (other body, joint) pairs and the contacts
list stores (contact key, contact) pairs, as in the source. -/
structure Body where
  type : BodyType := BodyType.Static
  xf : Transformation := default
  sweep : Sweep := default
  velocity : Velocity := default
  linearAcceleration : Vec2 := default
  angularAcceleration : ℚ := 0
  linearDamping : ℚ := 0
  angularDamping : ℚ := 0
  invMass : ℚ := 0
  invRotI : ℚ := 0
  awake : Bool := false
  enabled : Bool := false
  impenetrable : Bool := false
  fixedRotation : Bool := false
  autoSleep : Bool := true
  massDataDirty : Bool := false
  underActiveTime : ℚ := 0
  fixtures : List Nat := []
  contacts : List (ContactKey × Nat) := []
  joints : List (Nat × Nat) := []

instance : Inhabited Body := ⟨{}⟩

/-- Body::IsSpeedable: kinematic and dynamic bodies can have velocity. -/
def Body.IsSpeedable (b : Body) : Bool := decide (b.type ≠ BodyType.Static)

/-- Body::IsAccelerable: only dynamic bodies accelerate. -/
def Body.IsAccelerable (b : Body) : Bool := decide (b.type = BodyType.Dynamic)

/-- Body::IsImpenetrable. -/
def Body.IsImpenetrable (b : Body) : Bool := b.impenetrable

/-- Body::SetAwakeFlag (Body.hpp model): sets the awake flag. -/
def Body.SetAwakeFlag (b : Body) : Body := { b with awake := true }

/-- Body::SetAwake (Body.hpp model, spec section 4.5): wakes a speedable
body and resets its under-active time; a non-speedable body is left
unchanged. -/
def Body.SetAwake (b : Body) : Body :=
  if b.IsSpeedable then { b with awake := true, underActiveTime := 0 }
  else b

/-- Body::UnsetAwakeFlag (Body.hpp model). -/
def Body.UnsetAwakeFlag (b : Body) : Body := { b with awake := false }

/-- Body::Insert of a joint adjacency entry (Body.cpp lines 171-175). -/
def Body.InsertJoint (b : Body) (joint : Nat) (other : Nat) : Body :=
  { b with joints := b.joints ++ [(other, joint)] }

/-- Body::Insert of a keyed contact entry (Body.cpp lines 177-192). -/
def Body.InsertContact (b : Body) (key : ContactKey) (contact : Nat) : Body :=
  { b with contacts := b.contacts ++ [(key, contact)] }

/-- Body::Erase of a joint adjacency entry (Body.cpp lines 194-205):
removes the first entry holding the given joint identifier. -/
def Body.EraseJoint (b : Body) (joint : Nat) : Body :=
  { b with joints := b.joints.eraseP (fun ji => decide (ji.2 = joint)) }

/-- Body::Erase of a contact entry (Body.cpp lines 207-218): removes the
first entry holding the given contact identifier. -/
def Body.EraseContact (b : Body) (contact : Nat) : Body :=
  { b with contacts := b.contacts.eraseP (fun ci => decide (ci.2 = contact)) }

/-- Body::ClearFixtures. -/
def Body.ClearFixtures (b : Body) : Body := { b with fixtures := [] }

/-- Body::AddFixture. -/
def Body.AddFixture (b : Body) (fixture : Nat) : Body :=
  { b with fixtures := b.fixtures ++ [fixture] }

/-- Body::RemoveFixture: removes the identifier and reports whether it was
present. -/
def Body.RemoveFixture (b : Body) (fixture : Nat) : Bool × Body :=
  if b.fixtures.contains fixture then
    (true, { b with fixtures := b.fixtures.erase fixture })
  else (false, b)

/-- Body::Advance0 (Body.hpp model): advances the sweep start. -/
def Body.Advance0 (b : Body) (alpha : ℚ) : Body :=
  { b with sweep := b.sweep.Advance0 alpha }

/-! ## Joints (world view)

Joint kinds are external collaborators (spec section 1); the world code
under study reads only the two connected bodies and the collide-connected
flag, so the joint is embedded as that record.
-/

/-- The joint data the sampled world code consumes: the two connected body
identifiers and the collide-connected flag (spec sections 3 and 4.8). -/
structure Joint where
  bodyA : Nat := InvalidBodyID
  bodyB : Nat := InvalidBodyID
  collideConnected : Bool := false
  deriving DecidableEq, Repr

instance : Inhabited Joint := ⟨{}⟩

/-- GetCollideConnected free function on a joint. -/
def GetCollideConnected (j : Joint) : Bool := j.collideConnected

/-! ## The world (src/PlayRho/Dynamics/WorldImpl.cpp)

The world state mirrors the WorldImpl members the sampled code uses.  The
external math routines of the repository that are not among the sampled
sources (square root for friction mixing, cosine/sine for angles, angle
extraction) are collected in a math-model record passed to the operations
that consume them.
-/

/-- The error taxonomy of the world interface (spec section 7). -/
inductive WorldError where
  | WrongState
  | InvalidArgument
  | LengthError
  deriving DecidableEq, Repr

/-- External math routines consumed by world operations but defined outside
the sampled sources: square root (friction mixing, magnitudes), the unit
vector of an angle, and the angle of a unit vector. -/
structure MathModel where
  msqrt : ℚ → ℚ
  cossin : ℚ → UnitVec2
  angleOf : UnitVec2 → ℚ

/-- The world implementation state (WorldImpl.hpp members used by the
sampled WorldImpl.cpp code). -/
structure World where
  tree : TreeModel := []
  bodyBuffer : ArrayAllocator Body := ⟨[], []⟩
  fixtureBuffer : ArrayAllocator Fixture := ⟨[], []⟩
  jointBuffer : ArrayAllocator Joint := ⟨[], []⟩
  contactBuffer : ArrayAllocator Contact := ⟨[], []⟩
  manifoldBuffer : ArrayAllocator Manifold := ⟨[], []⟩
  bodies : List Nat := []
  joints : List Nat := []
  contacts : List (ContactKey × Nat) := []
  bodiesForProxies : List Nat := []
  fixturesForProxies : List Nat := []
  proxies : List Nat := []
  locked : Bool := false
  newFixtures : Bool := false
  stepComplete : Bool := true
  subStepping : Bool := false
  inv_dt0 : ℚ := 0
  minVertexRadius : ℚ := 0
  maxVertexRadius : ℚ := 1000000

instance : Inhabited Leaf := ⟨⟨default, InvalidBodyID, 0, 0⟩⟩

/-- Reads a body slot. -/
def World.getBody (w : World) (i : Nat) : Body := w.bodyBuffer.get i

/-- Rewrites a body slot through a function. -/
def World.modifyBody (w : World) (i : Nat) (f : Body → Body) : World :=
  { w with bodyBuffer := w.bodyBuffer.modify i f }

/-- Reads a fixture slot. -/
def World.getFixture (w : World) (i : Nat) : Fixture := w.fixtureBuffer.get i

/-- Rewrites a fixture slot through a function. -/
def World.modifyFixture (w : World) (i : Nat) (f : Fixture → Fixture) : World :=
  { w with fixtureBuffer := w.fixtureBuffer.modify i f }

/-- Reads a contact slot. -/
def World.getContact (w : World) (i : Nat) : Contact := w.contactBuffer.get i

/-- Rewrites a contact slot through a function. -/
def World.modifyContact (w : World) (i : Nat) (f : Contact → Contact) : World :=
  { w with contactBuffer := w.contactBuffer.modify i f }

/-- Reads a joint slot. -/
def World.getJoint (w : World) (i : Nat) : Joint := w.jointBuffer.get i

/-- ShouldCollide on two bodies (WorldImpl.cpp lines 429-445): at least one
body must be accelerable and no joint on the lhs body connected to the rhs
body may have collide-connected unset. -/
def ShouldCollideBodies (jointBuffer : ArrayAllocator Joint) (lhs rhs : Body)
    (rhsID : Nat) : Bool :=
  if ¬lhs.IsAccelerable ∧ ¬rhs.IsAccelerable then false
  else
    ¬(lhs.joints.any (fun ji =>
        decide (ji.1 = rhsID) && !(jointBuffer.get ji.2).collideConnected))

/-- FlagContactsForFiltering (WorldImpl.cpp lines 390-407): flags every
contact of body B whose other body is body A. -/
def FlagContactsForFiltering (contactBuffer : ArrayAllocator Contact)
    (bodyA : Nat) (contactsBodyB : List (ContactKey × Nat)) (bodyB : Nat) :
    ArrayAllocator Contact :=
  contactsBodyB.foldl (fun buf ci =>
    let contact := buf.get ci.2
    let bA := contact.bodyA
    let bB := contact.bodyB
    let other := if bA ≠ bodyB then bA else bB
    if other = bodyA then
      buf.modify ci.2 (fun c => { c with needsFiltering := true })
    else buf) contactBuffer

/-- FlagForUpdating (WorldImpl.cpp lines 421-427): flags the given keyed
contacts as needing a narrow-phase update. -/
def FlagForUpdating (contactBuffer : ArrayAllocator Contact)
    (contacts : List (ContactKey × Nat)) : ArrayAllocator Contact :=
  contacts.foldl (fun buf ci =>
    buf.modify ci.2 (fun c => { c with needsUpdating := true })) contactBuffer

/-- WorldImpl::InternalDestroy of a contact (lines 1773-1808): erases the
adjacency entries of both endpoint bodies except the originating one, wakes
the bodies when the manifold carried points and the contact was no sensor,
and frees the contact and manifold slots.  The end-contact listener call of
the source is external to the world state. -/
def World.InternalDestroy (w : World) (contactID : Nat)
    (fromBody : Option Nat := none) : World :=
  let contact := w.getContact contactID
  let bodyIdA := contact.bodyA
  let bodyIdB := contact.bodyB
  let w := if fromBody ≠ some bodyIdA then
      w.modifyBody bodyIdA (fun b => b.EraseContact contactID) else w
  let w := if fromBody ≠ some bodyIdB then
      w.modifyBody bodyIdB (fun b => b.EraseContact contactID) else w
  let manifold := w.manifoldBuffer.get contactID
  let w := if manifold.GetPointCount > 0 ∧ ¬contact.sensor then
      (w.modifyBody bodyIdA Body.SetAwake).modifyBody bodyIdB Body.SetAwake
    else w
  { w with
    contactBuffer := w.contactBuffer.Free contactID
    manifoldBuffer := w.manifoldBuffer.Free contactID }

/-- WorldImpl::Destroy of a contact (lines 1810-1823): removes the keyed
entry from the world contact list and internally destroys the contact. -/
def World.DestroyContact (w : World) (contactID : Nat)
    (fromBody : Option Nat := none) : World :=
  let w := { w with
    contacts := w.contacts.eraseP (fun c => decide (c.2 = contactID)) }
  w.InternalDestroy contactID fromBody

/-- Body::Erase with a destroying callback as used by the world (Body.cpp
lines 220-240 with the callbacks of WorldImpl.cpp): walks the contact list
of the body, removes every entry the predicate selects and destroys the
selected contact with the body as the originating one. -/
def World.eraseBodyContactsWhere (w : World) (bodyID : Nat)
    (p : World → Nat → Bool) : World :=
  let entries := (w.getBody bodyID).contacts
  entries.foldl (fun wacc entry =>
    if p wacc entry.2 then
      let wacc := wacc.modifyBody bodyID (fun b => b.EraseContact entry.2)
      wacc.DestroyContact entry.2 (some bodyID)
    else wacc) w

/-- One iteration of the contact-destruction loop of
WorldImpl::DestroyContacts (lines 1825-1868), acting on the accumulated
world and kept-contact list. -/
def DestroyContactsStep (acc : World × List (ContactKey × Nat))
    (entry : ContactKey × Nat) : World × List (ContactKey × Nat) :=
  let wacc := acc.1
  let kept := acc.2
  let key := entry.1
  let contactID := entry.2
  if ¬(wacc.tree.TestOverlap key.minK key.maxK) then
    (wacc.InternalDestroy contactID, kept)
  else
    let contact := wacc.getContact contactID
    if contact.needsFiltering then
      let bodyIdA := contact.bodyA
      let bodyA := wacc.getBody bodyIdA
      let bodyB := wacc.getBody contact.bodyB
      let fixtureA := wacc.getFixture contact.fixtureA
      let fixtureB := wacc.getFixture contact.fixtureB
      if ¬(ShouldCollideBodies wacc.jointBuffer bodyB bodyA bodyIdA)
          ∨ ¬(ShouldCollideFixtures fixtureA fixtureB) then
        (wacc.InternalDestroy contactID, kept)
      else
        (wacc.modifyContact contactID
           (fun c => { c with needsFiltering := false }),
         kept ++ [entry])
    else (wacc, kept ++ [entry])

/-- WorldImpl::DestroyContacts (lines 1825-1868): destroys every contact
whose proxy pair no longer overlaps in the tree, and every contact flagged
for filtering whose current joint or fixture filter state forbids
collision; surviving flagged contacts are unflagged. -/
def World.DestroyContactsPhase (w : World) : World :=
  let res := w.contacts.foldl DestroyContactsStep (w, [])
  { res.1 with contacts := res.2 }

/-- Modelled from the spec: the default friction of a new contact mixes the
two fixture frictions by the geometric mean (Contact.hpp GetDefaultFriction
is not among the sampled sources); the square root comes from the math
model. -/
def GetDefaultFriction (mm : MathModel) (fixtureA fixtureB : Fixture) : ℚ :=
  mm.msqrt (fixtureA.friction * fixtureB.friction)

/-- Modelled from the spec: the default restitution of a new contact is the
larger fixture restitution (Contact.hpp GetDefaultRestitution is not among
the sampled sources). -/
def GetDefaultRestitution (fixtureA fixtureB : Fixture) : ℚ :=
  max fixtureA.restitution fixtureB.restitution

/-- WorldImpl::Add of a contact key (lines 2019-2150): reject the pair when
a joint or the fixture filters forbid collision, when a contact for the key
already exists on the endpoint body with fewer contacts, or when the
contact maximum is reached; otherwise allocate the contact and its
manifold, derive its flags and material data, append it to the world list
and both body lists, and wake the speedable endpoint bodies of a non-sensor
contact.  Returns whether a contact was added. -/
def ContactFromLeafPair (mm : MathModel) (bodyA bodyB : Body)
    (fixtureA fixtureB : Fixture) (c : Contact) : Contact :=
  let c := if bodyA.IsImpenetrable ∨ bodyB.IsImpenetrable then
      { c with impenetrable := true } else c
  let c := if bodyA.awake ∨ bodyB.awake then
      { c with isActive := true } else c
  let c := if fixtureA.isSensor ∨ fixtureB.isSensor then
      { c with sensor := true } else c
  { c with
    friction := GetDefaultFriction mm fixtureA fixtureB
    restitution := GetDefaultRestitution fixtureA fixtureB }

/-- The allocation and linking part of WorldImpl::Add (lines 2104-2146),
reached once every rejection test has passed: allocate the contact and its
manifold, derive the flags and material data from the endpoint bodies and
fixtures, append the keyed contact to the world list and both body lists,
and wake the speedable endpoint bodies of a non-sensor contact. -/
def World.AddKeyLink (w : World) (key : ContactKey)
    (contactID bodyIdA bodyIdB : Nat) : World :=
  let w4 := { w with contacts := w.contacts ++ [(key, contactID)] }
  let w5 := w4.modifyBody bodyIdA (fun b => b.InsertContact key contactID)
  w5.modifyBody bodyIdB (fun b => b.InsertContact key contactID)

/-- The wake-up tail of WorldImpl::Add (lines 2135-2146): the speedable
endpoint bodies of a non-sensor contact get their awake flag set. -/
def World.AddKeyWake (w : World) (bodyA bodyB : Body)
    (contactID bodyIdA bodyIdB : Nat) : World :=
  let sensor := (w.getContact contactID).sensor
  if ¬sensor then
    let w7 := if bodyA.IsSpeedable then
        w.modifyBody bodyIdA Body.SetAwakeFlag else w
    if bodyB.IsSpeedable then
      w7.modifyBody bodyIdB Body.SetAwakeFlag else w7
  else w

def World.AddKeyDo (mm : MathModel) (w : World) (key : ContactKey) : World :=
  let minKeyLeafData := (w.tree.leafAt key.minK).getD default
  let maxKeyLeafData := (w.tree.leafAt key.maxK).getD default
  let bodyIdA := minKeyLeafData.body
  let bodyIdB := maxKeyLeafData.body
  let bodyA := w.getBody bodyIdA
  let bodyB := w.getBody bodyIdB
  let fixtureA := w.getFixture minKeyLeafData.fixture
  let fixtureB := w.getFixture maxKeyLeafData.fixture
  let newContact : Contact :=
    { bodyA := bodyIdA, fixtureA := minKeyLeafData.fixture,
      childA := minKeyLeafData.childIndex,
      bodyB := bodyIdB, fixtureB := maxKeyLeafData.fixture,
      childB := maxKeyLeafData.childIndex }
  let alloc := w.contactBuffer.Allocate newContact
  let contactID := alloc.1
  let w1 := { w with contactBuffer := alloc.2 }
  let w2 := { w1 with
    manifoldBuffer := (w1.manifoldBuffer.Allocate default).2 }
  let w3 := w2.modifyContact contactID
    (ContactFromLeafPair mm bodyA bodyB fixtureA fixtureB)
  let w6 := w3.AddKeyLink key contactID bodyIdA bodyIdB
  w6.AddKeyWake bodyA bodyB contactID bodyIdA bodyIdB

def World.AddKey (mm : MathModel) (w : World) (key : ContactKey) :
    Bool × World :=
  let minKeyLeafData := (w.tree.leafAt key.minK).getD default
  let maxKeyLeafData := (w.tree.leafAt key.maxK).getD default
  let bodyIdA := minKeyLeafData.body
  let bodyIdB := maxKeyLeafData.body
  let bodyA := w.getBody bodyIdA
  let bodyB := w.getBody bodyIdB
  let fixtureA := w.getFixture minKeyLeafData.fixture
  let fixtureB := w.getFixture maxKeyLeafData.fixture
  if ¬(ShouldCollideBodies w.jointBuffer bodyB bodyA bodyIdA)
      ∨ ¬(ShouldCollideFixtures fixtureA fixtureB) then (false, w)
  else
    let contactsA := bodyA.contacts
    let contactsB := bodyB.contacts
    let bodyContacts := if contactsA.length < contactsB.length then contactsA
                        else contactsB
    if bodyContacts.any (fun ci => decide (ci.1 = key)) then (false, w)
    else if w.contacts.length ≥ MaxContacts then (false, w)
    else (true, w.AddKeyDo mm key)

/-- Removal of consecutive duplicates, the semantics of the erase-unique
idiom applied to the sorted key list in FindNewContacts. -/
def compressConsecutive {α : Type} [DecidableEq α] : List α → List α
  | [] => []
  | [a] => [a]
  | a :: b :: rest =>
    if a = b then compressConsecutive (b :: rest)
    else a :: compressConsecutive (b :: rest)

/-- The pair keys one moved proxy contributes in WorldImpl::FindNewContacts
(lines 1987-2006): one key per queried leaf on a different body than the
proxy's own leaf. -/
def World.pairKeysFor (w : World) (pid : Nat) : List ContactKey :=
  let body0 := ((w.tree.leafAt pid).getD default).body
  let aabb := w.tree.GetAABB pid
  let hits := w.tree.Query aabb
  hits.filterMap (fun nodeId =>
    let body1 := ((w.tree.leafAt nodeId).getD default).body
    if nodeId ≠ pid ∧ body0 ≠ body1 then some (ContactKey.make nodeId pid)
    else none)

/-- The full key accumulation over the moved-proxy queue in
WorldImpl::FindNewContacts. -/
def World.proxyKeysOf (w : World) : List ContactKey :=
  w.proxies.foldl (fun keys pid => keys ++ w.pairKeysFor pid) []

/-- WorldImpl::FindNewContacts (lines 1982-2017): accumulates a contact key
for every ordered pair of distinct-body overlapping leaves with one member
in the moved-proxy queue, clears the queue, sorts and deduplicates the
keys, and adds a contact per surviving key. -/
def World.FindNewContacts (mm : MathModel) (w : World) : World :=
  let proxyKeys := w.proxyKeysOf
  let w := { w with proxies := [] }
  let sortedKeys := proxyKeys.mergeSort ContactKey.leb
  let uniqueKeys := compressConsecutive sortedKeys
  uniqueKeys.foldl (fun wacc key => (wacc.AddKey mm key).2) w

/-- DestroyProxies of a fixture (WorldImpl.cpp lines 507-524): removes the
tree leaves of the fixture in reverse creation order, erasing each from the
moved-proxy queue, and clears the proxy list of the fixture. -/
def World.DestroyProxiesOf (w : World) (fixtureID : Nat) : World :=
  let fixture := w.getFixture fixtureID
  let w := fixture.proxies.reverse.foldl (fun wacc treeId =>
    { wacc with
      proxies := wacc.proxies.erase treeId
      tree := wacc.tree.DestroyLeaf treeId }) w
  w.modifyFixture fixtureID (fun f => { f with proxies := [] })

/-- WorldImpl::CreateProxies (lines 2379-2405): creates one fattened tree
leaf per shape child at the given transformation, enqueues each for contact
discovery, and stores the list on the fixture. -/
def World.CreateProxies (w : World) (fixtureID : Nat) (xfm : Transformation)
    (aabbExtension : ℚ) : World :=
  let fixture := w.getFixture fixtureID
  let bodyID := fixture.body
  let shape := fixture.shape
  let childCount := shape.childCount
  let res := (List.range childCount).foldl
    (fun (acc : World × List Nat) childIndex =>
      let wacc := acc.1
      let aabb := shape.computeAABB childIndex xfm
      let fattenedAABB := GetFattenedAABB aabb aabbExtension
      let created := wacc.tree.CreateLeaf fattenedAABB bodyID fixtureID childIndex
      ({ wacc with
          tree := created.2
          proxies := wacc.proxies ++ [created.1] },
       acc.2 ++ [created.1]))
    (w, [])
  res.1.modifyFixture fixtureID (fun f => { f with proxies := res.2 })

/-- WorldImpl::InternalTouchProxies (lines 2407-2412): enqueues every proxy
of the fixture for contact discovery. -/
def World.InternalTouchProxies (w : World) (fixtureID : Nat) : World :=
  { w with proxies := w.proxies ++ (w.getFixture fixtureID).proxies }

/-- WorldImpl::Synchronize of one fixture (lines 2431-2459): recomputes the
swept AABB of each child; when the stored tree AABB no longer contains it,
updates the leaf with the fattened and displaced AABB and enqueues the
proxy. -/
def World.SynchronizeFixture (w : World) (fixtureID : Nat)
    (xfm1 xfm2 : Transformation) (displacement : Vec2) (extension : ℚ) :
    World :=
  let fixture := w.getFixture fixtureID
  let shape := fixture.shape
  (fixture.proxies.enum).foldl (fun wacc ip =>
    let childIndex := ip.1
    let treeId := ip.2
    let aabb := shape.computeSweptAABB childIndex xfm1 xfm2
    if ¬(ContainsAABB (wacc.tree.GetAABB treeId) aabb) then
      let newAabb := GetDisplacedAABB (GetFattenedAABB aabb extension)
                       displacement
      { wacc with
        tree := wacc.tree.UpdateLeaf treeId newAabb
        proxies := wacc.proxies ++ [treeId] }
    else wacc) w

/-- WorldImpl::Synchronize of one body (lines 2414-2429): synchronizes the
proxies of every fixture of the body between the two transformations. -/
def World.SynchronizeBody (w : World) (bodyID : Nat)
    (xfm1 xfm2 : Transformation) (multiplier extension : ℚ) : World :=
  let displacement := multiplier • (xfm2.p - xfm1.p)
  let body := w.getBody bodyID
  body.fixtures.foldl (fun wacc fixtureID =>
    wacc.SynchronizeFixture fixtureID xfm1 xfm2 displacement extension) w

/-- WorldImpl::CreateAndDestroyProxies (lines 2165-2200): for every fixture
tagged since the last step, creates its proxies when the owning body is
enabled and it has none, or destroys its proxies and its contacts when the
owning body is disabled. -/
def World.CreateAndDestroyProxies (w : World) (extension : ℚ) : World :=
  w.fixturesForProxies.foldl (fun wacc fixtureID =>
    let fixture := wacc.getFixture fixtureID
    let body := wacc.getBody fixture.body
    let enabled := body.enabled
    if fixture.proxies.isEmpty then
      if enabled then wacc.CreateProxies fixtureID body.xf extension
      else wacc
    else
      if ¬enabled then
        let wacc := wacc.DestroyProxiesOf fixtureID
        wacc.eraseBodyContactsWhere fixture.body (fun w2 contactID =>
          let contact := w2.getContact contactID
          decide (contact.fixtureA = fixtureID ∨ contact.fixtureB = fixtureID))
      else wacc) w

/-- WorldImpl::SynchronizeProxies (lines 2202-2213): synchronizes the
proxies of every body tagged since the last step at its current
transformation, then clears the tag list. -/
def World.SynchronizeProxies (w : World) (conf_displaceMultiplier conf_aabbExtension : ℚ) :
    World :=
  let w2 := w.bodiesForProxies.foldl (fun wacc bodyID =>
    let b := wacc.getBody bodyID
    let xfm := b.xf
    wacc.SynchronizeBody bodyID xfm xfm conf_displaceMultiplier
      conf_aabbExtension) w
  { w2 with bodiesForProxies := [] }

/-! ## Public mutating operations of the world -/

/-- Body configuration data (BodyConf.hpp model with the fields Body.cpp
reads). -/
structure BodyConf where
  type : BodyType := BodyType.Static
  location : Vec2 := default
  angle : ℚ := 0
  linearVelocity : Vec2 := default
  angularVelocity : ℚ := 0
  linearAcceleration : Vec2 := default
  angularAcceleration : ℚ := 0
  linearDamping : ℚ := 0
  angularDamping : ℚ := 0
  underActiveTime : ℚ := 0
  bullet : Bool := false
  fixedRotation : Bool := false
  allowSleep : Bool := true
  awake : Bool := true
  enabled : Bool := true

/-- Body::SetVelocity (Body.cpp lines 108-120): a non-zero velocity is
dropped on a non-speedable body; otherwise a non-zero velocity wakes the
body and resets its under-active time before being stored. -/
def Body.SetVelocityOp (b : Body) (velocity : Velocity) : Body :=
  if velocity.linear ≠ (⟨0, 0⟩ : Vec2) ∨ velocity.angular ≠ 0 then
    if ¬b.IsSpeedable then b
    else { b with awake := true, underActiveTime := 0, velocity := velocity }
  else { b with velocity := velocity }

/-- Body::SetAcceleration (Body.cpp lines 122-156): unchanged values bail;
a non-zero acceleration is dropped on a non-accelerable body; an increase
of magnitude or a direction change wakes the body.  The angle comparison of
the source uses the external angle routine of the math model. -/
def Body.SetAccelerationOp (mm : MathModel) (b : Body) (linear : Vec2)
    (angular : ℚ) : Body :=
  if b.linearAcceleration = linear ∧ b.angularAcceleration = angular then b
  else if ¬b.IsAccelerable then
    if linear ≠ (⟨0, 0⟩ : Vec2) ∨ angular ≠ 0 then b
    else { b with linearAcceleration := linear, angularAcceleration := angular }
  else
    let wake := b.angularAcceleration < angular
      ∨ GetMagnitudeSquared b.linearAcceleration < GetMagnitudeSquared linear
      ∨ mm.angleOf ⟨b.linearAcceleration.x, b.linearAcceleration.y⟩
          ≠ mm.angleOf ⟨linear.x, linear.y⟩
      ∨ (decide (b.angularAcceleration < 0)) ≠ (decide (angular < 0))
    if wake then
      { b with
        awake := true
        underActiveTime := 0
        linearAcceleration := linear
        angularAcceleration := angular }
    else
      { b with linearAcceleration := linear, angularAcceleration := angular }

/-- Body::GetFlags of a configuration (Body.cpp lines 47-87), reduced to
the awake flag outcome: a speedable body is awake when requested awake, or
when sleeping is disallowed. -/
def BodyConf.awakeFlag (bd : BodyConf) : Bool :=
  let speedable := decide (bd.type ≠ BodyType.Static)
  if bd.awake then speedable else (!bd.allowSleep && speedable)

/-- The Body constructor (Body.cpp lines 89-106): transformation from the
configuration, a degenerate sweep at the configured position, flags, the
inverse mass of a dynamic body, damping, then the velocity, acceleration
and under-active time setters. -/
def Body.mkFromConf (mm : MathModel) (bd : BodyConf) : Body :=
  let b : Body :=
    { type := bd.type
      xf := ⟨bd.location, mm.cossin bd.angle⟩
      sweep := ⟨⟨bd.location, bd.angle⟩, ⟨bd.location, bd.angle⟩, default, 0⟩
      invMass := if bd.type = BodyType.Dynamic then 1 else 0
      linearDamping := bd.linearDamping
      angularDamping := bd.angularDamping
      awake := bd.awakeFlag
      enabled := bd.enabled
      impenetrable := bd.bullet
      fixedRotation := bd.fixedRotation
      autoSleep := bd.allowSleep }
  let b := b.SetVelocityOp ⟨bd.linearVelocity, bd.angularVelocity⟩
  let b := b.SetAccelerationOp mm bd.linearAcceleration bd.angularAcceleration
  { b with underActiveTime := bd.underActiveTime }

/-- WorldImpl::CreateBody (lines 581-595): rejects a locked world and the
body maximum, then allocates the body and appends its identifier. -/
def World.CreateBody (mm : MathModel) (w : World) (def_ : BodyConf) :
    Except WorldError (Nat × World) :=
  if w.locked then Except.error WorldError.WrongState
  else if w.bodies.length ≥ MaxBodies then Except.error WorldError.LengthError
  else
    let alloc := w.bodyBuffer.Allocate (Body.mkFromConf mm def_)
    Except.ok (alloc.1,
      { w with bodyBuffer := alloc.2, bodies := w.bodies ++ [alloc.1] })

/-- WorldImpl::Remove of a body (lines 597-607): removes the identifier
from the proxy tag list and, when listed, from the body list, freeing its
slot. -/
def World.RemoveBody (w : World) (id : Nat) : World :=
  let w := { w with
    bodiesForProxies := w.bodiesForProxies.filter (fun b => decide (b ≠ id)) }
  if w.bodies.contains id then
    { w with bodies := w.bodies.erase id, bodyBuffer := w.bodyBuffer.Free id }
  else w

/-- WorldImpl::Add of a joint (lines 693-710): inserts the adjacency
entries on the connected bodies and optionally flags their contacts for
filtering. -/
def World.AddJoint (w : World) (id : Nat) (flagForFiltering : Bool) : World :=
  let joint := w.getJoint id
  let bodyA := joint.bodyA
  let bodyB := joint.bodyB
  let w := if bodyA ≠ InvalidBodyID then
      w.modifyBody bodyA (fun b => b.InsertJoint id bodyB) else w
  let w := if bodyB ≠ InvalidBodyID then
      w.modifyBody bodyB (fun b => b.InsertJoint id bodyA) else w
  if flagForFiltering ∧ bodyA ≠ InvalidBodyID ∧ bodyB ≠ InvalidBodyID then
    let buf := FlagContactsForFiltering w.contactBuffer bodyA
      (w.getBody bodyB).contacts bodyB
    { w with contactBuffer := buf }
  else w

/-- WorldImpl::Remove of a joint (lines 712-740): flags the contacts of the
pair for filtering when the joint prevented collision, then wakes the
connected bodies and erases the adjacency entries. -/
def World.RemoveJoint (w : World) (id : Nat) : World :=
  let joint := w.getJoint id
  let bodyIdA := joint.bodyA
  let bodyIdB := joint.bodyB
  let collideConnected := joint.collideConnected
  let w := if ¬collideConnected ∧ bodyIdA ≠ InvalidBodyID
              ∧ bodyIdB ≠ InvalidBodyID then
      let buf := FlagContactsForFiltering w.contactBuffer bodyIdA
        (w.getBody bodyIdB).contacts bodyIdB
      { w with contactBuffer := buf }
    else w
  let w := if bodyIdA ≠ InvalidBodyID then
      w.modifyBody bodyIdA (fun b => (b.SetAwake).EraseJoint id) else w
  if bodyIdB ≠ InvalidBodyID then
    w.modifyBody bodyIdB (fun b => (b.SetAwake).EraseJoint id)
  else w

/-- WorldImpl::CreateJoint (lines 673-691): rejects a locked world and the
joint maximum, allocates the joint, appends its identifier and adds the
adjacency entries, flagging for filtering when the joint does not collide
its connected bodies. -/
def World.CreateJoint (w : World) (def_ : Joint) :
    Except WorldError (Nat × World) :=
  if w.locked then Except.error WorldError.WrongState
  else if w.joints.length ≥ MaxJoints then Except.error WorldError.LengthError
  else
    let alloc := w.jointBuffer.Allocate def_
    let w := { w with jointBuffer := alloc.2, joints := w.joints ++ [alloc.1] }
    Except.ok (alloc.1, w.AddJoint alloc.1 (!GetCollideConnected def_))

/-- WorldImpl::SetJoint (lines 657-671): rejects a locked world; when the
identifier is listed, removes the joint, overwrites its slot and re-adds
it. -/
def World.SetJoint (w : World) (id : Nat) (def_ : Joint) :
    Except WorldError World :=
  if w.locked then Except.error WorldError.WrongState
  else if w.joints.contains id then
    let w := w.RemoveJoint id
    let w := { w with jointBuffer := w.jointBuffer.set id def_ }
    Except.ok (w.AddJoint id (!GetCollideConnected def_))
  else Except.ok w

/-- WorldImpl::Destroy of a joint (lines 742-754): rejects a locked world;
when the identifier is listed, removes the joint, unlists it and frees its
slot. -/
def World.DestroyJoint (w : World) (id : Nat) : Except WorldError World :=
  if w.locked then Except.error WorldError.WrongState
  else if w.joints.contains id then
    let w := w.RemoveJoint id
    Except.ok { w with
      joints := w.joints.erase id
      jointBuffer := w.jointBuffer.Free id }
  else Except.ok w

/-- The joint destruction loop of WorldImpl::Destroy of a body (lines
618-634), written with explicit fuel for the while loop of the source: as
long as the body holds a joint adjacency entry, the first entry is removed
and, when listed, unlisted; the source then frees the joint-buffer slot at
the index of the destroyed BODY (line 631 passes id, the BodyID parameter,
rather than jointID).  The fuel only bounds the iteration count; with
enough fuel the embedding matches every terminating execution of the
source. -/
def World.DestroyBodyJointsLoop : Nat → World → Nat → World
  | 0, w, _ => w
  | Nat.succ fuel, w, id =>
    let body := w.getBody id
    match body.joints with
    | [] => w
    | ji :: _ =>
      let jointID := ji.2
      let w :=
        if w.joints.contains jointID then
          let w := w.RemoveJoint jointID
          { w with
            joints := w.joints.erase jointID
            jointBuffer := w.jointBuffer.Free id }
        else w
      World.DestroyBodyJointsLoop fuel w id

/-- WorldImpl::Destroy of a body (lines 609-655): rejects a locked world;
destroys the attached joints (with the slot-free slip of line 631), the
attached contacts, and the attached fixtures with their proxies, then
removes the body. -/
def World.DestroyBody (w : World) (id : Nat) : Except WorldError World :=
  if w.locked then Except.error WorldError.WrongState
  else
    let w := World.DestroyBodyJointsLoop ((w.getBody id).joints.length) w id
    let w := w.eraseBodyContactsWhere id (fun _ _ => true)
    let body := w.getBody id
    let w := body.fixtures.foldl (fun wacc fixtureID =>
      let wacc := { wacc with
        fixturesForProxies :=
          wacc.fixturesForProxies.filter (fun f => decide (f ≠ fixtureID)) }
      let wacc := wacc.DestroyProxiesOf fixtureID
      { wacc with fixtureBuffer := wacc.fixtureBuffer.Free fixtureID }) w
    let w := w.modifyBody id Body.ClearFixtures
    Except.ok (w.RemoveBody id)

/-- WorldImpl::ComputeMassData (lines 2516-2535): sums the mass data of the
fixtures with positive density; the center is the mass-weighted average. -/
def World.ComputeMassData (w : World) (id : Nat) : MassData :=
  let body := w.getBody id
  let acc := body.fixtures.foldl
    (fun (acc : ℚ × Vec2 × ℚ) f =>
      let fixture := w.getFixture f
      if fixture.density > 0 then
        let massData := fixture.shape.massData
        (acc.1 + massData.mass,
         acc.2.1 + massData.mass • massData.center,
         acc.2.2 + massData.I)
      else acc)
    (0, default, 0)
  let center := if acc.1 > 0 then (1 / acc.1) • acc.2.1 else (default : Vec2)
  ⟨center, acc.1, acc.2.2⟩

/-- WorldImpl::SetMassData (lines 2537-2584): rejects a locked world; a
non-accelerable body gets zero inverse mass and inertia and a degenerate
sweep; otherwise the inverse mass and inverse rotational inertia are
derived, the sweep is rebuilt about the new center, and the velocity gains
the angular contribution of the center shift. -/
def World.SetMassData (w : World) (id : Nat) (massData : MassData) :
    Except WorldError World :=
  if w.locked then Except.error WorldError.WrongState
  else
    let body := w.getBody id
    if ¬body.IsAccelerable then
      Except.ok (w.modifyBody id (fun b =>
        { b with
          invMass := 0
          invRotI := 0
          sweep := ⟨⟨b.xf.p, b.sweep.pos1.angular⟩,
                    ⟨b.xf.p, b.sweep.pos1.angular⟩, default, 0⟩
          massDataDirty := false }))
    else
      let mass := if massData.mass > 0 then massData.mass else 1
      let invMass := 1 / mass
      let invRotI :=
        if massData.I > 0 ∧ ¬body.fixedRotation then
          let lengthSquared := GetMagnitudeSquared massData.center
          let I := massData.I - mass * lengthSquared
          1 / I
        else 0
      let oldCenter := body.sweep.pos1.linear
      let newPos : Position :=
        ⟨Transform massData.center body.xf, body.sweep.pos1.angular⟩
      let newCenter := newPos.linear
      let deltaCenter := newCenter - oldCenter
      let newVelocity : Velocity :=
        ⟨body.velocity.linear
           + body.velocity.angular • GetRevPerpendicular deltaCenter,
         body.velocity.angular⟩
      Except.ok (w.modifyBody id (fun b =>
        { b with
          invMass := invMass
          invRotI := invRotI
          sweep := ⟨newPos, newPos, massData.center, 0⟩
          velocity := newVelocity
          massDataDirty := false }))

/-- Body::SetType at the body level.  Modelled from the spec section 3
(Body.hpp is not among the sampled sources): the type flag changes; a body
made non-speedable loses its velocity and awake flag, as only dynamic and
kinematic bodies may have them. -/
def Body.SetTypeOp (b : Body) (type : BodyType) : Body :=
  let b := { b with type := type }
  if type = BodyType.Static then
    { b with velocity := default, awake := false, underActiveTime := 0 }
  else b

/-- WorldImpl::SetType (lines 2215-2254): bails on an unchanged type,
rejects a locked world, retypes the body, resets its mass data, destroys
its contacts, and either tags the body for proxy synchronization (made
static) or wakes it and enqueues its proxies for contact discovery. -/
def World.SetType (w : World) (bodyID : Nat) (type : BodyType) :
    Except WorldError World :=
  let body := w.getBody bodyID
  if body.type = type then Except.ok w
  else if w.locked then Except.error WorldError.WrongState
  else
    let w := w.modifyBody bodyID (fun b => b.SetTypeOp type)
    match w.SetMassData bodyID (w.ComputeMassData bodyID) with
    | Except.error e => Except.error e
    | Except.ok w =>
      let w := w.eraseBodyContactsWhere bodyID (fun _ _ => true)
      if type = BodyType.Static then
        Except.ok { w with bodiesForProxies := w.bodiesForProxies ++ [bodyID] }
      else
        let w := w.modifyBody bodyID Body.SetAwake
        let fixtures := (w.getBody bodyID).fixtures
        Except.ok (fixtures.foldl
          (fun wacc fixtureID => wacc.InternalTouchProxies fixtureID) w)

/-- Fixture configuration data (FixtureConf model). -/
structure FixtureConf where
  friction : ℚ := 2 / 10
  restitution : ℚ := 0
  density : ℚ := 0
  filter : Filter := default
  isSensor : Bool := false

/-- WorldImpl::CreateFixture (lines 2256-2313): validates every child
vertex radius against the world bounds (before the lock check), rejects a
locked world and the fixture maximum, validates the body identifier,
allocates the fixture, attaches it, tags it for proxy creation on an
enabled body, dirties and optionally resets the body mass data, and raises
the new-fixture flag.  The out-of-range exception of the body lookup is
embedded as the invalid-argument error. -/
def World.CreateFixture (w : World) (bodyID : Nat)
    (shape : Shape) (def_ : FixtureConf) (resetMassData : Bool := true) :
    Except WorldError (Nat × World) :=
  if (List.range shape.childCount).any (fun i =>
      !(decide (w.minVertexRadius ≤ shape.vertexRadius i)
        ∧ decide (shape.vertexRadius i ≤ w.maxVertexRadius))) then
    Except.error WorldError.InvalidArgument
  else if w.locked then Except.error WorldError.WrongState
  else if w.fixtureBuffer.size ≥ MaxFixtures then
    Except.error WorldError.LengthError
  else if bodyID ≥ w.bodyBuffer.size then Except.error WorldError.InvalidArgument
  else
    let fixture : Fixture :=
      { body := bodyID, shape := shape, density := def_.density,
        friction := def_.friction, restitution := def_.restitution,
        filter := def_.filter, isSensor := def_.isSensor, proxies := [] }
    let alloc := w.fixtureBuffer.Allocate fixture
    let fixtureID := alloc.1
    let w := { w with fixtureBuffer := alloc.2 }
    let w := w.modifyBody bodyID (fun b => b.AddFixture fixtureID)
    let w := if (w.getBody bodyID).enabled then
        { w with fixturesForProxies := w.fixturesForProxies ++ [fixtureID] }
      else w
    let res :=
      if (w.getFixture fixtureID).density > 0 then
        let w := w.modifyBody bodyID (fun b => { b with massDataDirty := true })
        if resetMassData then w.SetMassData bodyID (w.ComputeMassData bodyID)
        else Except.ok w
      else Except.ok w
    match res with
    | Except.error e => Except.error e
    | Except.ok w => Except.ok (fixtureID, { w with newFixtures := true })

/-- WorldImpl::Destroy of a fixture (lines 2315-2366): rejects a locked
world; destroys the contacts of the fixture, removes its proxy tags and
proxies, detaches it from the body (reporting false when absent), frees
its slot, and dirties and optionally resets the body mass data. -/
def World.DestroyFixture (w : World) (id : Nat) (resetMassData : Bool := true) :
    Except WorldError (Bool × World) :=
  if w.locked then Except.error WorldError.WrongState
  else
    let fixture := w.getFixture id
    let bodyID := fixture.body
    let w := w.eraseBodyContactsWhere bodyID (fun w2 contactID =>
      let contact := w2.getContact contactID
      decide (contact.fixtureA = id ∨ contact.fixtureB = id))
    let w := { w with
      fixturesForProxies := w.fixturesForProxies.filter (fun f => decide (f ≠ id)) }
    let w := w.DestroyProxiesOf id
    let removed := (w.getBody bodyID).RemoveFixture id
    if ¬removed.1 then Except.ok (false, w)
    else
      let w := { w with bodyBuffer := w.bodyBuffer.set bodyID removed.2 }
      let w := { w with fixtureBuffer := w.fixtureBuffer.Free id }
      let w := w.modifyBody bodyID (fun b => { b with massDataDirty := true })
      if resetMassData then
        match w.SetMassData bodyID (w.ComputeMassData bodyID) with
        | Except.error e => Except.error e
        | Except.ok w => Except.ok (true, w)
      else Except.ok (true, w)

/-- WorldImpl::SetEnabled (lines 2488-2514): bails on an unchanged flag,
rejects a locked world, toggles the flag and tags every fixture of the body
for proxy creation or destruction. -/
def World.SetEnabled (w : World) (id : Nat) (flag : Bool) :
    Except WorldError World :=
  let body := w.getBody id
  if body.enabled = flag then Except.ok w
  else if w.locked then Except.error WorldError.WrongState
  else
    let w := w.modifyBody id (fun b => { b with enabled := flag })
    Except.ok { w with
      fixturesForProxies := w.fixturesForProxies ++ (w.getBody id).fixtures }

/-- WorldImpl::SetTransformation (lines 2586-2603): rejects a locked world;
on a changed transformation, flags the contacts of the body for update,
stores the transformation and the matching degenerate sweep, and tags the
body for proxy synchronization. -/
def World.SetTransformation (mm : MathModel) (w : World) (id : Nat)
    (xfm : Transformation) : Except WorldError World :=
  if w.locked then Except.error WorldError.WrongState
  else
    let body := w.getBody id
    if body.xf ≠ xfm then
      let w := { w with
        contactBuffer := FlagForUpdating w.contactBuffer body.contacts }
      let w := w.modifyBody id (fun b =>
        let pos : Position :=
          ⟨Transform b.sweep.localCenter xfm, mm.angleOf xfm.q⟩
        { b with xf := xfm, sweep := ⟨pos, pos, b.sweep.localCenter, 0⟩ })
      Except.ok { w with bodiesForProxies := w.bodiesForProxies ++ [id] }
    else Except.ok w

/-- WorldImpl::SetSensor (lines 2152-2163): on a changed sensor value, sets
it, wakes the owning body and flags its contacts for update.  The source
performs no lock check here. -/
def World.SetSensor (w : World) (id : Nat) (value : Bool) : World :=
  let fixture := w.getFixture id
  if fixture.isSensor ≠ value then
    let w := w.modifyFixture id (fun f => { f with isSensor := value })
    let bodyID := (w.getFixture id).body
    let w := w.modifyBody bodyID Body.SetAwake
    { w with
      contactBuffer := FlagForUpdating w.contactBuffer
        (w.getBody bodyID).contacts }
  else w

/-- WorldImpl::Refilter (lines 2461-2480): flags the contacts of the owning
body that reference the fixture for filtering, and enqueues the proxies of
the fixture for contact discovery. -/
def World.Refilter (w : World) (id : Nat) : World :=
  let fixture := w.getFixture id
  let bodyID := fixture.body
  let body := w.getBody bodyID
  let contactBuffer := body.contacts.foldl (fun buf ci =>
    let contact := buf.get ci.2
    if contact.fixtureA = id ∨ contact.fixtureB = id then
      buf.modify ci.2 (fun c => { c with needsFiltering := true })
    else buf) w.contactBuffer
  let w := { w with contactBuffer := contactBuffer }
  w.InternalTouchProxies id

/-- WorldImpl::SetFilterData (lines 2482-2486): stores the filter and
refilters.  The source performs no lock check here. -/
def World.SetFilterData (w : World) (id : Nat) (filter : Filter) : World :=
  let w := w.modifyFixture id (fun f => { f with filter := filter })
  w.Refilter id

/-- Modelled from the spec section 4.2: Shift-origin on the tree subtracts
the offset from every node AABB. -/
def TreeModel.ShiftOrigin (t : TreeModel) (newOrigin : Vec2) : TreeModel :=
  t.map (fun leaf? => leaf?.map (fun leaf =>
    { leaf with aabb :=
        ⟨leaf.aabb.loX - newOrigin.x, leaf.aabb.loY - newOrigin.y,
         leaf.aabb.hiX - newOrigin.x, leaf.aabb.hiY - newOrigin.y⟩ }))

/-- WorldImpl::ShiftOrigin (lines 1743-1771): rejects a locked world;
shifts the transformation and sweep of every body, flags its contacts for
update, shifts every joint (a no-op on the joint record of this embedding,
which holds no anchors), and shifts the tree. -/
def World.ShiftOrigin (w : World) (newOrigin : Vec2) :
    Except WorldError World :=
  if w.locked then Except.error WorldError.WrongState
  else
    let w := w.bodies.foldl (fun wacc bodyID =>
      let b := wacc.getBody bodyID
      let wacc := { wacc with
        contactBuffer := FlagForUpdating wacc.contactBuffer b.contacts }
      wacc.modifyBody bodyID (fun b =>
        { b with
          xf := ⟨b.xf.p - newOrigin, b.xf.q⟩
          sweep := ⟨⟨b.sweep.pos0.linear - newOrigin, b.sweep.pos0.angular⟩,
                    ⟨b.sweep.pos1.linear - newOrigin, b.sweep.pos1.angular⟩,
                    b.sweep.localCenter, b.sweep.alpha0⟩ })) w
    Except.ok { w with tree := w.tree.ShiftOrigin newOrigin }

/-- The step configuration fields the embedded step path reads. -/
structure StepConfW where
  deltaTime : ℚ := 1 / 60
  aabbExtension : ℚ := 1 / 10
  displaceMultiplier : ℚ := 1

/-- WorldImpl::Step (lines 1681-1741): rejects a locked world; under the
lock guard runs proxy creation and destruction, clears the fixture tags,
synchronizes the tagged proxies, destroys the lapsed contacts, discovers
contacts for new fixtures, and only with a non-zero time increment stores
the inverse increment and runs the narrow-phase update and the two solve
phases; the lock is released on exit.  The narrow-phase update and the
regular and TOI solves (lines 1722-1737) depend on the solver and collision
sources outside the sampled set and enter as the updateAndSolve function
parameter, which a zero time increment never invokes. -/
def World.Step (mm : MathModel) (updateAndSolve : World → World)
    (conf : StepConfW) (w : World) : Except WorldError World :=
  if w.locked then Except.error WorldError.WrongState
  else
    let w1 := { w with locked := true }
    let w1 := w1.CreateAndDestroyProxies conf.aabbExtension
    let w1 := { w1 with fixturesForProxies := [] }
    let w1 := w1.SynchronizeProxies conf.displaceMultiplier conf.aabbExtension
    let w1 := w1.DestroyContactsPhase
    let w1 := if w1.newFixtures then
        World.FindNewContacts mm { w1 with newFixtures := false }
      else w1
    let w1 := if conf.deltaTime ≠ 0 then
        updateAndSolve { w1 with inv_dt0 := 1 / conf.deltaTime }
      else w1
    Except.ok { w1 with locked := false }

/-! ## The TOI update pass (WorldImpl::UpdateContactTOIs, GetSoonestContact)

The conservative-advancement computer GetToiViaSat lives outside the
sampled sources and enters as a function parameter producing a TOIOutput.
-/

/-- The states a TOI computation reports (TimeOfImpact.hpp model, from the
spec section 4.16). -/
inductive TOIState where
  | e_unknown
  | e_failed
  | e_separated
  | e_overlapped
  | e_touching
  deriving DecidableEq, Repr

/-- The output of a TOI computation: a state and a time (the iteration
statistics of the source record do not enter the sampled logic that the
claims concern). -/
structure TOIOutput where
  state : TOIState
  time : ℚ
  deriving DecidableEq, Repr

/-- IsValidForTime (WorldImpl.cpp lines 385-388): only the touching state
validates the computed time. -/
def IsValidForTime (state : TOIState) : Bool :=
  state == TOIState.e_touching

/-- WorldImpl::UpdateContactTOIs (lines 1103-1177): for every enabled,
non-sensor, active, impenetrable contact without a valid TOI and below the
sub-step cap, advances both body sweeps to their common start fraction and
caches a TOI: the clamped interpolated time when the computer reports
touching, and one otherwise.  Returns the updated contact and body
buffers. -/
def UpdateContactTOIsStep
    (toiCalc : DistanceProxy → Sweep → DistanceProxy → Sweep → TOIOutput)
    (fixtureBuffer : ArrayAllocator Fixture) (maxSubSteps : Nat)
    (acc : ArrayAllocator Contact × ArrayAllocator Body)
    (contact : ContactKey × Nat) :
    ArrayAllocator Contact × ArrayAllocator Body :=
  let cbuf := acc.1
  let bbuf := acc.2
  let cid := contact.2
  let c := cbuf.get cid
  if c.HasValidToi then acc
  else if ¬c.enabled ∨ c.sensor ∨ ¬c.isActive ∨ ¬c.impenetrable then acc
  else if c.toiCount ≥ maxSubSteps then acc
  else
    let bA := bbuf.get c.bodyA
    let bB := bbuf.get c.bodyB
    let alpha0 := max bA.sweep.alpha0 bB.sweep.alpha0
    let bA := bA.Advance0 alpha0
    let bB := bB.Advance0 alpha0
    let bbuf := (bbuf.set c.bodyA bA).set c.bodyB bB
    let proxyA := (fixtureBuffer.get c.fixtureA).shape.child c.childA
    let proxyB := (fixtureBuffer.get c.fixtureB).shape.child c.childB
    let sweepA := bA.sweep.GetNormalized
    let sweepB := bB.sweep.GetNormalized
    let output := toiCalc proxyA sweepA proxyB sweepB
    let toi := if IsValidForTime output.state then
        min (alpha0 + (1 - alpha0) * output.time) 1
      else 1
    (cbuf.modify cid (fun c2 => { c2 with toi := some toi }), bbuf)

/-- The loop of WorldImpl::UpdateContactTOIs as a fold of the per-contact
step over the contact list. -/
def UpdateContactTOIs
    (toiCalc : DistanceProxy → Sweep → DistanceProxy → Sweep → TOIOutput)
    (contactBuffer : ArrayAllocator Contact)
    (bodyBuffer : ArrayAllocator Body)
    (fixtureBuffer : ArrayAllocator Fixture)
    (contacts : List (ContactKey × Nat)) (maxSubSteps : Nat) :
    ArrayAllocator Contact × ArrayAllocator Body :=
  contacts.foldl (UpdateContactTOIsStep toiCalc fixtureBuffer maxSubSteps)
    (contactBuffer, bodyBuffer)

/-- The result of the soonest-contact search. -/
structure ContactToiData where
  contact : Nat
  toi : ℚ
  simultaneous : Nat
  deriving DecidableEq, Repr

/-- The value the source initializes the minimum TOI search with: the
largest representable Real below one (nextafter of one toward zero); the
embedding fixes a rational below one, and the sampled logic relies only on
that bound. -/
def nextafterOneZero : ℚ := 1 - 1 / 16777216

/-- WorldImpl::GetSoonestContact (lines 1179-1206): scans the contacts with
a valid TOI for the least TOI strictly below the initial bound, counting
ties at the running minimum. -/
def GetSoonestContactStep (buffer : ArrayAllocator Contact)
    (acc : ℚ × Nat × Nat) (contact : ContactKey × Nat) : ℚ × Nat × Nat :=
  let minToi := acc.1
  let found := acc.2.1
  let count := acc.2.2
  let contactID := contact.2
  let c := buffer.get contactID
  if c.HasValidToi then
    let toi := c.GetToi
    if minToi > toi then (toi, contactID, 1)
    else if minToi = toi then (minToi, found, count + 1)
    else acc
  else acc

/-- The loop of WorldImpl::GetSoonestContact as a fold of the per-contact
step. -/
def GetSoonestContact (contacts : List (ContactKey × Nat))
    (buffer : ArrayAllocator Contact) : ContactToiData :=
  let res := contacts.foldl (GetSoonestContactStep buffer)
    (nextafterOneZero, InvalidContactID, 0)
  ⟨res.2.1, res.1, res.2.2⟩

/-! ## The narrow-phase contact update (WorldImpl::Update)

The overlap query and the shape-vs-shape manifold computation are external
collaborators (spec sections 4.4 and 4.7) entering as function parameters;
the listener registrations become booleans and the listener invocations
become an event record, as the listeners read but never mutate the world.
-/

/-- The listener invocations one narrow-phase update performs. -/
structure ContactUpdateEvents where
  beginContact : Bool
  endContact : Bool
  preSolve : Option Manifold
  deriving DecidableEq, Repr

/-- The warm-starting passes of WorldImpl::Update (lines 2686-2723): first
copy impulses between points with equal contact features, then copy to each
unmatched point from the nearest old point by squared distance (the
infinity sentinel of the source becomes the none state of the running
least). -/
def WarmStartManifold (newManifold oldManifold : Manifold) : Manifold :=
  let old_point_count := oldManifold.GetPointCount
  let new_point_count := newManifold.GetPointCount
  let pass1 := (List.range new_point_count).foldl
    (fun (acc : Manifold × List Bool) i =>
      let m := acc.1
      let found := acc.2
      let new_cf := m.GetContactFeature i
      match (List.range old_point_count).find?
          (fun j => oldManifold.GetContactFeature j == new_cf) with
      | some j =>
        (m.SetContactImpulses i (oldManifold.GetContactImpulses j),
         found.set i true)
      | none => (m, found))
    (newManifold, [false, decide (new_point_count < 2)])
  (List.range new_point_count).foldl
    (fun (m : Manifold) i =>
      if pass1.2.getD i true then m
      else
        let newPt := m.GetPoint i
        let res := (List.range old_point_count).foldl
          (fun (acc : Option ℚ × Manifold) j =>
            let leastSquareDiff := acc.1
            let oldPt := oldManifold.GetPoint j
            let squareDiff :=
              GetMagnitudeSquared (oldPt.localPoint - newPt.localPoint)
            let improves := match leastSquareDiff with
              | none => true
              | some least => decide (least > squareDiff)
            if improves then
              (some squareDiff,
               acc.2.SetContactImpulses i (oldManifold.GetContactImpulses j))
            else acc)
          (none, m)
        res.2)
    pass1.1

/-- WorldImpl::Update of one contact (lines 2618-2773): a sensor pair runs
the overlap query only, leaving the manifold empty, with touching equal to
a non-negative overlap; a non-sensor pair recomputes the manifold through
the dispatcher and warm-starts it, with touching equal to a positive point
count.  The touching transitions and the resulting listener events follow
the source exactly: begin on false to true, end on true to false, pre-solve
with the old manifold for a non-sensor contact touching after the
update. -/
def UpdateContact
    (testOverlapFn : DistanceProxy → Transformation → DistanceProxy →
      Transformation → ℚ)
    (collideShapes : DistanceProxy → Transformation → DistanceProxy →
      Transformation → Manifold)
    (hasBeginListener hasEndListener hasPreSolveListener : Bool)
    (c : Contact) (manifold : Manifold) (fixtureA fixtureB : Fixture)
    (bodyA bodyB : Body) : Contact × Manifold × ContactUpdateEvents :=
  let oldManifold := manifold
  let oldTouching := c.touching
  let shapeA := fixtureA.shape
  let xfA := bodyA.xf
  let shapeB := fixtureB.shape
  let xfB := bodyB.xf
  let childA := shapeA.child c.childA
  let childB := shapeB.child c.childB
  let sensor := fixtureA.isSensor ∨ fixtureB.isSensor
  let branch : Bool × Manifold :=
    if sensor then
      let overlapping := testOverlapFn childA xfA childB xfB
      (decide (overlapping ≥ 0), default)
    else
      let newManifold := collideShapes childA xfA childB xfB
      (decide (newManifold.GetPointCount > 0),
       WarmStartManifold newManifold oldManifold)
  let newTouching := branch.1
  let c := { c with needsUpdating := false }
  let transition : Contact × Bool × Bool :=
    if ¬oldTouching ∧ newTouching then
      ({ c with touching := true }, hasBeginListener, false)
    else if oldTouching ∧ ¬newTouching then
      ({ c with touching := false }, false, hasEndListener)
    else (c, false, false)
  let preSolve := if ¬sensor ∧ newTouching ∧ hasPreSolveListener then
      some oldManifold
    else none
  (transition.1, branch.2,
   ⟨transition.2.1, transition.2.2, preSolve⟩)

/-! ## Specification vocabulary for the contact-set invariant

These definitions name, in terms of the embedded state, the conditions the
contact-set claims quantify over: the collide test a pair of tree leaves
induces, the eligibility of a pair for having a contact, and the keep
decision the contact-destruction pass makes for an existing contact.
-/

/-- The joint and filter collide test WorldImpl::Add applies to the pair of
leaves named by a key (with the argument order of the source call). -/
def World.ShouldCollidePair (w : World) (key : ContactKey) : Bool :=
  let minLeaf := (w.tree.leafAt key.minK).getD default
  let maxLeaf := (w.tree.leafAt key.maxK).getD default
  ShouldCollideBodies w.jointBuffer (w.getBody maxLeaf.body)
      (w.getBody minLeaf.body) minLeaf.body
    && ShouldCollideFixtures (w.getFixture minLeaf.fixture)
      (w.getFixture maxLeaf.fixture)

/-- The geometric half of pair eligibility: both tree nodes of the key are
leaves, on distinct bodies, with overlapping fattened AABBs, and the key is
normalized. -/
def World.pairGeometric (w : World) (key : ContactKey) : Bool :=
  match w.tree.leafAt key.minK, w.tree.leafAt key.maxK with
  | some lmin, some lmax =>
    decide (key.minK < key.maxK) && decide (lmin.body ≠ lmax.body)
      && TestOverlapAABB lmin.aabb lmax.aabb
  | _, _ => false

/-- A pair key is eligible for a contact when both its tree nodes are
leaves on distinct bodies with overlapping fattened AABBs, the key is
normalized, and the joint and filter state permits collision. -/
def World.pairEligible (w : World) (key : ContactKey) : Bool :=
  w.pairGeometric key && w.ShouldCollidePair key

/-- The decision WorldImpl::DestroyContacts makes for one existing keyed
contact, expressed over a fixed state: kept when the proxy pair still
overlaps and, if flagged for filtering, the joint and fixture filter state
still permits collision. -/
def World.keepContact (w : World) (kc : ContactKey × Nat) : Bool :=
  w.tree.TestOverlap kc.1.minK kc.1.maxK
    && (!(w.getContact kc.2).needsFiltering
        || (ShouldCollideBodies w.jointBuffer
              (w.getBody (w.getContact kc.2).bodyB)
              (w.getBody (w.getContact kc.2).bodyA)
              (w.getContact kc.2).bodyA
            && ShouldCollideFixtures
              (w.getFixture (w.getContact kc.2).fixtureA)
              (w.getFixture (w.getContact kc.2).fixtureB)))

/-- The state components the contact-destruction pass reads but never
writes: the tree, the joint and fixture buffers, the moved-proxy queue and
the keyed contact list. -/
def World.sideView (w : World) :
    TreeModel × ArrayAllocator Joint × ArrayAllocator Fixture ×
      List Nat × List (ContactKey × Nat) :=
  (w.tree, w.jointBuffer, w.fixtureBuffer, w.proxies, w.contacts)

/-- The two components of one body the collide tests read: its type and
its joint adjacency list. -/
def World.tjView (w : World) (b : Nat) : BodyType × List (Nat × Nat) :=
  ((w.getBody b).type, (w.getBody b).joints)

/-- Equality of the state components the contact-maintenance passes read
but never write. -/
def World.SideEq (w1 w0 : World) : Prop := w1.sideView = w0.sideView

/-- Per-body equality of the two body components the collide tests read. -/
def World.TJEq (w1 w0 : World) : Prop := ∀ b, w1.tjView b = w0.tjView b

/-- The non-body state components the pair-eligibility predicate reads:
the tree and the joint and fixture buffers. -/
def World.envView (w : World) :
    TreeModel × ArrayAllocator Joint × ArrayAllocator Fixture :=
  (w.tree, w.jointBuffer, w.fixtureBuffer)

/-- Equality of everything the pair-eligibility predicate reads: the tree,
the joint and fixture buffers, and each body's type and joint list. -/
def World.EnvEq (w1 w0 : World) : Prop :=
  w1.envView = w0.envView ∧ World.TJEq w1 w0

/-- Coherence of one keyed contact with the broad-phase state: the two tree
nodes of its key are leaves on distinct bodies, and the contact record
stores exactly those leaves' bodies and fixtures. -/
def World.ContactRecordOK (w : World) (kc : ContactKey × Nat) : Prop :=
  ∃ lmin lmax, w.tree.leafAt kc.1.minK = some lmin ∧
    w.tree.leafAt kc.1.maxK = some lmax ∧
    (w.getContact kc.2).bodyA = lmin.body ∧
    (w.getContact kc.2).bodyB = lmax.body ∧
    (w.getContact kc.2).fixtureA = lmin.fixture ∧
    (w.getContact kc.2).fixtureB = lmax.fixture ∧
    lmin.body ≠ lmax.body ∧ kc.1.minK < kc.1.maxK

/-- The loop invariant of the contact-destruction pass relative to the
start state: the side data and body collide components are unchanged, the
kept list filters the processed prefix by the keep decision, the slots of
unprocessed contacts are untouched, and the body contact lists hold
exactly the not-yet-destroyed entries they held at the start. -/
def CMDestroyInv (w0 : World) (Ep : List (ContactKey × Nat))
    (acc : World × List (ContactKey × Nat)) : Prop :=
  World.SideEq acc.1 w0 ∧ World.TJEq acc.1 w0 ∧
  acc.2 = Ep.filter (fun e => w0.keepContact e) ∧
  (∀ kc ∈ w0.contacts, kc.2 ∉ Ep.map Prod.snd →
    acc.1.getContact kc.2 = w0.getContact kc.2) ∧
  (∀ b kc, kc ∈ (acc.1.getBody b).contacts →
    kc ∈ (w0.getBody b).contacts) ∧
  (∀ b, ((acc.1.getBody b).contacts.map Prod.snd).Nodup) ∧
  (∀ b kc, kc ∈ (acc.1.getBody b).contacts →
    kc.2 ∉ (Ep.filter (fun e => !(w0.keepContact e))).map Prod.snd) ∧
  (∀ kc ∈ w0.contacts,
    kc.2 ∉ (Ep.filter (fun e => !(w0.keepContact e))).map Prod.snd →
    (kc ∈ (acc.1.getBody ((w0.getContact kc.2).bodyA)).contacts ∧
     kc ∈ (acc.1.getBody ((w0.getContact kc.2).bodyB)).contacts))

/-- The loop invariant of the contact-creation pass relative to the
eligibility environment w0 and the post-destruction state w1: the
eligibility environment is unchanged, the contact list extends the
surviving one by exactly one entry per processed eligible new key, every
body-list entry is on the world list, and every surviving contact stays on
the contact lists of its two leaf bodies. -/
def CMAddInv (w0 w1 : World) (Up : List ContactKey) (wacc : World) : Prop :=
  World.EnvEq wacc w0 ∧
  (∃ A : List (ContactKey × Nat), wacc.contacts = w1.contacts ++ A ∧
    A.map Prod.fst = Up.filter (fun k =>
      w0.pairEligible k && !(decide (k ∈ w1.contacts.map Prod.fst)))) ∧
  (∀ b kc, kc ∈ (wacc.getBody b).contacts → kc ∈ wacc.contacts) ∧
  (∀ kc ∈ w1.contacts,
    kc ∈ (wacc.getBody (((w0.tree.leafAt kc.1.minK).getD default).body)).contacts ∧
    kc ∈ (wacc.getBody (((w0.tree.leafAt kc.1.maxK).getD default).body)).contacts)

/-- The contact identifier WorldImpl::Add allocates for a key: the slot
the contact buffer hands out for the new contact record of the pair. -/
def cmNewCid (w : World) (k : ContactKey) : Nat :=
  (w.contactBuffer.Allocate
    { bodyA := ((w.tree.leafAt k.minK).getD default).body,
      fixtureA := ((w.tree.leafAt k.minK).getD default).fixture,
      childA := ((w.tree.leafAt k.minK).getD default).childIndex,
      bodyB := ((w.tree.leafAt k.maxK).getD default).body,
      fixtureB := ((w.tree.leafAt k.maxK).getD default).fixture,
      childB := ((w.tree.leafAt k.maxK).getD default).childIndex }).1

/-- The stages of WorldImpl::Step that precede contact discovery on a
world with new fixtures: lock, proxy creation and destruction, proxy
synchronization, contact destruction, and the clearing of the new-fixture
flag (the state FindNewContacts is then invoked on). -/
def World.maintPrefix (conf : StepConfW) (w : World) : World :=
  let w1 := { w with locked := true }
  let w1 := w1.CreateAndDestroyProxies conf.aabbExtension
  let w1 := { w1 with fixturesForProxies := [] }
  let w1 := w1.SynchronizeProxies conf.displaceMultiplier conf.aabbExtension
  let w1 := w1.DestroyContactsPhase
  { w1 with newFixtures := false }

/-! ## Concrete sample data for evaluating the embedding -/

/-- The projection of a body to its position and velocity data: the
transformation, the sweep and the velocity. -/
def World.bodyPosVel (w : World) (i : Nat) :
    Transformation × Sweep × Velocity :=
  ((w.getBody i).xf, (w.getBody i).sweep, (w.getBody i).velocity)

/-- A trivial math model for concrete evaluations: all external math
routines return fixed values (the properties under evaluation are
independent of them). -/
def mmZero : MathModel := ⟨fun _ => 0, fun _ => ⟨1, 0⟩, fun _ => 0⟩

/-- A world of one enabled static body with one non-sensor fixture, in the
locked state: sample input for lock-behavior evaluations. -/
def lockedFixtureWorld : World :=
  { bodyBuffer := ⟨[{ enabled := true, fixtures := [0] }], []⟩
    fixtureBuffer := ⟨[{ (default : Fixture) with body := 0 }], []⟩
    bodies := [0]
    locked := true }

/-- A world of three bodies and two joints: joint 0 connects bodies 1 and
2, joint 1 connects bodies 0 and 1.  Sample input for the body-destruction
evaluation. -/
def threeBodyTwoJointWorld : World :=
  { bodyBuffer := ⟨[{ joints := [(1, 1)] },
                    { joints := [(2, 0), (0, 1)] },
                    { joints := [(1, 0)] }], []⟩
    jointBuffer := ⟨[{ bodyA := 1, bodyB := 2, collideConnected := false },
                     { bodyA := 0, bodyB := 1, collideConnected := false }], []⟩
    bodies := [0, 1, 2]
    joints := [0, 1] }

/-- A world of two enabled static bodies, each with one fixture and one
broad-phase leaf, the two leaf AABBs overlapping, both proxies enqueued and
the new-fixture flag raised: sample input for the contact-creation
evaluation. -/
def twoStaticOverlapWorld : World :=
  { tree := [some ⟨⟨0, 0, 2, 2⟩, 0, 0, 0⟩, some ⟨⟨1, 1, 3, 3⟩, 1, 1, 0⟩]
    bodyBuffer := ⟨[{ enabled := true, fixtures := [0] },
                    { enabled := true, fixtures := [1] }], []⟩
    fixtureBuffer := ⟨[{ (default : Fixture) with body := 0, proxies := [0] },
                       { (default : Fixture) with body := 1, proxies := [1] }], []⟩
    bodies := [0, 1]
    proxies := [0, 1]
    newFixtures := true }

/-- A world of two enabled dynamic bodies, one fixture each, with
overlapping fattened leaves both enqueued for contact discovery and no
pre-existing contacts: sample input for the contact-maintenance
invariant. -/
def dynPairWorld : World :=
  { tree := [some ⟨⟨0, 0, 2, 2⟩, 0, 0, 0⟩, some ⟨⟨1, 1, 3, 3⟩, 1, 1, 0⟩]
    bodyBuffer := ⟨[{ type := BodyType.Dynamic, enabled := true,
                      fixtures := [0] },
                    { type := BodyType.Dynamic, enabled := true,
                      fixtures := [1] }], []⟩
    fixtureBuffer := ⟨[{ (default : Fixture) with body := 0, proxies := [0] },
                       { (default : Fixture) with body := 1, proxies := [1] }], []⟩
    bodies := [0, 1]
    proxies := [0, 1]
    newFixtures := true }

end PlayRho

namespace PlayRho

/-! # Theorems

Helper lemmas about the slot allocator access functions, then one theorem
per claim with its witnesses and counterexamples.
-/

theorem aalloc_length_set {T : Type} (a : ArrayAllocator T) (j : Nat) (v : T) :
    (a.set j v).data.length = a.data.length := by
  simp [ArrayAllocator.set]

theorem aalloc_length_modify {T : Type} [Inhabited T] (a : ArrayAllocator T)
    (j : Nat) (f : T → T) :
    (a.modify j f).data.length = a.data.length := by
  simp [ArrayAllocator.modify, ArrayAllocator.set]

theorem aalloc_get_set_ne {T : Type} [Inhabited T] (a : ArrayAllocator T)
    (i j : Nat) (v : T) (h : i ≠ j) : (a.set j v).get i = a.get i := by
  simp only [ArrayAllocator.set, ArrayAllocator.get]
  rw [List.getD_eq_getElem?_getD, List.getD_eq_getElem?_getD,
    List.getElem?_set_ne (fun hji => h hji.symm)]

theorem aalloc_get_set_self {T : Type} [Inhabited T] (a : ArrayAllocator T)
    (j : Nat) (v : T) (h : j < a.data.length) : (a.set j v).get j = v := by
  simp only [ArrayAllocator.set, ArrayAllocator.get]
  rw [List.getD_eq_getElem?_getD, List.getElem?_set_self h]
  rfl

theorem aalloc_get_modify_ne {T : Type} [Inhabited T] (a : ArrayAllocator T)
    (i j : Nat) (f : T → T) (h : i ≠ j) : (a.modify j f).get i = a.get i := by
  simp only [ArrayAllocator.modify]
  exact aalloc_get_set_ne a i j _ h

theorem aalloc_get_modify_self {T : Type} [Inhabited T] (a : ArrayAllocator T)
    (j : Nat) (f : T → T) (h : j < a.data.length) :
    (a.modify j f).get j = f (a.get j) := by
  simp only [ArrayAllocator.modify]
  exact aalloc_get_set_self a j _ h

theorem aalloc_get_free_ne {T : Type} [Inhabited T] (a : ArrayAllocator T)
    (i j : Nat) (h : i ≠ j) : (a.Free j).get i = a.get i := by
  simp only [ArrayAllocator.Free]
  split
  · exact aalloc_get_set_ne a i j _ h
  · rfl

/-- C10: For every 2-D vector and every unit rotation whose components
satisfy qx * qx + qy * qy = 1 in exact arithmetic, inverse-rotating the
rotation of the vector returns the original vector:
InverseRotate(Rotate(v, q), q) = v. -/
theorem c10_inverseRotate_rotate (v q : UnitVec2)
    (h : q.x * q.x + q.y * q.y = 1) :
    InverseRotate (Rotate v q) q = v := by
  cases v with
  | mk vx vy =>
    cases q with
    | mk qx qy =>
      simp only [InverseRotate, Rotate, UnitVec2.Rotate, UnitVec2.FlipY,
        UnitVec2.mk.injEq] at *
      constructor
      · linear_combination vx * h
      · linear_combination vy * h

/-- Witness for C10 at the rational unit vector (3/5, 4/5) and the vector
(1, 2). -/
theorem c10_inverseRotate_rotate_witness :
    (3 / 5 : ℚ) * (3 / 5) + (4 / 5) * (4 / 5) = 1 ∧
    InverseRotate (Rotate ⟨1, 2⟩ ⟨3 / 5, 4 / 5⟩) ⟨3 / 5, 4 / 5⟩ = ⟨1, 2⟩ :=
  ⟨by norm_num,
   c10_inverseRotate_rotate ⟨1, 2⟩ ⟨3 / 5, 4 / 5⟩ (by norm_num)⟩

/-- Counterexample for C7 as stated: in the allocator state with two slots
and free list holding indices 0 then 1, index 0 is free, yet Allocate
returns index 1, which is not the lowest free index. -/
theorem c7_allocate_counterexample :
    (0 : Nat) ∈ (ArrayAllocator.mk [0, 0] [0, 1] : ArrayAllocator Nat).free ∧
    ((ArrayAllocator.mk [0, 0] [0, 1] : ArrayAllocator Nat).Allocate 5).1 = 1 ∧
    ((ArrayAllocator.mk [0, 0] [0, 1] : ArrayAllocator Nat).Allocate 5).1 ≠ 0 := by
  refine ⟨by decide, rfl, by decide⟩

/-- C7 amended: Allocate reuses the most recently freed index, the tail of
the free-list, when the free-list is non-empty (immediately after freeing a
valid index, allocation returns that index), and otherwise appends a new
slot at the index equal to the previous size. -/
theorem c7_allocate_lifo {T : Type} [Inhabited T] (a : ArrayAllocator T)
    (i : Nat) (v : T) (h : i ≠ nposSize) :
    ((a.Free i).Allocate v).1 = i ∧
    (a.free = [] → (a.Allocate v).1 = a.data.length ∧
      (a.Allocate v).2.data = a.data ++ [v]) := by
  constructor
  · simp only [ArrayAllocator.Free, if_pos h, ArrayAllocator.Allocate]
    rw [List.getLast?_concat]
  · intro hfree
    simp [ArrayAllocator.Allocate, hfree, List.getLast?]

/-- Witness for C7 amended at a concrete allocator. -/
theorem c7_allocate_lifo_witness :
    (3 : Nat) ≠ nposSize ∧
    (((ArrayAllocator.mk [10, 11, 12, 13, 14] [] : ArrayAllocator Nat).Free 3).Allocate 9).1 = 3 ∧
    ((ArrayAllocator.mk [10, 11, 12, 13, 14] [] : ArrayAllocator Nat).free = [] →
      ((ArrayAllocator.mk [10, 11, 12, 13, 14] [] : ArrayAllocator Nat).Allocate 9).1 = 5 ∧
      ((ArrayAllocator.mk [10, 11, 12, 13, 14] [] : ArrayAllocator Nat).Allocate 9).2.data
        = [10, 11, 12, 13, 14] ++ [9]) := by
  have h := c7_allocate_lifo (ArrayAllocator.mk [10, 11, 12, 13, 14] [])
    3 (9 : Nat) (by decide)
  exact ⟨by decide, h.1, h.2⟩

/-- C9: The accumulated impulse of the rope joint is non-positive
throughout velocity solving: it starts at zero on construction, stays
non-positive through init-velocity when the dt ratio is non-negative, and
is non-positive after every solve-velocity iteration without any
hypothesis, as the accumulation clamps at zero from above. -/
theorem c9_rope_impulse_nonpositive (d : RopeJointDef) (sqrtFn : ℚ → ℚ)
    (cossin : ℚ → UnitVec2) (j : RopeJoint) (bodiesA bodiesB : BodyConstraint)
    (step : JointStepConf) (conf : JointSolverConf)
    (himp : j.m_impulse ≤ 0) (hdt : 0 ≤ step.dtRatio) :
    (RopeJoint.mkFromDef d).m_impulse = 0 ∧
    (j.InitVelocityConstraints sqrtFn cossin bodiesA bodiesB step
      conf).1.m_impulse ≤ 0 ∧
    ∀ (j2 : RopeJoint) (bA2 bB2 : BodyConstraint) (step2 : JointStepConf),
      (j2.SolveVelocityConstraints bA2 bB2 step2).1.m_impulse ≤ 0 := by
  refine ⟨rfl, ?_, ?_⟩
  · unfold RopeJoint.InitVelocityConstraints
    dsimp only
    split
    · split
      · exact mul_nonpos_of_nonpos_of_nonneg himp hdt
      · exact le_refl 0
    · exact le_refl 0
  · intro j2 bA2 bB2 step2
    unfold RopeJoint.SolveVelocityConstraints
    dsimp only
    exact min_le_left 0 _

/-- Witness for C9 at the all-zero joint and bodies. -/
theorem c9_rope_impulse_nonpositive_witness :
    (RopeJoint.mkFromDef ⟨⟨0, 0⟩, ⟨0, 0⟩, 2⟩).m_impulse ≤ 0 ∧ (0 : ℚ) ≤ 1 ∧
    ((RopeJoint.mkFromDef ⟨⟨0, 0⟩, ⟨0, 0⟩, 2⟩).InitVelocityConstraints
      (fun _ => 0) (fun _ => ⟨1, 0⟩) default default ⟨true, 1, 60⟩
      ⟨1 / 200, 1 / 5⟩).1.m_impulse ≤ 0 := by
  have h := c9_rope_impulse_nonpositive ⟨⟨0, 0⟩, ⟨0, 0⟩, 2⟩ (fun _ => 0)
    (fun _ => ⟨1, 0⟩) (RopeJoint.mkFromDef ⟨⟨0, 0⟩, ⟨0, 0⟩, 2⟩)
    default default ⟨true, 1, 60⟩ ⟨1 / 200, 1 / 5⟩ (le_of_eq rfl)
    (by norm_num)
  exact ⟨le_of_eq h.1, by norm_num, h.2.1⟩

/-- C4: For a contact whose fixture pair includes a sensor, the
narrow-phase update leaves the manifold with zero points and sets the
touching state to true exactly when the computed overlap is
non-negative. -/
theorem c4_sensor_update
    (testOverlapFn : DistanceProxy → Transformation → DistanceProxy →
      Transformation → ℚ)
    (collideShapes : DistanceProxy → Transformation → DistanceProxy →
      Transformation → Manifold)
    (hb he hp : Bool) (c : Contact) (manifold : Manifold)
    (fixtureA fixtureB : Fixture) (bodyA bodyB : Body)
    (hs : fixtureA.isSensor ∨ fixtureB.isSensor) :
    ((UpdateContact testOverlapFn collideShapes hb he hp c manifold fixtureA
        fixtureB bodyA bodyB).2.1.GetPointCount = 0) ∧
    ((UpdateContact testOverlapFn collideShapes hb he hp c manifold fixtureA
        fixtureB bodyA bodyB).1.touching =
      decide (testOverlapFn (fixtureA.shape.child c.childA) bodyA.xf
        (fixtureB.shape.child c.childB) bodyB.xf ≥ 0)) := by
  unfold UpdateContact
  dsimp only
  rw [if_pos hs]
  dsimp only
  constructor
  · rfl
  · rcases hov : decide (testOverlapFn (fixtureA.shape.child c.childA)
        bodyA.xf (fixtureB.shape.child c.childB) bodyB.xf ≥ 0) with _ | _ <;>
      rcases hold : c.touching with _ | _ <;>
      simp [hov, hold]

/-- Witness for C4 with an always-overlapping query on a sensor pair. -/
theorem c4_sensor_update_witness :
    ((default : Fixture).isSensor ∨
      ({ (default : Fixture) with isSensor := true } : Fixture).isSensor) ∧
    ((UpdateContact (fun _ _ _ _ => 1) (fun _ _ _ _ => default) true true true
        {} default default { (default : Fixture) with isSensor := true }
        default default).2.1.GetPointCount = 0) ∧
    ((UpdateContact (fun _ _ _ _ => 1) (fun _ _ _ _ => default) true true true
        {} default default { (default : Fixture) with isSensor := true }
        default default).1.touching = decide ((1 : ℚ) ≥ 0)) := by
  have h := c4_sensor_update (fun _ _ _ _ => (1 : ℚ))
    (fun _ _ _ _ => (default : Manifold)) true true true {} default default
    { (default : Fixture) with isSensor := true } default default
    (Or.inr rfl)
  exact ⟨Or.inr rfl, h.1, h.2⟩

/-- C5: In the narrow-phase contact update with all listeners registered,
the begin-contact listener fires exactly on a false-to-true touching
transition, the end-contact listener exactly on a true-to-false transition,
and the pre-solve listener fires with the pre-update manifold exactly when
the contact is touching after the update and its fixture pair holds no
sensor. -/
theorem c5_update_listener_events
    (testOverlapFn : DistanceProxy → Transformation → DistanceProxy →
      Transformation → ℚ)
    (collideShapes : DistanceProxy → Transformation → DistanceProxy →
      Transformation → Manifold)
    (c : Contact) (manifold : Manifold) (fixtureA fixtureB : Fixture)
    (bodyA bodyB : Body) :
    ((UpdateContact testOverlapFn collideShapes true true true c manifold
        fixtureA fixtureB bodyA bodyB).2.2.beginContact = true ↔
      (c.touching = false ∧
       (UpdateContact testOverlapFn collideShapes true true true c manifold
         fixtureA fixtureB bodyA bodyB).1.touching = true)) ∧
    ((UpdateContact testOverlapFn collideShapes true true true c manifold
        fixtureA fixtureB bodyA bodyB).2.2.endContact = true ↔
      (c.touching = true ∧
       (UpdateContact testOverlapFn collideShapes true true true c manifold
         fixtureA fixtureB bodyA bodyB).1.touching = false)) ∧
    ((UpdateContact testOverlapFn collideShapes true true true c manifold
        fixtureA fixtureB bodyA bodyB).2.2.preSolve =
      (if ¬(fixtureA.isSensor ∨ fixtureB.isSensor) ∧
          (UpdateContact testOverlapFn collideShapes true true true c manifold
            fixtureA fixtureB bodyA bodyB).1.touching = true then
        some manifold
      else none)) := by
  by_cases hsen : fixtureA.isSensor ∨ fixtureB.isSensor
  · rcases hold : c.touching with _ | _ <;>
      rcases hov : decide (testOverlapFn (fixtureA.shape.child c.childA)
          bodyA.xf (fixtureB.shape.child c.childB) bodyB.xf ≥ 0) with _ | _ <;>
      simp [UpdateContact, hov, hold, hsen]
  · rcases hold : c.touching with _ | _ <;>
      rcases hnt : decide ((collideShapes (fixtureA.shape.child c.childA)
          bodyA.xf (fixtureB.shape.child c.childB)
          bodyB.xf).GetPointCount > 0) with _ | _ <;>
      simp [UpdateContact, hnt, hold, hsen]

theorem toi_step_get_other (toiCalc : DistanceProxy → Sweep → DistanceProxy →
      Sweep → TOIOutput) (fixbuf : ArrayAllocator Fixture) (m : Nat)
    (acc : ArrayAllocator Contact × ArrayAllocator Body)
    (e : ContactKey × Nat) (cid : Nat) (h : e.2 ≠ cid) :
    (UpdateContactTOIsStep toiCalc fixbuf m acc e).1.get cid = acc.1.get cid := by
  unfold UpdateContactTOIsStep
  dsimp only
  split
  · rfl
  · split
    · rfl
    · split
      · rfl
      · exact aalloc_get_modify_ne _ _ _ _ (fun hc => h hc.symm)

theorem toi_step_length (toiCalc : DistanceProxy → Sweep → DistanceProxy →
      Sweep → TOIOutput) (fixbuf : ArrayAllocator Fixture) (m : Nat)
    (acc : ArrayAllocator Contact × ArrayAllocator Body)
    (e : ContactKey × Nat) :
    (UpdateContactTOIsStep toiCalc fixbuf m acc e).1.data.length
      = acc.1.data.length := by
  unfold UpdateContactTOIsStep
  dsimp only
  split
  · rfl
  · split
    · rfl
    · split
      · rfl
      · exact aalloc_length_modify _ _ _

theorem toi_step_get_done (toiCalc : DistanceProxy → Sweep → DistanceProxy →
      Sweep → TOIOutput) (fixbuf : ArrayAllocator Fixture) (m : Nat)
    (acc : ArrayAllocator Contact × ArrayAllocator Body)
    (e : ContactKey × Nat) (cid : Nat)
    (h : (acc.1.get cid).toi = some 1) :
    ((UpdateContactTOIsStep toiCalc fixbuf m acc e).1.get cid).toi = some 1 := by
  by_cases hc : e.2 = cid
  · have hvalid : (acc.1.get e.2).HasValidToi = true := by
      rw [hc]
      simp [Contact.HasValidToi, h]
    unfold UpdateContactTOIsStep
    dsimp only
    rw [if_pos hvalid]
    exact h
  · rw [toi_step_get_other toiCalc fixbuf m acc e cid hc]
    exact h

theorem toi_step_get_gates (toiCalc : DistanceProxy → Sweep → DistanceProxy →
      Sweep → TOIOutput) (fixbuf : ArrayAllocator Fixture) (m : Nat)
    (acc : ArrayAllocator Contact × ArrayAllocator Body)
    (e : ContactKey × Nat) (cid : Nat) (he : e.2 = cid)
    (hlen : cid < acc.1.data.length)
    (hvalid : (acc.1.get cid).HasValidToi = false)
    (henabled : (acc.1.get cid).enabled = true)
    (hsensor : (acc.1.get cid).sensor = false)
    (hactive : (acc.1.get cid).isActive = true)
    (himpen : (acc.1.get cid).impenetrable = true)
    (hcount : (acc.1.get cid).toiCount < m)
    (ht : ∀ pA sA pB sB, (toiCalc pA sA pB sB).state ≠ TOIState.e_touching) :
    ((UpdateContactTOIsStep toiCalc fixbuf m acc e).1.get cid).toi = some 1 := by
  unfold UpdateContactTOIsStep
  dsimp only
  rw [he]
  rw [if_neg (by simp [hvalid])]
  rw [if_neg (by simp [henabled, hsensor, hactive, himpen])]
  rw [if_neg (by simp [Nat.not_le, hcount])]
  have hnt : IsValidForTime (toiCalc
      ((fixbuf.get (acc.1.get cid).fixtureA).shape.child (acc.1.get cid).childA)
      (((acc.2.get (acc.1.get cid).bodyA).Advance0
        (max (acc.2.get (acc.1.get cid).bodyA).sweep.alpha0
          (acc.2.get (acc.1.get cid).bodyB).sweep.alpha0)).sweep.GetNormalized)
      ((fixbuf.get (acc.1.get cid).fixtureB).shape.child (acc.1.get cid).childB)
      (((acc.2.get (acc.1.get cid).bodyB).Advance0
        (max (acc.2.get (acc.1.get cid).bodyA).sweep.alpha0
          (acc.2.get (acc.1.get cid).bodyB).sweep.alpha0)).sweep.GetNormalized)).state
      = false := by
    rw [IsValidForTime, beq_eq_false_iff_ne]
    exact ht _ _ _ _
  rw [if_neg (by simp [hnt])]
  rw [aalloc_get_modify_self acc.1 cid _ hlen]

theorem toi_foldl_get_done (toiCalc : DistanceProxy → Sweep → DistanceProxy →
      Sweep → TOIOutput) (fixbuf : ArrayAllocator Fixture) (m : Nat)
    (cid : Nat) :
    ∀ (l : List (ContactKey × Nat))
      (acc : ArrayAllocator Contact × ArrayAllocator Body),
      (acc.1.get cid).toi = some 1 →
      ((l.foldl (UpdateContactTOIsStep toiCalc fixbuf m) acc).1.get cid).toi
        = some 1 := by
  intro l
  induction l with
  | nil => intro acc h; exact h
  | cons e l ih =>
    intro acc h
    rw [List.foldl_cons]
    exact ih _ (toi_step_get_done toiCalc fixbuf m acc e cid h)

theorem toi_foldl_sets_one (toiCalc : DistanceProxy → Sweep → DistanceProxy →
      Sweep → TOIOutput) (fixbuf : ArrayAllocator Fixture) (m : Nat)
    (cid : Nat) (key : ContactKey)
    (ht : ∀ pA sA pB sB, (toiCalc pA sA pB sB).state ≠ TOIState.e_touching) :
    ∀ (l : List (ContactKey × Nat))
      (acc : ArrayAllocator Contact × ArrayAllocator Body),
      (key, cid) ∈ l → cid < acc.1.data.length →
      (((acc.1.get cid).HasValidToi = false ∧ (acc.1.get cid).enabled = true ∧
        (acc.1.get cid).sensor = false ∧ (acc.1.get cid).isActive = true ∧
        (acc.1.get cid).impenetrable = true ∧ (acc.1.get cid).toiCount < m)
       ∨ (acc.1.get cid).toi = some 1) →
      ((l.foldl (UpdateContactTOIsStep toiCalc fixbuf m) acc).1.get cid).toi
        = some 1 := by
  intro l
  induction l with
  | nil => intro acc hmem; exact absurd hmem (List.not_mem_nil _)
  | cons e l ih =>
    intro acc hmem hlen hstate
    rw [List.foldl_cons]
    by_cases hc : e.2 = cid
    · rcases hstate with hg | hdone
      · exact toi_foldl_get_done toiCalc fixbuf m cid l _
          (toi_step_get_gates toiCalc fixbuf m acc e cid hc hlen hg.1 hg.2.1
            hg.2.2.1 hg.2.2.2.1 hg.2.2.2.2.1 hg.2.2.2.2.2 ht)
      · exact toi_foldl_get_done toiCalc fixbuf m cid l _
          (toi_step_get_done toiCalc fixbuf m acc e cid hdone)
    · have hmem2 : (key, cid) ∈ l := by
        rcases List.mem_cons.mp hmem with heq | hmem2
        · exact absurd (congrArg Prod.snd heq.symm) hc
        · exact hmem2
      have hpres := toi_step_get_other toiCalc fixbuf m acc e cid hc
      apply ih _ hmem2
      · rw [toi_step_length]
        exact hlen
      · rw [hpres]
        exact hstate

theorem hasValidToi_some (c : Contact) (h : c.HasValidToi = true) :
    c.toi = some c.GetToi := by
  rcases hc : c.toi with _ | t
  · rw [Contact.HasValidToi, hc] at h
    exact absurd h (by simp)
  · rw [Contact.GetToi, hc]
    rfl

theorem soonest_step_inv (buffer : ArrayAllocator Contact)
    (acc : ℚ × Nat × Nat) (e : ContactKey × Nat)
    (h1 : acc.1 < 1)
    (h2 : acc.2.1 ≠ InvalidContactID →
      (buffer.get acc.2.1).toi = some acc.1) :
    (GetSoonestContactStep buffer acc e).1 < 1 ∧
    ((GetSoonestContactStep buffer acc e).2.1 ≠ InvalidContactID →
      (buffer.get (GetSoonestContactStep buffer acc e).2.1).toi
        = some (GetSoonestContactStep buffer acc e).1) := by
  unfold GetSoonestContactStep
  dsimp only
  split
  case isTrue hvalid =>
    split
    case isTrue hlt =>
      refine ⟨lt_trans hlt h1, fun _ => ?_⟩
      exact hasValidToi_some _ hvalid
    case isFalse hnlt =>
      split
      case isTrue heq => exact ⟨h1, h2⟩
      case isFalse hne => exact ⟨h1, h2⟩
  case isFalse hvalid => exact ⟨h1, h2⟩

theorem soonest_foldl_inv (buffer : ArrayAllocator Contact) :
    ∀ (l : List (ContactKey × Nat)) (acc : ℚ × Nat × Nat),
      acc.1 < 1 →
      (acc.2.1 ≠ InvalidContactID →
        (buffer.get acc.2.1).toi = some acc.1) →
      (l.foldl (GetSoonestContactStep buffer) acc).1 < 1 ∧
      ((l.foldl (GetSoonestContactStep buffer) acc).2.1 ≠ InvalidContactID →
        (buffer.get (l.foldl (GetSoonestContactStep buffer) acc).2.1).toi
          = some (l.foldl (GetSoonestContactStep buffer) acc).1) := by
  intro l
  induction l with
  | nil => intro acc h1 h2; exact ⟨h1, h2⟩
  | cons e l ih =>
    intro acc h1 h2
    rw [List.foldl_cons]
    have hstep := soonest_step_inv buffer acc e h1 h2
    exact ih _ hstep.1 hstep.2

/-- C6: In TOI updating, a contact whose TOI-computer result is never the
touching state (covering the broken results e_failed and e_unknown as well
as e_separated and e_overlapped) has its cached TOI set to one rather than
the computed time, and the soonest-contact search, whose running minimum
starts strictly below one, never selects such a contact. -/
theorem c6_broken_toi_never_selected
    (toiCalc : DistanceProxy → Sweep → DistanceProxy → Sweep → TOIOutput)
    (contactBuffer : ArrayAllocator Contact)
    (bodyBuffer : ArrayAllocator Body)
    (fixtureBuffer : ArrayAllocator Fixture)
    (contacts : List (ContactKey × Nat)) (maxSubSteps : Nat)
    (cid : Nat) (key : ContactKey)
    (hmem : (key, cid) ∈ contacts)
    (hcid : cid < contactBuffer.data.length)
    (hninv : cid ≠ InvalidContactID)
    (hvalid : (contactBuffer.get cid).HasValidToi = false)
    (henabled : (contactBuffer.get cid).enabled = true)
    (hsensor : (contactBuffer.get cid).sensor = false)
    (hactive : (contactBuffer.get cid).isActive = true)
    (himpen : (contactBuffer.get cid).impenetrable = true)
    (hcount : (contactBuffer.get cid).toiCount < maxSubSteps)
    (ht : ∀ pA sA pB sB, (toiCalc pA sA pB sB).state ≠ TOIState.e_touching) :
    ((UpdateContactTOIs toiCalc contactBuffer bodyBuffer fixtureBuffer
        contacts maxSubSteps).1.get cid).toi = some 1 ∧
    ∀ cs : List (ContactKey × Nat),
      (GetSoonestContact cs (UpdateContactTOIs toiCalc contactBuffer
        bodyBuffer fixtureBuffer contacts maxSubSteps).1).contact ≠ cid := by
  have hone : ((UpdateContactTOIs toiCalc contactBuffer bodyBuffer
      fixtureBuffer contacts maxSubSteps).1.get cid).toi = some 1 :=
    toi_foldl_sets_one toiCalc fixtureBuffer maxSubSteps cid key ht contacts
      (contactBuffer, bodyBuffer) hmem hcid
      (Or.inl ⟨hvalid, henabled, hsensor, hactive, himpen, hcount⟩)
  refine ⟨hone, fun cs hsel => ?_⟩
  have hinv := soonest_foldl_inv
    (UpdateContactTOIs toiCalc contactBuffer bodyBuffer fixtureBuffer
      contacts maxSubSteps).1 cs (nextafterOneZero, InvalidContactID, 0)
    (by rw [nextafterOneZero]; norm_num) (fun habs => absurd rfl habs)
  rw [GetSoonestContact] at hsel
  dsimp only at hsel
  rw [hsel] at hinv
  have hth := hinv.2 hninv
  rw [hone] at hth
  rw [← Option.some.inj hth] at hinv
  exact absurd hinv.1 (by norm_num)

/-- Witness for C6 at a one-contact world whose TOI computer always fails. -/
theorem c6_broken_toi_never_selected_witness :
    ((ContactKey.mk 0 1, 0) ∈ [(ContactKey.mk 0 1, (0 : Nat))]) ∧
    ((UpdateContactTOIs (fun _ _ _ _ => ⟨TOIState.e_failed, 0⟩)
        (⟨[{ bodyA := 0, bodyB := 1, enabled := true, isActive := true,
             impenetrable := true }], []⟩ : ArrayAllocator Contact)
        (⟨[{}, {}], []⟩ : ArrayAllocator Body) (⟨[], []⟩ : ArrayAllocator Fixture)
        [(ContactKey.mk 0 1, 0)] 8).1.get 0).toi = some 1 ∧
    ∀ cs : List (ContactKey × Nat),
      (GetSoonestContact cs (UpdateContactTOIs
        (fun _ _ _ _ => ⟨TOIState.e_failed, 0⟩)
        (⟨[{ bodyA := 0, bodyB := 1, enabled := true, isActive := true,
             impenetrable := true }], []⟩ : ArrayAllocator Contact)
        (⟨[{}, {}], []⟩ : ArrayAllocator Body) (⟨[], []⟩ : ArrayAllocator Fixture)
        [(ContactKey.mk 0 1, 0)] 8).1).contact ≠ 0 := by
  have h := c6_broken_toi_never_selected
    (fun _ _ _ _ => ⟨TOIState.e_failed, 0⟩)
    (⟨[{ bodyA := 0, bodyB := 1, enabled := true, isActive := true,
         impenetrable := true }], []⟩ : ArrayAllocator Contact)
    (⟨[{}, {}], []⟩ : ArrayAllocator Body) (⟨[], []⟩ : ArrayAllocator Fixture)
    [(ContactKey.mk 0 1, 0)] 8 0 (ContactKey.mk 0 1)
    (by simp) (by decide) (by decide) (by decide) (by decide) (by decide)
    (by decide) (by decide) (by decide)
    (fun _ _ _ _ => (by decide : TOIState.e_failed ≠ TOIState.e_touching))
  exact ⟨by simp, h.1, h.2⟩

/-- C1 amended: on a locked world, create and destroy of bodies, fixtures
and joints, set-joint, set-mass-data, set-transformation, shift-origin and
step raise the wrong-state error unconditionally; set-type and set-enabled
raise it when invoked with a value differing from the current one (they
return without error on an unchanged value); set-sensor and set-filter
perform no lock check at all and are excluded (see the counterexample).
The create-fixture clause assumes vertex radii within the world bounds, as
the source validates them before the lock check. -/
theorem c1_locked_mutators_raise (mm : MathModel) (w : World)
    (hL : w.locked = true) :
    (∀ bd, w.CreateBody mm bd = Except.error WorldError.WrongState) ∧
    (∀ id, w.DestroyBody id = Except.error WorldError.WrongState) ∧
    (∀ id type, (w.getBody id).type ≠ type →
      w.SetType id type = Except.error WorldError.WrongState) ∧
    (∀ id flag, (w.getBody id).enabled ≠ flag →
      w.SetEnabled id flag = Except.error WorldError.WrongState) ∧
    (∀ id xfm, w.SetTransformation mm id xfm
      = Except.error WorldError.WrongState) ∧
    (∀ id md, w.SetMassData id md = Except.error WorldError.WrongState) ∧
    (∀ jd, w.CreateJoint jd = Except.error WorldError.WrongState) ∧
    (∀ id, w.DestroyJoint id = Except.error WorldError.WrongState) ∧
    (∀ id jd, w.SetJoint id jd = Except.error WorldError.WrongState) ∧
    (∀ bodyID shape fc rmd,
      (∀ i, i < shape.childCount →
        w.minVertexRadius ≤ shape.vertexRadius i ∧
        shape.vertexRadius i ≤ w.maxVertexRadius) →
      w.CreateFixture bodyID shape fc rmd
        = Except.error WorldError.WrongState) ∧
    (∀ id rmd, w.DestroyFixture id rmd
      = Except.error WorldError.WrongState) ∧
    (∀ origin, w.ShiftOrigin origin = Except.error WorldError.WrongState) ∧
    (∀ uas conf, w.Step mm uas conf = Except.error WorldError.WrongState) := by
  refine ⟨?_, ?_, ?_, ?_, ?_, ?_, ?_, ?_, ?_, ?_, ?_, ?_, ?_⟩
  · intro bd
    simp [World.CreateBody, hL]
  · intro id
    simp [World.DestroyBody, hL]
  · intro id type hty
    simp [World.SetType, hty, hL]
  · intro id flag hfl
    simp [World.SetEnabled, hfl, hL]
  · intro id xfm
    simp [World.SetTransformation, hL]
  · intro id md
    simp [World.SetMassData, hL]
  · intro jd
    simp [World.CreateJoint, hL]
  · intro id
    simp [World.DestroyJoint, hL]
  · intro id jd
    simp [World.SetJoint, hL]
  · intro bodyID shape fc rmd hr
    simp only [World.CreateFixture, hL]
    rw [if_neg, if_pos trivial]
    simp only [List.any_eq_true, List.mem_range, not_exists, not_and]
    intro i hi
    have := hr i hi
    simp [this.1, this.2]
  · intro id rmd
    simp [World.DestroyFixture, hL]
  · intro origin
    simp [World.ShiftOrigin, hL]
  · intro uas conf
    simp [World.Step, hL]

/-- Witness for C1 amended at a concrete locked world. -/
theorem c1_locked_mutators_raise_witness :
    lockedFixtureWorld.locked = true ∧
    lockedFixtureWorld.CreateBody mmZero {}
      = Except.error WorldError.WrongState ∧
    lockedFixtureWorld.DestroyBody 0 = Except.error WorldError.WrongState ∧
    lockedFixtureWorld.SetType 0 BodyType.Dynamic
      = Except.error WorldError.WrongState ∧
    lockedFixtureWorld.SetEnabled 0 false
      = Except.error WorldError.WrongState ∧
    lockedFixtureWorld.SetTransformation mmZero 0 default
      = Except.error WorldError.WrongState ∧
    lockedFixtureWorld.SetMassData 0 default
      = Except.error WorldError.WrongState ∧
    lockedFixtureWorld.CreateJoint {} = Except.error WorldError.WrongState ∧
    lockedFixtureWorld.DestroyJoint 0 = Except.error WorldError.WrongState ∧
    lockedFixtureWorld.SetJoint 0 {} = Except.error WorldError.WrongState ∧
    lockedFixtureWorld.CreateFixture 0 default {} true
      = Except.error WorldError.WrongState ∧
    lockedFixtureWorld.DestroyFixture 0 true
      = Except.error WorldError.WrongState ∧
    lockedFixtureWorld.ShiftOrigin ⟨1, 0⟩
      = Except.error WorldError.WrongState ∧
    lockedFixtureWorld.Step mmZero id {} = Except.error WorldError.WrongState := by
  have h := c1_locked_mutators_raise mmZero lockedFixtureWorld rfl
  refine ⟨rfl, h.1 {}, h.2.1 0, ?_, ?_, h.2.2.2.2.1 0 default,
    h.2.2.2.2.2.1 0 default, h.2.2.2.2.2.2.1 {}, h.2.2.2.2.2.2.2.1 0,
    h.2.2.2.2.2.2.2.2.1 0 {}, ?_, h.2.2.2.2.2.2.2.2.2.2.1 0 true,
    h.2.2.2.2.2.2.2.2.2.2.2.1 ⟨1, 0⟩, h.2.2.2.2.2.2.2.2.2.2.2.2 id {}⟩
  · exact h.2.2.1 0 BodyType.Dynamic (by decide)
  · exact h.2.2.2.1 0 false (by decide)
  · exact h.2.2.2.2.2.2.2.2.2.1 0 default {} true
      (fun i hi => absurd hi (Nat.not_lt_zero i))

/-- Counterexample for C1 as stated: on a locked world, set-sensor and
set-filter raise nothing and mutate the fixture anyway, and set-type with
the current type returns without error. -/
theorem c1_locked_counterexample :
    lockedFixtureWorld.locked = true ∧
    (lockedFixtureWorld.getFixture 0).isSensor = false ∧
    ((lockedFixtureWorld.SetSensor 0 true).getFixture 0).isSensor = true ∧
    ((lockedFixtureWorld.SetFilterData 0 ⟨2, 4, 1⟩).getFixture 0).filter
      = ⟨2, 4, 1⟩ ∧
    lockedFixtureWorld.SetType 0 BodyType.Static
      = Except.ok lockedFixtureWorld := by
  refine ⟨rfl, rfl, ?_, ?_, rfl⟩
  · rfl
  · rfl

/-- C2: evaluation of body destruction on the three-body two-joint world.
Destroying body 0 destroys its attached joint 1, but the source frees the
joint-buffer slot at the index of the BODY (WorldImpl.cpp line 631 passes
id for jointID): afterwards the world still lists joint 0 and both other
bodies still reference it, yet the slot of joint 0 is on the free list and
zeroed, while the slot of the destroyed joint 1 still holds its stale data
and is never freed. -/
theorem c2_destroy_body_frees_wrong_joint_slot :
    (threeBodyTwoJointWorld.DestroyBody 0).map (fun w2 =>
      (w2.joints, w2.jointBuffer.free, (w2.getBody 1).joints,
       (w2.getBody 2).joints, w2.jointBuffer.get 0, w2.jointBuffer.get 1))
      = Except.ok ([0], [0], [(2, 0)], [(1, 0)], default,
          ({ bodyA := 0, bodyB := 1, collideConnected := false } : Joint)) := by
  rfl

theorem bpv_foldl {α : Type} (g : World → α → World)
    (hg : ∀ w a i, (g w a).bodyPosVel i = w.bodyPosVel i) :
    ∀ (l : List α) (w : World) (i : Nat),
      (l.foldl g w).bodyPosVel i = w.bodyPosVel i := by
  intro l
  induction l with
  | nil => intro w i; rfl
  | cons e l ih =>
    intro w i
    rw [List.foldl_cons, ih, hg]

theorem bpv_foldl_pair {α β : Type} (g : (World × β) → α → (World × β))
    (hg : ∀ acc a i, ((g acc a).1).bodyPosVel i = acc.1.bodyPosVel i) :
    ∀ (l : List α) (acc : World × β) (i : Nat),
      ((l.foldl g acc).1).bodyPosVel i = acc.1.bodyPosVel i := by
  intro l
  induction l with
  | nil => intro acc i; rfl
  | cons e l ih =>
    intro acc i
    rw [List.foldl_cons, ih, hg]

theorem bpv_modifyBody (w : World) (j : Nat) (f : Body → Body)
    (hf : ∀ b, (f b).xf = b.xf ∧ (f b).sweep = b.sweep ∧
      (f b).velocity = b.velocity) (i : Nat) :
    (w.modifyBody j f).bodyPosVel i = w.bodyPosVel i := by
  unfold World.bodyPosVel World.getBody
  dsimp only [World.modifyBody]
  by_cases hij : i = j
  · subst hij
    by_cases hlen : i < w.bodyBuffer.data.length
    · rw [aalloc_get_modify_self _ _ _ hlen]
      rw [(hf _).1, (hf _).2.1, (hf _).2.2]
    · have hnoop : (w.bodyBuffer.modify i f).get i = w.bodyBuffer.get i := by
        unfold ArrayAllocator.modify ArrayAllocator.set ArrayAllocator.get
        rw [List.set_eq_of_length_le (Nat.le_of_not_lt hlen)]
      rw [hnoop]
  · rw [aalloc_get_modify_ne _ _ _ _ hij]

theorem bpv_upd_cb_mb (X : World) (cb : ArrayAllocator Contact)
    (mb : ArrayAllocator Manifold) (i : Nat) :
    (World.bodyPosVel { X with contactBuffer := cb, manifoldBuffer := mb } i)
      = X.bodyPosVel i := rfl

theorem bpv_upd_contacts (X : World) (cs : List (ContactKey × Nat)) (i : Nat) :
    (World.bodyPosVel { X with contacts := cs } i) = X.bodyPosVel i := rfl

theorem bpv_upd_cb (X : World) (cb : ArrayAllocator Contact) (i : Nat) :
    (World.bodyPosVel { X with contactBuffer := cb } i) = X.bodyPosVel i := rfl

theorem bpv_upd_mb (X : World) (mb : ArrayAllocator Manifold) (i : Nat) :
    (World.bodyPosVel { X with manifoldBuffer := mb } i) = X.bodyPosVel i := rfl

theorem bpv_upd_tree_proxies (X : World) (t : TreeModel) (p : List Nat)
    (i : Nat) :
    (World.bodyPosVel { X with tree := t, proxies := p } i)
      = X.bodyPosVel i := rfl

theorem bpv_upd_proxies (X : World) (p : List Nat) (i : Nat) :
    (World.bodyPosVel { X with proxies := p } i) = X.bodyPosVel i := rfl

theorem bpv_upd_ffp (X : World) (l : List Nat) (i : Nat) :
    (World.bodyPosVel { X with fixturesForProxies := l } i)
      = X.bodyPosVel i := rfl

theorem bpv_upd_bfp (X : World) (l : List Nat) (i : Nat) :
    (World.bodyPosVel { X with bodiesForProxies := l } i)
      = X.bodyPosVel i := rfl

theorem bpv_upd_newFixtures (X : World) (b : Bool) (i : Nat) :
    (World.bodyPosVel { X with newFixtures := b } i) = X.bodyPosVel i := rfl

theorem bpv_upd_locked (X : World) (b : Bool) (i : Nat) :
    (World.bodyPosVel { X with locked := b } i) = X.bodyPosVel i := rfl

theorem bpv_upd_fixtureBuffer (X : World) (fb : ArrayAllocator Fixture)
    (i : Nat) :
    (World.bodyPosVel { X with fixtureBuffer := fb } i) = X.bodyPosVel i := rfl

theorem bpv_modifyFixture (X : World) (j : Nat) (f : Fixture → Fixture)
    (i : Nat) : (X.modifyFixture j f).bodyPosVel i = X.bodyPosVel i := rfl

theorem bpv_modifyContact (X : World) (j : Nat) (f : Contact → Contact)
    (i : Nat) : (X.modifyContact j f).bodyPosVel i = X.bodyPosVel i := rfl

theorem bpv_mb_erase (w : World) (j cid i : Nat) :
    (w.modifyBody j (fun b => b.EraseContact cid)).bodyPosVel i
      = w.bodyPosVel i :=
  bpv_modifyBody w j (fun b => b.EraseContact cid)
    (fun _ => ⟨rfl, rfl, rfl⟩) i

theorem bpv_mb_awake (w : World) (j i : Nat) :
    (w.modifyBody j Body.SetAwake).bodyPosVel i = w.bodyPosVel i := by
  apply bpv_modifyBody
  intro b
  unfold Body.SetAwake
  split <;> exact ⟨rfl, rfl, rfl⟩

theorem bpv_mb_awakeFlag (w : World) (j i : Nat) :
    (w.modifyBody j Body.SetAwakeFlag).bodyPosVel i = w.bodyPosVel i :=
  bpv_modifyBody w j Body.SetAwakeFlag (fun _ => ⟨rfl, rfl, rfl⟩) i

theorem bpv_mb_insert (w : World) (j : Nat) (key : ContactKey) (cid i : Nat) :
    (w.modifyBody j (fun b => b.InsertContact key cid)).bodyPosVel i
      = w.bodyPosVel i :=
  bpv_modifyBody w j (fun b => b.InsertContact key cid)
    (fun _ => ⟨rfl, rfl, rfl⟩) i

theorem bpv_InternalDestroy (w : World) (contactID : Nat)
    (fromBody : Option Nat) (i : Nat) :
    (w.InternalDestroy contactID fromBody).bodyPosVel i = w.bodyPosVel i := by
  unfold World.InternalDestroy
  dsimp only
  split <;> split <;> split <;>
    simp only [bpv_upd_cb_mb, bpv_mb_awake, bpv_mb_erase]

theorem bpv_DestroyContact (w : World) (contactID : Nat)
    (fromBody : Option Nat) (i : Nat) :
    (w.DestroyContact contactID fromBody).bodyPosVel i = w.bodyPosVel i := by
  unfold World.DestroyContact
  dsimp only
  rw [bpv_InternalDestroy, bpv_upd_contacts]

theorem bpv_eraseBodyContactsWhere (w : World) (bodyID : Nat)
    (p : World → Nat → Bool) (i : Nat) :
    (w.eraseBodyContactsWhere bodyID p).bodyPosVel i = w.bodyPosVel i := by
  unfold World.eraseBodyContactsWhere
  dsimp only
  apply bpv_foldl
  intro w2 entry j
  dsimp only
  split
  · rw [bpv_DestroyContact, bpv_mb_erase]
  · rfl

theorem bpv_DestroyContactsPhase (w : World) (i : Nat) :
    w.DestroyContactsPhase.bodyPosVel i = w.bodyPosVel i := by
  unfold World.DestroyContactsPhase
  dsimp only
  rw [bpv_upd_contacts]
  apply bpv_foldl_pair
  intro acc e j
  unfold DestroyContactsStep
  dsimp only
  split
  · rw [bpv_InternalDestroy]
  · split
    · split
      · rw [bpv_InternalDestroy]
      · rw [bpv_modifyContact]
    · rfl

theorem bpv_AddKeyLink (w : World) (key : ContactKey)
    (contactID bodyIdA bodyIdB : Nat) (i : Nat) :
    (w.AddKeyLink key contactID bodyIdA bodyIdB).bodyPosVel i
      = w.bodyPosVel i := by
  unfold World.AddKeyLink
  dsimp only
  rw [bpv_mb_insert, bpv_mb_insert, bpv_upd_contacts]

theorem bpv_AddKeyWake (w : World) (bodyA bodyB : Body)
    (contactID bodyIdA bodyIdB : Nat) (i : Nat) :
    (w.AddKeyWake bodyA bodyB contactID bodyIdA bodyIdB).bodyPosVel i
      = w.bodyPosVel i := by
  unfold World.AddKeyWake
  dsimp only
  split
  · split
    · split
      · rw [bpv_mb_awakeFlag, bpv_mb_awakeFlag]
      · rw [bpv_mb_awakeFlag]
    · split
      · rw [bpv_mb_awakeFlag]
      · rfl
  · rfl

theorem bpv_AddKeyDo (mm : MathModel) (w : World) (key : ContactKey)
    (i : Nat) : (w.AddKeyDo mm key).bodyPosVel i = w.bodyPosVel i := by
  unfold World.AddKeyDo
  dsimp only
  rw [bpv_AddKeyWake, bpv_AddKeyLink, bpv_modifyContact]
  rfl

theorem bpv_AddKey (mm : MathModel) (w : World) (key : ContactKey) (i : Nat) :
    (w.AddKey mm key).2.bodyPosVel i = w.bodyPosVel i := by
  unfold World.AddKey
  dsimp only
  split
  · rfl
  · split <;> split
    · rfl
    · split
      · rfl
      · exact bpv_AddKeyDo mm w key i
    · rfl
    · split
      · rfl
      · exact bpv_AddKeyDo mm w key i

theorem bpv_FindNewContacts (mm : MathModel) (w : World) (i : Nat) :
    (World.FindNewContacts mm w).bodyPosVel i = w.bodyPosVel i := by
  unfold World.FindNewContacts
  dsimp only
  rw [bpv_foldl (fun wacc key => (wacc.AddKey mm key).2)
    (fun w2 key j => bpv_AddKey mm w2 key j)]
  rw [bpv_upd_proxies]

theorem bpv_DestroyProxiesOf (w : World) (fixtureID : Nat) (i : Nat) :
    (w.DestroyProxiesOf fixtureID).bodyPosVel i = w.bodyPosVel i := by
  unfold World.DestroyProxiesOf
  dsimp only
  rw [bpv_modifyFixture]
  apply bpv_foldl
  intro w2 a j
  rfl

theorem bpv_CreateProxies (w : World) (fixtureID : Nat)
    (xfm : Transformation) (ext : ℚ) (i : Nat) :
    (w.CreateProxies fixtureID xfm ext).bodyPosVel i = w.bodyPosVel i := by
  unfold World.CreateProxies
  dsimp only
  rw [bpv_modifyFixture]
  apply bpv_foldl_pair
  intro acc childIndex j
  dsimp only
  rw [bpv_upd_tree_proxies]

theorem bpv_SynchronizeFixture (w : World) (fixtureID : Nat)
    (xfm1 xfm2 : Transformation) (displacement : Vec2) (ext : ℚ) (i : Nat) :
    (w.SynchronizeFixture fixtureID xfm1 xfm2 displacement ext).bodyPosVel i
      = w.bodyPosVel i := by
  unfold World.SynchronizeFixture
  dsimp only
  apply bpv_foldl
  intro w2 ip j
  dsimp only
  split
  · rw [bpv_upd_tree_proxies]
  · rfl

theorem bpv_SynchronizeBody (w : World) (bodyID : Nat)
    (xfm1 xfm2 : Transformation) (multiplier ext : ℚ) (i : Nat) :
    (w.SynchronizeBody bodyID xfm1 xfm2 multiplier ext).bodyPosVel i
      = w.bodyPosVel i := by
  unfold World.SynchronizeBody
  dsimp only
  apply bpv_foldl
  intro w2 fid j
  exact bpv_SynchronizeFixture w2 fid xfm1 xfm2 _ ext j

theorem bpv_SynchronizeProxies (w : World) (dm ae : ℚ) (i : Nat) :
    (w.SynchronizeProxies dm ae).bodyPosVel i = w.bodyPosVel i := by
  unfold World.SynchronizeProxies
  dsimp only
  rw [bpv_upd_bfp]
  apply bpv_foldl
  intro w2 bid j
  exact bpv_SynchronizeBody w2 bid _ _ dm ae j

theorem bpv_CreateAndDestroyProxies (w : World) (ext : ℚ) (i : Nat) :
    (w.CreateAndDestroyProxies ext).bodyPosVel i = w.bodyPosVel i := by
  unfold World.CreateAndDestroyProxies
  dsimp only
  apply bpv_foldl
  intro w2 fid j
  dsimp only
  split
  · split
    · exact bpv_CreateProxies w2 fid _ ext j
    · rfl
  · split
    · rw [bpv_eraseBodyContactsWhere, bpv_DestroyProxiesOf]
    · rfl

/-- C8: Running Step with a zero time increment leaves the transformation,
sweep and velocity of every body unchanged (the pre-solve phases only touch
flags and adjacency lists), so running Step twice with zero time increments
is a no-op on body positions and velocities. -/
theorem c8_step_zero_dt_preserves_pos_vel (mm : MathModel)
    (updateAndSolve : World → World) (conf : StepConfW) (w : World)
    (hL : w.locked = false) (hdt : conf.deltaTime = 0) :
    ∃ w2, w.Step mm updateAndSolve conf = Except.ok w2 ∧
      (∀ i, w2.bodyPosVel i = w.bodyPosVel i) ∧ w2.locked = false ∧
      ∃ w3, w2.Step mm updateAndSolve conf = Except.ok w3 ∧
        (∀ i, w3.bodyPosVel i = w.bodyPosVel i) := by
  have hstep : ∀ (wa : World), wa.locked = false →
      ∃ wb, wa.Step mm updateAndSolve conf = Except.ok wb ∧
        (∀ i, wb.bodyPosVel i = wa.bodyPosVel i) ∧ wb.locked = false := by
    intro wa hla
    unfold World.Step
    rw [if_neg (by simp [hla])]
    dsimp only
    rw [if_neg (by simp [hdt])]
    refine ⟨_, rfl, fun i => ?_, rfl⟩
    have h0 : ∀ (wz : World), (World.bodyPosVel { wz with locked := false } i)
        = wz.bodyPosVel i := fun _ => rfl
    rw [h0]
    split
    · rw [bpv_FindNewContacts]
      rw [show ∀ (wz : World),
          (World.bodyPosVel { wz with newFixtures := false } i)
            = wz.bodyPosVel i from fun _ => rfl]
      rw [bpv_DestroyContactsPhase, bpv_SynchronizeProxies]
      rw [show ∀ (wz : World),
          (World.bodyPosVel { wz with fixturesForProxies := [] } i)
            = wz.bodyPosVel i from fun _ => rfl]
      rw [bpv_CreateAndDestroyProxies]
      rfl
    · rw [bpv_DestroyContactsPhase, bpv_SynchronizeProxies]
      rw [show ∀ (wz : World),
          (World.bodyPosVel { wz with fixturesForProxies := [] } i)
            = wz.bodyPosVel i from fun _ => rfl]
      rw [bpv_CreateAndDestroyProxies]
      rfl
  obtain ⟨w2, hw2, hpv2, hl2⟩ := hstep w hL
  obtain ⟨w3, hw3, hpv3, _⟩ := hstep w2 hl2
  exact ⟨w2, hw2, hpv2, hl2, w3, hw3, fun i => (hpv3 i).trans (hpv2 i)⟩

/-- Witness for C8 at the two-static-body world with a zero increment. -/
theorem c8_step_zero_dt_preserves_pos_vel_witness :
    twoStaticOverlapWorld.locked = false ∧ (0 : ℚ) = 0 ∧
    ∃ w2, twoStaticOverlapWorld.Step mmZero id
        { deltaTime := 0, aabbExtension := 1 / 10, displaceMultiplier := 1 }
        = Except.ok w2 ∧
      (∀ i, w2.bodyPosVel i = twoStaticOverlapWorld.bodyPosVel i) := by
  have h := c8_step_zero_dt_preserves_pos_vel mmZero id
    { deltaTime := 0, aabbExtension := 1 / 10, displaceMultiplier := 1 }
    twoStaticOverlapWorld rfl rfl
  obtain ⟨w2, hw2, hpv2, _⟩ := h
  exact ⟨rfl, rfl, w2, hw2, hpv2⟩

theorem mem_eraseP_of_not {α : Type} (p : α → Bool) :
    ∀ (l : List α) (x : α), x ∈ l → p x = false → x ∈ l.eraseP p := by
  intro l
  induction l with
  | nil => intro x hx; exact absurd hx (List.not_mem_nil x)
  | cons a t ih =>
    intro x hx hp
    rw [List.eraseP_cons]
    rcases List.mem_cons.mp hx with hxa | hxt
    · subst hxa
      rw [hp]
      exact List.mem_cons_self _ _
    · cases hpa : p a with
      | true => simpa [hpa] using hxt
      | false => simpa [hpa] using Or.inr (ih x hxt hp)

theorem mem_of_mem_eraseP {α : Type} (p : α → Bool) (l : List α) (x : α)
    (hx : x ∈ l.eraseP p) : x ∈ l :=
  (List.eraseP_sublist l).subset hx

theorem snd_ne_of_mem_eraseP :
    ∀ (l : List (ContactKey × Nat)), (l.map Prod.snd).Nodup → ∀ (c : Nat) (x),
      x ∈ l.eraseP (fun y => decide (y.2 = c)) → x.2 ≠ c := by
  intro l
  induction l with
  | nil => intro _ c x hx; simp [List.eraseP] at hx
  | cons a t ih =>
    intro hnd c x hx
    rw [List.eraseP_cons] at hx
    have hnd3 : (a.2 :: t.map Prod.snd).Nodup := by simpa using hnd
    have hnd2 := List.nodup_cons.mp hnd3
    cases hpa : decide (a.2 = c) with
    | true =>
      rw [hpa] at hx
      dsimp only [cond] at hx
      intro hxc
      have hac : a.2 = c := of_decide_eq_true hpa
      exact hnd2.1 (by
        rw [hac, ← hxc]
        exact List.mem_map_of_mem Prod.snd hx)
    | false =>
      rw [hpa] at hx
      dsimp only [cond] at hx
      rcases List.mem_cons.mp hx with hxa | hxt
      · subst hxa
        exact of_decide_eq_false hpa
      · exact ih hnd2.2 c x hxt

theorem map_snd_eraseP_nodup (l : List (ContactKey × Nat))
    (hnd : (l.map Prod.snd).Nodup) (c : Nat) :
    ((l.eraseP (fun y => decide (y.2 = c))).map Prod.snd).Nodup :=
  hnd.sublist ((List.eraseP_sublist l).map Prod.snd)

theorem mem_compressConsecutive {α : Type} [DecidableEq α] :
    ∀ (l : List α) (x : α), x ∈ compressConsecutive l ↔ x ∈ l
  | [], x => by simp [compressConsecutive]
  | [a], x => by simp [compressConsecutive]
  | a :: b :: rest, x => by
    rw [compressConsecutive]
    split
    case isTrue h =>
      rw [mem_compressConsecutive (b :: rest) x]
      subst h
      simp
    case isFalse h =>
      simp [mem_compressConsecutive (b :: rest) x]

theorem leb_total (a b : ContactKey) :
    (ContactKey.leb a b || ContactKey.leb b a) = true := by
  rw [ContactKey.leb, ContactKey.leb]
  rcases Nat.lt_trichotomy a.minK b.minK with h | h | h
  · simp [h]
  · rcases Nat.le_total a.maxK b.maxK with h2 | h2 <;> simp [h, h2]
  · simp [h]

theorem leb_trans (a b c : ContactKey) (h1 : ContactKey.leb a b = true)
    (h2 : ContactKey.leb b c = true) : ContactKey.leb a c = true := by
  rw [ContactKey.leb] at h1 h2 ⊢
  rcases of_decide_eq_true h1 with ha | ⟨ha1, ha2⟩ <;>
    rcases of_decide_eq_true h2 with hb | ⟨hb1, hb2⟩ <;>
    apply decide_eq_true
  · exact Or.inl (Nat.lt_trans ha hb)
  · exact Or.inl (hb1 ▸ ha)
  · exact Or.inl (ha1 ▸ hb)
  · exact Or.inr ⟨ha1.trans hb1, Nat.le_trans ha2 hb2⟩

theorem leb_antisymm (a b : ContactKey) (h1 : ContactKey.leb a b = true)
    (h2 : ContactKey.leb b a = true) : a = b := by
  rw [ContactKey.leb] at h1 h2
  rcases of_decide_eq_true h1 with ha | ⟨ha1, ha2⟩ <;>
    rcases of_decide_eq_true h2 with hb | ⟨hb1, hb2⟩
  · exact absurd (Nat.lt_trans ha hb) (Nat.lt_irrefl _)
  · exact absurd (hb1 ▸ ha) (Nat.lt_irrefl _)
  · exact absurd (ha1 ▸ hb) (Nat.lt_irrefl _)
  · cases a
    cases b
    simp only at ha1 ha2 hb1 hb2
    simp [ha1, Nat.le_antisymm ha2 hb2]

theorem compressConsecutive_nodup :
    ∀ (l : List ContactKey),
      l.Pairwise (fun a b => ContactKey.leb a b = true) →
      (compressConsecutive l).Nodup
  | [], _ => by simp [compressConsecutive]
  | [a], _ => by simp [compressConsecutive]
  | a :: b :: rest, h => by
    rw [compressConsecutive]
    have hpair := List.pairwise_cons.mp h
    split
    case isTrue hab => exact compressConsecutive_nodup (b :: rest) hpair.2
    case isFalse hab =>
      rw [List.nodup_cons]
      refine ⟨?_, compressConsecutive_nodup (b :: rest) hpair.2⟩
      intro hmem
      rcases List.mem_cons.mp
          ((mem_compressConsecutive (b :: rest) a).mp hmem) with hab2 | harest
      · exact hab hab2
      · have hba : ContactKey.leb b a = true :=
          (List.pairwise_cons.mp hpair.2).1 a harest
        have hab3 : ContactKey.leb a b = true :=
          hpair.1 b (List.mem_cons_self _ _)
        exact hab (leb_antisymm a b hab3 hba)

theorem mem_foldl_append {α β : Type} (gen : β → List α) :
    ∀ (l : List β) (init : List α) (x : α),
      (x ∈ l.foldl (fun ks pid => ks ++ gen pid) init ↔
        x ∈ init ∨ ∃ pid ∈ l, x ∈ gen pid) := by
  intro l
  induction l with
  | nil => intro init x; simp
  | cons a t ih =>
    intro init x
    rw [List.foldl_cons, ih]
    simp only [List.mem_append, List.mem_cons]
    constructor
    · rintro ((h | h) | ⟨pid, hp, hx⟩)
      · exact Or.inl h
      · exact Or.inr ⟨a, Or.inl rfl, h⟩
      · exact Or.inr ⟨pid, Or.inr hp, hx⟩
    · rintro (h | ⟨pid, (hp | hp), hx⟩)
      · exact Or.inl (Or.inl h)
      · exact Or.inl (Or.inr (hp ▸ hx))
      · exact Or.inr ⟨pid, hp, hx⟩

theorem leafAt_lt_length (t : TreeModel) (i : Nat) (leaf : Leaf)
    (h : t.leafAt i = some leaf) : i < List.length t := by
  by_contra hge
  rw [TreeModel.leafAt, List.getD_eq_default _ _ (Nat.le_of_not_lt hge)] at h
  exact Option.noConfusion h

theorem testOverlapAABB_comm (a b : AABB) :
    TestOverlapAABB a b = TestOverlapAABB b a := by
  rw [TestOverlapAABB, TestOverlapAABB]
  apply decide_eq_decide.mpr
  constructor
  · rintro ⟨h1, h2, h3, h4⟩; exact ⟨h2, h1, h4, h3⟩
  · rintro ⟨h1, h2, h3, h4⟩; exact ⟨h2, h1, h4, h3⟩

theorem aalloc_get_modify_cases {T : Type} [Inhabited T]
    (a : ArrayAllocator T) (j : Nat) (f : T → T) (b : Nat) :
    (a.modify j f).get b = a.get b ∨ (a.modify j f).get b = f (a.get b) := by
  by_cases hbj : b = j
  · subst hbj
    by_cases hlen : b < a.data.length
    · exact Or.inr (aalloc_get_modify_self _ _ _ hlen)
    · refine Or.inl ?_
      rw [ArrayAllocator.modify, ArrayAllocator.set, ArrayAllocator.get,
        ArrayAllocator.get]
      dsimp only
      rw [List.set_eq_of_length_le (Nat.le_of_not_lt hlen)]
  · exact Or.inl (aalloc_get_modify_ne _ _ _ _ hbj)

theorem cm_side_tree {w1 w0 : World} (h : World.SideEq w1 w0) :
    w1.tree = w0.tree := congrArg Prod.fst h

theorem cm_side_jb {w1 w0 : World} (h : World.SideEq w1 w0) :
    w1.jointBuffer = w0.jointBuffer := congrArg (fun p => p.2.1) h

theorem cm_side_fb {w1 w0 : World} (h : World.SideEq w1 w0) :
    w1.fixtureBuffer = w0.fixtureBuffer := congrArg (fun p => p.2.2.1) h

theorem cm_side_proxies {w1 w0 : World} (h : World.SideEq w1 w0) :
    w1.proxies = w0.proxies := congrArg (fun p => p.2.2.2.1) h

theorem cm_side_contacts {w1 w0 : World} (h : World.SideEq w1 w0) :
    w1.contacts = w0.contacts := congrArg (fun p => p.2.2.2.2) h

theorem cm_tj_type {w1 w0 : World} (h : World.TJEq w1 w0) (b : Nat) :
    (w1.getBody b).type = (w0.getBody b).type := congrArg Prod.fst (h b)

theorem cm_tj_joints {w1 w0 : World} (h : World.TJEq w1 w0) (b : Nat) :
    (w1.getBody b).joints = (w0.getBody b).joints := congrArg Prod.snd (h b)

theorem cm_TJEq_refl (w : World) : World.TJEq w w := fun _ => rfl

theorem cm_TJEq_trans {w2 w1 w0 : World} (h2 : World.TJEq w2 w1)
    (h1 : World.TJEq w1 w0) : World.TJEq w2 w0 :=
  fun b => (h2 b).trans (h1 b)

theorem cm_SideEq_refl (w : World) : World.SideEq w w := rfl

theorem cm_SideEq_trans {w2 w1 w0 : World} (h2 : World.SideEq w2 w1)
    (h1 : World.SideEq w1 w0) : World.SideEq w2 w0 := h2.trans h1

theorem cm_env_tree {w1 w0 : World} (h : w1.envView = w0.envView) :
    w1.tree = w0.tree := congrArg Prod.fst h

theorem cm_env_jb {w1 w0 : World} (h : w1.envView = w0.envView) :
    w1.jointBuffer = w0.jointBuffer := congrArg (fun p => p.2.1) h

theorem cm_env_fb {w1 w0 : World} (h : w1.envView = w0.envView) :
    w1.fixtureBuffer = w0.fixtureBuffer := congrArg (fun p => p.2.2) h

theorem cm_EnvEq_of {w1 w0 : World} (hs : World.SideEq w1 w0)
    (ht : World.TJEq w1 w0) : World.EnvEq w1 w0 := by
  refine ⟨?_, ht⟩
  rw [World.envView, World.envView, cm_side_tree hs, cm_side_jb hs,
    cm_side_fb hs]

theorem cm_EnvEq_refl (w : World) : World.EnvEq w w :=
  ⟨rfl, cm_TJEq_refl w⟩

theorem cm_EnvEq_trans {w2 w1 w0 : World} (h2 : World.EnvEq w2 w1)
    (h1 : World.EnvEq w1 w0) : World.EnvEq w2 w0 :=
  ⟨h2.1.trans h1.1, cm_TJEq_trans h2.2 h1.2⟩

theorem cm_getFixture_congr {w1 w0 : World}
    (h : w1.fixtureBuffer = w0.fixtureBuffer) (i : Nat) :
    w1.getFixture i = w0.getFixture i := by
  rw [World.getFixture, World.getFixture, h]

theorem cm_scb_congr (jb : ArrayAllocator Joint) (l1 l2 r1 r2 : Body)
    (rid : Nat) (hlt : l1.type = l2.type) (hlj : l1.joints = l2.joints)
    (hrt : r1.type = r2.type) :
    ShouldCollideBodies jb l1 r1 rid = ShouldCollideBodies jb l2 r2 rid := by
  simp only [ShouldCollideBodies, Body.IsAccelerable, hlt, hlj, hrt]

theorem cm_scp_congr {w1 w0 : World} (h : World.EnvEq w1 w0)
    (k : ContactKey) : w1.ShouldCollidePair k = w0.ShouldCollidePair k := by
  obtain ⟨henv, htj⟩ := h
  have ht := cm_env_tree henv
  have hj := cm_env_jb henv
  have hf := cm_env_fb henv
  rw [World.ShouldCollidePair, World.ShouldCollidePair]
  rw [ht, hj, cm_getFixture_congr hf, cm_getFixture_congr hf,
    cm_scb_congr _ (w1.getBody _) (w0.getBody _) (w1.getBody _)
      (w0.getBody _) _ (cm_tj_type htj _) (cm_tj_joints htj _)
      (cm_tj_type htj _)]

theorem cm_geo_congr {w1 w0 : World} (h : w1.tree = w0.tree)
    (k : ContactKey) : w1.pairGeometric k = w0.pairGeometric k := by
  rw [World.pairGeometric, World.pairGeometric, h]

theorem cm_elig_congr {w1 w0 : World} (h : World.EnvEq w1 w0)
    (k : ContactKey) : w1.pairEligible k = w0.pairEligible k := by
  rw [World.pairEligible, World.pairEligible, cm_geo_congr (cm_env_tree h.1),
    cm_scp_congr h]

theorem sv_upd_cb_mb (X : World) (cb : ArrayAllocator Contact)
    (mb : ArrayAllocator Manifold) :
    (World.sideView { X with contactBuffer := cb, manifoldBuffer := mb })
      = X.sideView := rfl

theorem sv_modifyBody (w : World) (j : Nat) (f : Body → Body) :
    (w.modifyBody j f).sideView = w.sideView := rfl

theorem sv_modifyContact (w : World) (i : Nat) (f : Contact → Contact) :
    (w.modifyContact i f).sideView = w.sideView := rfl

theorem sv_InternalDestroy (w : World) (cid : Nat) (fb : Option Nat) :
    (w.InternalDestroy cid fb).sideView = w.sideView := by
  unfold World.InternalDestroy
  dsimp only
  split <;> split <;> split <;> simp only [sv_upd_cb_mb, sv_modifyBody]

theorem cm_getBody_modify_cases (w : World) (j : Nat) (f : Body → Body)
    (b : Nat) :
    (w.modifyBody j f).getBody b = w.getBody b ∨
    (w.modifyBody j f).getBody b = f (w.getBody b) :=
  aalloc_get_modify_cases w.bodyBuffer j f b

theorem cm_getBody_modify_ne (w : World) (j : Nat) (f : Body → Body)
    (b : Nat) (h : b ≠ j) : (w.modifyBody j f).getBody b = w.getBody b :=
  aalloc_get_modify_ne w.bodyBuffer b j f h

theorem cm_getBody_oob (w : World) (b : Nat)
    (h : w.bodyBuffer.data.length ≤ b) : w.getBody b = default := by
  rw [World.getBody, ArrayAllocator.get]
  exact List.getD_eq_default _ _ h

theorem tjv_modifyBody (w : World) (j : Nat) (f : Body → Body)
    (hf : ∀ b0 : Body, (f b0).type = b0.type ∧ (f b0).joints = b0.joints)
    (b : Nat) : (w.modifyBody j f).tjView b = w.tjView b := by
  rcases cm_getBody_modify_cases w j f b with h | h
  · rw [World.tjView, World.tjView, h]
  · rw [World.tjView, World.tjView, h, (hf _).1, (hf _).2]

theorem tjv_mb_erase (w : World) (j c : Nat) (b : Nat) :
    (w.modifyBody j (fun b0 => b0.EraseContact c)).tjView b = w.tjView b :=
  tjv_modifyBody w j (fun b0 => b0.EraseContact c) (fun _ => ⟨rfl, rfl⟩) b

theorem tjv_mb_insert (w : World) (j : Nat) (k : ContactKey) (c : Nat)
    (b : Nat) :
    (w.modifyBody j (fun b0 => b0.InsertContact k c)).tjView b
      = w.tjView b :=
  tjv_modifyBody w j (fun b0 => b0.InsertContact k c)
    (fun _ => ⟨rfl, rfl⟩) b

theorem tjv_mb_awakeFlag (w : World) (j : Nat) (b : Nat) :
    (w.modifyBody j Body.SetAwakeFlag).tjView b = w.tjView b :=
  tjv_modifyBody w j Body.SetAwakeFlag (fun _ => ⟨rfl, rfl⟩) b

theorem tjv_mb_awake (w : World) (j : Nat) (b : Nat) :
    (w.modifyBody j Body.SetAwake).tjView b = w.tjView b :=
  tjv_modifyBody w j Body.SetAwake
    (fun b0 => by rw [Body.SetAwake]; split <;> exact ⟨rfl, rfl⟩) b

theorem tjv_upd_cb_mb (X : World) (cb : ArrayAllocator Contact)
    (mb : ArrayAllocator Manifold) (b : Nat) :
    (World.tjView { X with contactBuffer := cb, manifoldBuffer := mb } b)
      = X.tjView b := rfl

theorem tjv_modifyContact (w : World) (i : Nat) (f : Contact → Contact)
    (b : Nat) : (w.modifyContact i f).tjView b = w.tjView b := rfl

theorem tjv_upd_contacts (X : World) (cs : List (ContactKey × Nat))
    (b : Nat) : (World.tjView { X with contacts := cs } b) = X.tjView b := rfl

theorem tjv_InternalDestroy (w : World) (cid : Nat) (fb : Option Nat)
    (b : Nat) : (w.InternalDestroy cid fb).tjView b = w.tjView b := by
  unfold World.InternalDestroy
  dsimp only
  split <;> split <;> split <;>
    simp only [tjv_upd_cb_mb, tjv_mb_awake, tjv_mb_erase]

theorem cm_bodyContacts_pres (w : World) (j : Nat) (f : Body → Body)
    (hf : ∀ b0 : Body, (f b0).contacts = b0.contacts) (b : Nat) :
    ((w.modifyBody j f).getBody b).contacts = (w.getBody b).contacts := by
  rcases cm_getBody_modify_cases w j f b with h | h
  · rw [h]
  · rw [h, hf]

theorem cm_awake_contacts (b0 : Body) :
    (Body.SetAwake b0).contacts = b0.contacts := by
  rw [Body.SetAwake]; split <;> rfl

theorem cm_bodyContacts_erase (w : World) (j c : Nat) (b : Nat) :
    ((w.modifyBody j (fun b0 => b0.EraseContact c)).getBody b).contacts
      = if b = j
        then (w.getBody b).contacts.eraseP (fun ci => decide (ci.2 = c))
        else (w.getBody b).contacts := by
  by_cases hbj : b = j
  · subst hbj
    rw [if_pos rfl]
    by_cases hlen : b < w.bodyBuffer.data.length
    · have h := aalloc_get_modify_self w.bodyBuffer b
        (fun b0 => b0.EraseContact c) hlen
      rw [show (w.modifyBody b (fun b0 => b0.EraseContact c)).getBody b
        = _ from h]
      rfl
    · have h1 : (w.modifyBody b (fun b0 => b0.EraseContact c)).getBody b
          = w.getBody b := by
        show (w.bodyBuffer.modify b (fun b0 => b0.EraseContact c)).get b
          = w.bodyBuffer.get b
        rw [ArrayAllocator.modify, ArrayAllocator.set, ArrayAllocator.get,
          ArrayAllocator.get]
        dsimp only
        rw [List.set_eq_of_length_le (Nat.le_of_not_lt hlen)]
      rw [h1, cm_getBody_oob w b (Nat.le_of_not_lt hlen)]
      rfl
  · rw [if_neg hbj, cm_getBody_modify_ne w j _ b hbj]

theorem cm_mem_insert_back (w : World) (j : Nat) (k : ContactKey)
    (c : Nat) (b : Nat) (kc : ContactKey × Nat)
    (h : kc ∈ ((w.modifyBody j
      (fun b0 => b0.InsertContact k c)).getBody b).contacts) :
    kc ∈ (w.getBody b).contacts ∨ kc = (k, c) := by
  rcases cm_getBody_modify_cases w j (fun b0 => b0.InsertContact k c) b
    with h1 | h1
  · rw [h1] at h; exact Or.inl h
  · rw [h1] at h
    have h2 : kc ∈ (w.getBody b).contacts ++ [(k, c)] := h
    rcases List.mem_append.mp h2 with h3 | h3
    · exact Or.inl h3
    · exact Or.inr (by simpa using h3)

theorem cm_mem_insert_fwd (w : World) (j : Nat) (k : ContactKey) (c : Nat)
    (b : Nat) (kc : ContactKey × Nat) (h : kc ∈ (w.getBody b).contacts) :
    kc ∈ ((w.modifyBody j
      (fun b0 => b0.InsertContact k c)).getBody b).contacts := by
  rcases cm_getBody_modify_cases w j (fun b0 => b0.InsertContact k c) b
    with h1 | h1
  · rw [h1]; exact h
  · rw [h1]
    exact (List.mem_append_left _ h :
      kc ∈ (w.getBody b).contacts ++ [(k, c)])

theorem cm_getContact_modifyContact_ne (w : World) (i : Nat)
    (f : Contact → Contact) (c : Nat) (h : c ≠ i) :
    (w.modifyContact i f).getContact c = w.getContact c :=
  aalloc_get_modify_ne w.contactBuffer c i f h

theorem cm_getContact_InternalDestroy_ne (w : World) (cid : Nat)
    (fb : Option Nat) (c : Nat) (h : c ≠ cid) :
    (w.InternalDestroy cid fb).getContact c = w.getContact c := by
  unfold World.InternalDestroy
  dsimp only
  split <;> split <;> split <;> exact aalloc_get_free_ne _ _ _ h

theorem cm_bodyContacts_InternalDestroy (w : World) (cid : Nat)
    (hAB : (w.getContact cid).bodyA ≠ (w.getContact cid).bodyB) (b : Nat) :
    ((w.InternalDestroy cid).getBody b).contacts
      = if b = (w.getContact cid).bodyA ∨ b = (w.getContact cid).bodyB
        then (w.getBody b).contacts.eraseP (fun ci => decide (ci.2 = cid))
        else (w.getBody b).contacts := by
  unfold World.InternalDestroy
  dsimp only
  rw [if_pos (show (none : Option Nat) ≠ some (w.getContact cid).bodyA from
    fun hx => Option.noConfusion hx)]
  rw [if_pos (show (none : Option Nat) ≠ some (w.getContact cid).bodyB from
    fun hx => Option.noConfusion hx)]
  have hgb : ∀ (X : World) (cb : ArrayAllocator Contact)
      (mb : ArrayAllocator Manifold),
      (World.getBody { X with contactBuffer := cb, manifoldBuffer := mb } b)
        = X.getBody b := fun _ _ _ => rfl
  split
  · rw [hgb, cm_bodyContacts_pres _ _ _ cm_awake_contacts,
      cm_bodyContacts_pres _ _ _ cm_awake_contacts, cm_bodyContacts_erase,
      cm_bodyContacts_erase]
    by_cases hA : b = (w.getContact cid).bodyA <;>
      by_cases hB : b = (w.getContact cid).bodyB
    · exact absurd (hA.symm.trans hB) hAB
    · rw [if_neg hB, if_pos hA, if_pos (Or.inl hA)]
    · rw [if_pos hB, if_neg hA, if_pos (Or.inr hB)]
    · rw [if_neg hB, if_neg hA, if_neg (fun hor => hor.elim hA hB)]
  · rw [hgb, cm_bodyContacts_erase, cm_bodyContacts_erase]
    by_cases hA : b = (w.getContact cid).bodyA <;>
      by_cases hB : b = (w.getContact cid).bodyB
    · exact absurd (hA.symm.trans hB) hAB
    · rw [if_neg hB, if_pos hA, if_pos (Or.inl hA)]
    · rw [if_pos hB, if_neg hA, if_pos (Or.inr hB)]
    · rw [if_neg hB, if_neg hA, if_neg (fun hor => hor.elim hA hB)]

theorem cm_DestroyStep_spec (w0 wacc : World)
    (kept : List (ContactKey × Nat)) (e : ContactKey × Nat)
    (hside : World.SideEq wacc w0) (htj : World.TJEq wacc w0)
    (hslot : wacc.getContact e.2 = w0.getContact e.2) :
    DestroyContactsStep (wacc, kept) e
      = if w0.keepContact e
        then ((if (w0.getContact e.2).needsFiltering
               then wacc.modifyContact e.2
                 (fun c => { c with needsFiltering := false })
               else wacc), kept ++ [e])
        else (wacc.InternalDestroy e.2, kept) := by
  unfold DestroyContactsStep
  dsimp only
  rw [cm_side_tree hside, hslot, cm_side_jb hside,
    cm_scb_congr _ (wacc.getBody _) (w0.getBody _) (wacc.getBody _)
      (w0.getBody _) _ (cm_tj_type htj _) (cm_tj_joints htj _)
      (cm_tj_type htj _),
    cm_getFixture_congr (cm_side_fb hside),
    cm_getFixture_congr (cm_side_fb hside)]
  cases hov : w0.tree.TestOverlap e.1.minK e.1.maxK with
  | false => simp [World.keepContact, hov]
  | true =>
    cases hfl : (w0.getContact e.2).needsFiltering with
    | false => simp [World.keepContact, hov, hfl]
    | true =>
      cases hscb : ShouldCollideBodies w0.jointBuffer
          (w0.getBody (w0.getContact e.2).bodyB)
          (w0.getBody (w0.getContact e.2).bodyA)
          (w0.getContact e.2).bodyA with
      | false => simp [World.keepContact, hov, hfl, hscb]
      | true =>
        cases hscf : ShouldCollideFixtures
            (w0.getFixture (w0.getContact e.2).fixtureA)
            (w0.getFixture (w0.getContact e.2).fixtureB) with
        | false => simp [World.keepContact, hov, hfl, hscb, hscf]
        | true => simp [World.keepContact, hov, hfl, hscb, hscf]

theorem cm_destroyFold (w0 : World)
    (hcnd : (w0.contacts.map Prod.snd).Nodup)
    (hrec : ∀ kc ∈ w0.contacts, World.ContactRecordOK w0 kc)
    (hb7 : ∀ b kc, kc ∈ (w0.getBody b).contacts → kc ∈ w0.contacts ∧
      (b = (w0.getContact kc.2).bodyA ∨ b = (w0.getContact kc.2).bodyB)) :
    ∀ (Er Ep : List (ContactKey × Nat))
      (acc : World × List (ContactKey × Nat)),
      w0.contacts = Ep ++ Er → CMDestroyInv w0 Ep acc →
      CMDestroyInv w0 (Ep ++ Er) (Er.foldl DestroyContactsStep acc) := by
  intro Er
  induction Er with
  | nil =>
    intro Ep acc hsplit hinv
    simpa using hinv
  | cons e Er ih =>
    intro Ep acc hsplit hinv
    obtain ⟨wacc, kept⟩ := acc
    unfold CMDestroyInv at hinv
    obtain ⟨hside, htj, hkept, hslot, hBL1, hBL2, hBL3, hBL4⟩ := hinv
    have heE : e ∈ w0.contacts := by
      rw [hsplit]
      exact List.mem_append_right Ep (List.mem_cons_self e Er)
    have hem : e.2 ∉ Ep.map Prod.snd := by
      intro hmem
      have hnd2 : ((Ep.map Prod.snd) ++ ((e :: Er).map Prod.snd)).Nodup := by
        rw [← List.map_append, ← hsplit]; exact hcnd
      exact (List.disjoint_of_nodup_append hnd2) hmem
        (List.mem_cons_self e.2 (Er.map Prod.snd))
    have hslotE : wacc.getContact e.2 = w0.getContact e.2 :=
      hslot e heE hem
    have hstep := cm_DestroyStep_spec w0 wacc kept e hside htj hslotE
    rw [List.foldl_cons, hstep]
    have hsplit2 : w0.contacts = (Ep ++ [e]) ++ Er := by
      rw [List.append_assoc]
      exact hsplit
    have hgoal : ∀ acc2, CMDestroyInv w0 (Ep ++ [e]) acc2 →
        CMDestroyInv w0 (Ep ++ e :: Er) (Er.foldl DestroyContactsStep acc2) := by
      intro acc2 hinv2
      have h := ih (Ep ++ [e]) acc2 hsplit2 hinv2
      rwa [List.append_assoc] at h
    by_cases hkeep : w0.keepContact e = true
    · rw [if_pos hkeep]
      apply hgoal
      unfold CMDestroyInv
      have hD : (Ep ++ [e]).filter (fun x => !(w0.keepContact x))
          = Ep.filter (fun x => !(w0.keepContact x)) := by
        rw [List.filter_append]
        simp [hkeep]
      have hK : (Ep ++ [e]).filter (fun x => w0.keepContact x)
          = Ep.filter (fun x => w0.keepContact x) ++ [e] := by
        rw [List.filter_append]
        simp [hkeep]
      by_cases hflag : (w0.getContact e.2).needsFiltering = true
      · rw [if_pos hflag]
        refine ⟨(sv_modifyContact wacc e.2 _).trans hside,
          fun b => (tjv_modifyContact wacc e.2 _ b).trans (htj b),
          by rw [hK, ← hkept],
          ?_, hBL1, hBL2, ?_, ?_⟩
        · intro kc hkc hkcm
          have h1 : kc.2 ∉ Ep.map Prod.snd := fun hx =>
            hkcm (by rw [List.map_append]; exact List.mem_append_left _ hx)
          have h2 : kc.2 ≠ e.2 := fun hx =>
            hkcm (by
              rw [List.map_append]
              exact List.mem_append_right _ (by simp [hx]))
          rw [cm_getContact_modifyContact_ne wacc e.2 _ kc.2 h2]
          exact hslot kc hkc h1
        · intro b kc hkc
          rw [hD]
          exact hBL3 b kc hkc
        · intro kc hkc hkcm
          rw [hD] at hkcm
          exact hBL4 kc hkc hkcm
      · rw [if_neg hflag]
        refine ⟨hside, htj, by rw [hK, ← hkept], ?_, hBL1, hBL2, ?_, ?_⟩
        · intro kc hkc hkcm
          have h1 : kc.2 ∉ Ep.map Prod.snd := fun hx =>
            hkcm (by rw [List.map_append]; exact List.mem_append_left _ hx)
          exact hslot kc hkc h1
        · intro b kc hkc
          rw [hD]
          exact hBL3 b kc hkc
        · intro kc hkc hkcm
          rw [hD] at hkcm
          exact hBL4 kc hkc hkcm
    · rw [if_neg hkeep]
      apply hgoal
      unfold CMDestroyInv
      have hkeepF : w0.keepContact e = false := by
        cases h : w0.keepContact e
        · rfl
        · exact absurd h hkeep
      have hD : (Ep ++ [e]).filter (fun x => !(w0.keepContact x))
          = Ep.filter (fun x => !(w0.keepContact x)) ++ [e] := by
        rw [List.filter_append]
        simp [hkeepF]
      have hK : (Ep ++ [e]).filter (fun x => w0.keepContact x)
          = Ep.filter (fun x => w0.keepContact x) := by
        rw [List.filter_append]
        simp [hkeepF]
      obtain ⟨lmin, lmax, _, _, hbA, hbB, _, _, hne, _⟩ :=
        (by
          obtain ⟨lmin, lmax, h1, h2, h3, h4, h5, h6, h7, h8⟩ := hrec e heE
          exact ⟨lmin, lmax, h1, h2, h3, h4, h5, h6, h7, h8⟩ :
          ∃ lmin lmax, w0.tree.leafAt e.1.minK = some lmin ∧
            w0.tree.leafAt e.1.maxK = some lmax ∧
            (w0.getContact e.2).bodyA = lmin.body ∧
            (w0.getContact e.2).bodyB = lmax.body ∧
            (w0.getContact e.2).fixtureA = lmin.fixture ∧
            (w0.getContact e.2).fixtureB = lmax.fixture ∧
            lmin.body ≠ lmax.body ∧ e.1.minK < e.1.maxK)
      have hAB0 : (w0.getContact e.2).bodyA ≠ (w0.getContact e.2).bodyB := by
        rw [hbA, hbB]; exact hne
      have hAB : (wacc.getContact e.2).bodyA ≠ (wacc.getContact e.2).bodyB := by
        rw [hslotE]; exact hAB0
      have hlists := cm_bodyContacts_InternalDestroy wacc e.2 hAB
      refine ⟨(sv_InternalDestroy wacc e.2 none).trans hside,
        fun b => (tjv_InternalDestroy wacc e.2 none b).trans (htj b),
        by rw [hK, ← hkept], ?_, ?_, ?_, ?_, ?_⟩
      · intro kc hkc hkcm
        have h1 : kc.2 ∉ Ep.map Prod.snd := fun hx =>
          hkcm (by rw [List.map_append]; exact List.mem_append_left _ hx)
        have h2 : kc.2 ≠ e.2 := fun hx =>
          hkcm (by
            rw [List.map_append]
            exact List.mem_append_right _ (by simp [hx]))
        rw [cm_getContact_InternalDestroy_ne wacc e.2 none kc.2 h2]
        exact hslot kc hkc h1
      · intro b kc hkc
        rw [hlists b] at hkc
        by_cases hb : b = (wacc.getContact e.2).bodyA ∨
            b = (wacc.getContact e.2).bodyB
        · rw [if_pos hb] at hkc
          exact hBL1 b kc (mem_of_mem_eraseP _ _ kc hkc)
        · rw [if_neg hb] at hkc
          exact hBL1 b kc hkc
      · intro b
        rw [hlists b]
        by_cases hb : b = (wacc.getContact e.2).bodyA ∨
            b = (wacc.getContact e.2).bodyB
        · rw [if_pos hb]
          exact (hBL2 b).sublist
            ((List.eraseP_sublist _).map Prod.snd)
        · rw [if_neg hb]
          exact hBL2 b
      · intro b kc hkc
        rw [hD, List.map_append]
        rw [hlists b] at hkc
        intro hmem
        rcases List.mem_append.mp hmem with hmem1 | hmem2
        · by_cases hb : b = (wacc.getContact e.2).bodyA ∨
              b = (wacc.getContact e.2).bodyB
          · rw [if_pos hb] at hkc
            exact hBL3 b kc (mem_of_mem_eraseP _ _ kc hkc) hmem1
          · rw [if_neg hb] at hkc
            exact hBL3 b kc hkc hmem1
        · have hkc2 : kc.2 = e.2 := by simpa using hmem2
          by_cases hb : b = (wacc.getContact e.2).bodyA ∨
              b = (wacc.getContact e.2).bodyB
          · rw [if_pos hb] at hkc
            exact snd_ne_of_mem_eraseP _ (hBL2 b) e.2 kc hkc hkc2
          · rw [if_neg hb] at hkc
            have h7 := hb7 b kc (hBL1 b kc hkc)
            rw [hkc2] at h7
            rw [hslotE] at hb
            exact hb h7.2
      · intro kc hkc hkcm
        rw [hD, List.map_append] at hkcm
        have h1 : kc.2 ∉ (Ep.filter
            (fun x => !(w0.keepContact x))).map Prod.snd := fun hx =>
          hkcm (List.mem_append_left _ hx)
        have h2 : kc.2 ≠ e.2 := fun hx =>
          hkcm (List.mem_append_right _ (by simp [hx]))
        obtain ⟨hmA, hmB⟩ := hBL4 kc hkc h1
        constructor
        · rw [hlists ((w0.getContact kc.2).bodyA)]
          split
          · exact mem_eraseP_of_not _ _ kc hmA (by simp [h2])
          · exact hmA
        · rw [hlists ((w0.getContact kc.2).bodyB)]
          split
          · exact mem_eraseP_of_not _ _ kc hmB (by simp [h2])
          · exact hmB

theorem cm_proxyKeys_mem (w : World) (k : ContactKey) :
    k ∈ w.proxyKeysOf ↔ ∃ pid ∈ w.proxies, k ∈ w.pairKeysFor pid := by
  rw [World.proxyKeysOf,
    mem_foldl_append (fun pid => w.pairKeysFor pid) w.proxies [] k]
  simp

theorem cm_query_mem (t : TreeModel) (aabb : AABB) (i : Nat) :
    i ∈ t.Query aabb ↔ i < List.length t ∧
      ∃ leaf, t.leafAt i = some leaf ∧
        TestOverlapAABB leaf.aabb aabb = true := by
  rw [TreeModel.Query, List.mem_filter, List.mem_range]
  constructor
  · rintro ⟨h1, h2⟩
    refine ⟨h1, ?_⟩
    cases hl : t.leafAt i with
    | none => rw [hl] at h2; exact Bool.noConfusion h2
    | some leaf => rw [hl] at h2; exact ⟨leaf, rfl, h2⟩
  · rintro ⟨h1, leaf, hl, ho⟩
    refine ⟨h1, ?_⟩
    rw [hl]
    exact ho

theorem cm_GetAABB_some (t : TreeModel) (i : Nat) (leaf : Leaf)
    (h : t.leafAt i = some leaf) : t.GetAABB i = leaf.aabb := by
  rw [TreeModel.GetAABB, h]

theorem cm_pairKeysFor_mem (w : World) (pid : Nat) (k : ContactKey) :
    k ∈ w.pairKeysFor pid ↔
      ∃ nodeId ∈ w.tree.Query (w.tree.GetAABB pid),
        (nodeId ≠ pid ∧ ((w.tree.leafAt pid).getD default).body
          ≠ ((w.tree.leafAt nodeId).getD default).body) ∧
        ContactKey.make nodeId pid = k := by
  rw [World.pairKeysFor]
  dsimp only
  rw [List.mem_filterMap]
  constructor
  · rintro ⟨nodeId, hmem, hf⟩
    by_cases hcond : nodeId ≠ pid ∧
        ((w.tree.leafAt pid).getD default).body
          ≠ ((w.tree.leafAt nodeId).getD default).body
    · rw [if_pos hcond] at hf
      exact ⟨nodeId, hmem, hcond, Option.some.inj hf⟩
    · rw [if_neg hcond] at hf
      exact Option.noConfusion hf
  · rintro ⟨nodeId, hmem, hcond, hk⟩
    refine ⟨nodeId, hmem, ?_⟩
    rw [if_pos hcond, hk]

theorem cm_geo_elim (w : World) (k : ContactKey)
    (h : w.pairGeometric k = true) :
    ∃ lmin lmax, w.tree.leafAt k.minK = some lmin ∧
      w.tree.leafAt k.maxK = some lmax ∧ k.minK < k.maxK ∧
      lmin.body ≠ lmax.body ∧
      TestOverlapAABB lmin.aabb lmax.aabb = true := by
  rw [World.pairGeometric] at h
  cases hmin : w.tree.leafAt k.minK with
  | none => rw [hmin] at h; exact Bool.noConfusion h
  | some lmin =>
    cases hmax : w.tree.leafAt k.maxK with
    | none => rw [hmin, hmax] at h; exact Bool.noConfusion h
    | some lmax =>
      rw [hmin, hmax] at h
      simp only [Bool.and_eq_true, decide_eq_true_eq] at h
      exact ⟨lmin, lmax, rfl, rfl, h.1.1, h.1.2, h.2⟩

theorem cm_geo_intro (w : World) (k : ContactKey) (lmin lmax : Leaf)
    (hmin : w.tree.leafAt k.minK = some lmin)
    (hmax : w.tree.leafAt k.maxK = some lmax) (hlt : k.minK < k.maxK)
    (hbody : lmin.body ≠ lmax.body)
    (hov : TestOverlapAABB lmin.aabb lmax.aabb = true) :
    w.pairGeometric k = true := by
  rw [World.pairGeometric, hmin, hmax]
  simp only [Bool.and_eq_true, decide_eq_true_eq]
  exact ⟨⟨hlt, hbody⟩, hov⟩

theorem cm_pairKeysFor_sound (w : World) (pid : Nat) (lp : Leaf)
    (hp : w.tree.leafAt pid = some lp) (k : ContactKey)
    (hk : k ∈ w.pairKeysFor pid) : w.pairGeometric k = true := by
  rw [cm_pairKeysFor_mem] at hk
  obtain ⟨nodeId, hq, ⟨hne, hbody⟩, hmk⟩ := hk
  rw [cm_query_mem] at hq
  obtain ⟨hlt, ln, hln, hov⟩ := hq
  rw [cm_GetAABB_some w.tree pid lp hp] at hov
  rw [hp, hln] at hbody
  simp only [Option.getD_some] at hbody
  rcases Nat.lt_or_ge nodeId pid with hlt2 | hge
  · have hk2 : k = ⟨nodeId, pid⟩ := by
      rw [← hmk, ContactKey.make, if_pos hlt2]
    subst hk2
    exact cm_geo_intro w _ ln lp hln hp hlt2 (Ne.symm hbody) hov
  · have hlt3 : pid < nodeId :=
      Nat.lt_of_le_of_ne hge (fun hx => hne hx.symm)
    have hk2 : k = ⟨pid, nodeId⟩ := by
      rw [← hmk, ContactKey.make, if_neg (Nat.not_lt.mpr hge)]
    subst hk2
    refine cm_geo_intro w _ lp ln hp hln hlt3 hbody ?_
    rw [testOverlapAABB_comm]
    exact hov

theorem cm_pairKeysFor_complete_max (w : World) (k : ContactKey)
    (lmin lmax : Leaf) (hmin : w.tree.leafAt k.minK = some lmin)
    (hmax : w.tree.leafAt k.maxK = some lmax) (hlt : k.minK < k.maxK)
    (hbody : lmin.body ≠ lmax.body)
    (hov : TestOverlapAABB lmin.aabb lmax.aabb = true) :
    k ∈ w.pairKeysFor k.maxK := by
  rw [cm_pairKeysFor_mem]
  refine ⟨k.minK, ?_, ⟨Nat.ne_of_lt hlt, ?_⟩, ?_⟩
  · rw [cm_query_mem, cm_GetAABB_some w.tree k.maxK lmax hmax]
    exact ⟨leafAt_lt_length w.tree k.minK lmin hmin, lmin, hmin, hov⟩
  · rw [hmin, hmax]
    simp only [Option.getD_some]
    exact Ne.symm hbody
  · rw [ContactKey.make, if_pos hlt]

theorem cm_pairKeysFor_complete_min (w : World) (k : ContactKey)
    (lmin lmax : Leaf) (hmin : w.tree.leafAt k.minK = some lmin)
    (hmax : w.tree.leafAt k.maxK = some lmax) (hlt : k.minK < k.maxK)
    (hbody : lmin.body ≠ lmax.body)
    (hov : TestOverlapAABB lmin.aabb lmax.aabb = true) :
    k ∈ w.pairKeysFor k.minK := by
  rw [cm_pairKeysFor_mem]
  refine ⟨k.maxK, ?_, ⟨Nat.ne_of_gt hlt, ?_⟩, ?_⟩
  · rw [cm_query_mem, cm_GetAABB_some w.tree k.minK lmin hmin]
    refine ⟨leafAt_lt_length w.tree k.maxK lmax hmax, lmax, hmax, ?_⟩
    rw [testOverlapAABB_comm]
    exact hov
  · rw [hmin, hmax]
    simp only [Option.getD_some]
    exact hbody
  · rw [ContactKey.make, if_neg (Nat.not_lt.mpr (Nat.le_of_lt hlt))]

theorem ev_AddKeyLink (w : World) (key : ContactKey)
    (cid a b : Nat) : (w.AddKeyLink key cid a b).envView = w.envView := rfl

theorem ev_AddKeyWake (w : World) (bA bB : Body) (cid a b : Nat) :
    (w.AddKeyWake bA bB cid a b).envView = w.envView := by
  unfold World.AddKeyWake
  dsimp only
  split
  · split <;> split <;> rfl
  · rfl

theorem ev_AddKeyDo (mm : MathModel) (w : World) (k : ContactKey) :
    (w.AddKeyDo mm k).envView = w.envView := by
  unfold World.AddKeyDo
  dsimp only
  rw [ev_AddKeyWake, ev_AddKeyLink]
  rfl

theorem tjv_upd_cb (X : World) (cb : ArrayAllocator Contact) (b : Nat) :
    (World.tjView { X with contactBuffer := cb } b) = X.tjView b := rfl

theorem tjv_upd_mb (X : World) (mb : ArrayAllocator Manifold) (b : Nat) :
    (World.tjView { X with manifoldBuffer := mb } b) = X.tjView b := rfl

theorem tjv_AddKeyLink (w : World) (key : ContactKey) (cid a b : Nat)
    (b2 : Nat) : (w.AddKeyLink key cid a b).tjView b2 = w.tjView b2 := by
  unfold World.AddKeyLink
  dsimp only
  rw [tjv_mb_insert, tjv_mb_insert, tjv_upd_contacts]

theorem tjv_AddKeyWake (w : World) (bA bB : Body) (cid a b : Nat)
    (b2 : Nat) : (w.AddKeyWake bA bB cid a b).tjView b2 = w.tjView b2 := by
  unfold World.AddKeyWake
  dsimp only
  split
  · split <;> split <;> simp only [tjv_mb_awakeFlag]
  · rfl

theorem tjv_AddKeyDo (mm : MathModel) (w : World) (k : ContactKey)
    (b2 : Nat) : (w.AddKeyDo mm k).tjView b2 = w.tjView b2 := by
  unfold World.AddKeyDo
  dsimp only
  rw [tjv_AddKeyWake, tjv_AddKeyLink, tjv_modifyContact]
  rfl

theorem cm_EnvEq_AddKeyDo (mm : MathModel) (w : World) (k : ContactKey) :
    World.EnvEq (w.AddKeyDo mm k) w :=
  ⟨ev_AddKeyDo mm w k, fun b => tjv_AddKeyDo mm w k b⟩

theorem cm_contacts_AddKeyWake (w : World) (bA bB : Body) (cid a b : Nat) :
    (w.AddKeyWake bA bB cid a b).contacts = w.contacts := by
  unfold World.AddKeyWake
  dsimp only
  split
  · split <;> split <;> rfl
  · rfl

theorem cm_bodyContacts_mb_awakeFlag (w : World) (j b : Nat) :
    ((w.modifyBody j Body.SetAwakeFlag).getBody b).contacts
      = (w.getBody b).contacts :=
  cm_bodyContacts_pres w j Body.SetAwakeFlag (fun _ => rfl) b

theorem cm_bodyContacts_AddKeyWake (w : World) (bA bB : Body)
    (cid a b : Nat) (b2 : Nat) :
    ((w.AddKeyWake bA bB cid a b).getBody b2).contacts
      = (w.getBody b2).contacts := by
  unfold World.AddKeyWake
  dsimp only
  split
  · split <;> split <;> simp only [cm_bodyContacts_mb_awakeFlag]
  · rfl

theorem cm_any_key_false (l : List (ContactKey × Nat)) (k : ContactKey)
    (hl : ∀ ci ∈ l, ci.1 ≠ k) :
    l.any (fun ci => decide (ci.1 = k)) = false := by
  cases hx : l.any (fun ci => decide (ci.1 = k)) with
  | false => rfl
  | true =>
    obtain ⟨ci, hm, hd⟩ := List.any_eq_true.mp hx
    exact absurd (of_decide_eq_true hd) (hl ci hm)

theorem cm_AddKey_reject_scp (mm : MathModel) (w : World) (k : ContactKey)
    (h : w.ShouldCollidePair k = false) : w.AddKey mm k = (false, w) := by
  rw [World.ShouldCollidePair] at h
  have h' : ShouldCollideBodies w.jointBuffer
      (w.getBody ((w.tree.leafAt k.maxK).getD default).body)
      (w.getBody ((w.tree.leafAt k.minK).getD default).body)
      ((w.tree.leafAt k.minK).getD default).body = false ∨
      ShouldCollideFixtures
        (w.getFixture ((w.tree.leafAt k.minK).getD default).fixture)
        (w.getFixture ((w.tree.leafAt k.maxK).getD default).fixture)
          = false := by
    cases hb : ShouldCollideBodies w.jointBuffer
        (w.getBody ((w.tree.leafAt k.maxK).getD default).body)
        (w.getBody ((w.tree.leafAt k.minK).getD default).body)
        ((w.tree.leafAt k.minK).getD default).body with
    | false => exact Or.inl rfl
    | true =>
      refine Or.inr ?_
      cases hf : ShouldCollideFixtures
          (w.getFixture ((w.tree.leafAt k.minK).getD default).fixture)
          (w.getFixture ((w.tree.leafAt k.maxK).getD default).fixture) with
      | false => rfl
      | true => rw [hb, hf] at h; exact Bool.noConfusion h
  rw [World.AddKey]
  dsimp only
  rw [if_pos (h'.imp
    (fun h2 hx => Bool.noConfusion (h2.symm.trans hx))
    (fun h2 hx => Bool.noConfusion (h2.symm.trans hx)))]

theorem cm_AddKey_reject_dup (mm : MathModel) (w : World) (k : ContactKey)
    (hscp : w.ShouldCollidePair k = true)
    (hdA : ∃ ci ∈ (w.getBody
      ((w.tree.leafAt k.minK).getD default).body).contacts, ci.1 = k)
    (hdB : ∃ ci ∈ (w.getBody
      ((w.tree.leafAt k.maxK).getD default).body).contacts, ci.1 = k) :
    w.AddKey mm k = (false, w) := by
  rw [World.ShouldCollidePair, Bool.and_eq_true] at hscp
  obtain ⟨hb, hf⟩ := hscp
  rw [World.AddKey]
  dsimp only
  rw [if_neg (fun hor => hor.elim (fun h2 => h2 hb) (fun h2 => h2 hf))]
  have hany : (if (w.getBody
        ((w.tree.leafAt k.minK).getD default).body).contacts.length <
        (w.getBody
          ((w.tree.leafAt k.maxK).getD default).body).contacts.length
      then (w.getBody
        ((w.tree.leafAt k.minK).getD default).body).contacts
      else (w.getBody
        ((w.tree.leafAt k.maxK).getD default).body).contacts).any
      (fun ci => decide (ci.1 = k)) = true := by
    split
    · obtain ⟨ci, hm, he⟩ := hdA
      exact List.any_eq_true.mpr ⟨ci, hm, decide_eq_true he⟩
    · obtain ⟨ci, hm, he⟩ := hdB
      exact List.any_eq_true.mpr ⟨ci, hm, decide_eq_true he⟩
  rw [if_pos hany]

theorem cm_AddKey_accept (mm : MathModel) (w : World) (k : ContactKey)
    (hscp : w.ShouldCollidePair k = true)
    (hdA : ∀ ci ∈ (w.getBody
      ((w.tree.leafAt k.minK).getD default).body).contacts, ci.1 ≠ k)
    (hdB : ∀ ci ∈ (w.getBody
      ((w.tree.leafAt k.maxK).getD default).body).contacts, ci.1 ≠ k)
    (hcap : w.contacts.length < MaxContacts) :
    w.AddKey mm k = (true, w.AddKeyDo mm k) := by
  rw [World.ShouldCollidePair, Bool.and_eq_true] at hscp
  obtain ⟨hb, hf⟩ := hscp
  rw [World.AddKey]
  dsimp only
  rw [if_neg (fun hor => hor.elim (fun h2 => h2 hb) (fun h2 => h2 hf))]
  have hany : (if (w.getBody
        ((w.tree.leafAt k.minK).getD default).body).contacts.length <
        (w.getBody
          ((w.tree.leafAt k.maxK).getD default).body).contacts.length
      then (w.getBody
        ((w.tree.leafAt k.minK).getD default).body).contacts
      else (w.getBody
        ((w.tree.leafAt k.maxK).getD default).body).contacts).any
      (fun ci => decide (ci.1 = k)) = false := by
    split
    · exact cm_any_key_false _ k hdA
    · exact cm_any_key_false _ k hdB
  rw [if_neg (fun hx => Bool.noConfusion (hany ▸ hx)),
    if_neg (Nat.not_le.mpr hcap)]

theorem cm_AddKeyDo_contacts (mm : MathModel) (w : World) (k : ContactKey) :
    (w.AddKeyDo mm k).contacts = w.contacts ++ [(k, cmNewCid w k)] := by
  unfold World.AddKeyDo
  dsimp only
  rw [cm_contacts_AddKeyWake]
  unfold World.AddKeyLink
  dsimp only
  rfl

theorem cm_AddKeyDo_mem_back (mm : MathModel) (w : World) (k : ContactKey)
    (b : Nat) (kc : ContactKey × Nat)
    (h : kc ∈ ((w.AddKeyDo mm k).getBody b).contacts) :
    kc ∈ (w.getBody b).contacts ∨ kc = (k, cmNewCid w k) := by
  unfold World.AddKeyDo at h
  dsimp only at h
  rw [cm_bodyContacts_AddKeyWake] at h
  unfold World.AddKeyLink at h
  dsimp only at h
  rcases cm_mem_insert_back _ _ _ _ _ _ h with h2 | h2
  · rcases cm_mem_insert_back _ _ _ _ _ _ h2 with h3 | h3
    · exact Or.inl h3
    · exact Or.inr h3
  · exact Or.inr h2

theorem cm_AddKeyDo_mem_fwd (mm : MathModel) (w : World) (k : ContactKey)
    (b : Nat) (kc : ContactKey × Nat) (h : kc ∈ (w.getBody b).contacts) :
    kc ∈ ((w.AddKeyDo mm k).getBody b).contacts := by
  unfold World.AddKeyDo
  dsimp only
  rw [cm_bodyContacts_AddKeyWake]
  unfold World.AddKeyLink
  dsimp only
  exact cm_mem_insert_fwd _ _ _ _ _ _ (cm_mem_insert_fwd _ _ _ _ _ _ h)

theorem cm_key_list_bound (l : List ContactKey) (L : Nat) (hnd : l.Nodup)
    (hb : ∀ k ∈ l, k.minK < L ∧ k.maxK < L) : l.length ≤ L * L := by
  have hinj : Function.Injective
      (fun k : ContactKey => (k.minK, k.maxK)) := by
    intro a b h
    cases a
    cases b
    simpa using h
  have hnd2 : (l.map (fun k : ContactKey => (k.minK, k.maxK))).Nodup :=
    hnd.map hinj
  have hsub : (l.map fun k : ContactKey => (k.minK, k.maxK)).toFinset ⊆
      Finset.range L ×ˢ Finset.range L := by
    intro p hp
    rw [List.mem_toFinset] at hp
    obtain ⟨k, hk, hpk⟩ := List.mem_map.mp hp
    obtain ⟨h1, h2⟩ := hb k hk
    rw [← hpk, Finset.mem_product]
    exact ⟨Finset.mem_range.mpr h1, Finset.mem_range.mpr h2⟩
  calc l.length
      = (l.map fun k : ContactKey => (k.minK, k.maxK)).length :=
        (List.length_map _ _).symm
    _ = (l.map fun k : ContactKey => (k.minK, k.maxK)).toFinset.card :=
        (List.toFinset_card_of_nodup hnd2).symm
    _ ≤ (Finset.range L ×ˢ Finset.range L).card := Finset.card_le_card hsub
    _ = L * L := by simp

theorem cm_elig_keep (w0 : World) (kc : ContactKey × Nat)
    (hrec : World.ContactRecordOK w0 kc)
    (helig : w0.pairEligible kc.1 = true) : w0.keepContact kc = true := by
  obtain ⟨lmin, lmax, hmin, hmax, hbA, hbB, hfA, hfB, hne, hlt⟩ := hrec
  rw [World.pairEligible, Bool.and_eq_true] at helig
  obtain ⟨hgeo, hscp⟩ := helig
  obtain ⟨lmin', lmax', hmin', hmax', _, _, hov⟩ := cm_geo_elim w0 kc.1 hgeo
  have e1 : lmin' = lmin := Option.some.inj (hmin'.symm.trans hmin)
  have e2 : lmax' = lmax := Option.some.inj (hmax'.symm.trans hmax)
  subst e1
  subst e2
  rw [World.keepContact, TreeModel.TestOverlap,
    cm_GetAABB_some _ _ _ hmin, cm_GetAABB_some _ _ _ hmax, hov,
    Bool.true_and, hbA, hbB, hfA, hfB]
  rw [World.ShouldCollidePair, hmin, hmax] at hscp
  simp only [Option.getD_some] at hscp
  rw [hscp]
  simp

theorem cm_kept_elig (w0 : World) (kc : ContactKey × Nat)
    (hrec : World.ContactRecordOK w0 kc)
    (h5 : w0.ShouldCollidePair kc.1 = false →
      (w0.getContact kc.2).needsFiltering = true)
    (hkeep : w0.keepContact kc = true) : w0.pairEligible kc.1 = true := by
  obtain ⟨lmin, lmax, hmin, hmax, hbA, hbB, hfA, hfB, hne, hlt⟩ := hrec
  rw [World.keepContact, Bool.and_eq_true] at hkeep
  obtain ⟨hov, hrest⟩ := hkeep
  rw [TreeModel.TestOverlap, cm_GetAABB_some _ _ _ hmin,
    cm_GetAABB_some _ _ _ hmax] at hov
  rw [World.pairEligible, Bool.and_eq_true]
  refine ⟨cm_geo_intro w0 kc.1 lmin lmax hmin hmax hlt hne hov, ?_⟩
  cases hscp : w0.ShouldCollidePair kc.1 with
  | true => rfl
  | false =>
    have hflag := h5 hscp
    rw [hflag] at hrest
    simp only [Bool.not_true, Bool.false_or] at hrest
    rw [World.ShouldCollidePair, hmin, hmax] at hscp
    simp only [Option.getD_some] at hscp
    rw [hbA, hbB, hfA, hfB] at hrest
    exact Bool.noConfusion (hrest.symm.trans hscp)

theorem cm_addFold (mm : MathModel) (w0 w1 : World) (U : List ContactKey)
    (hUnodup : U.Nodup) (hUgeo : ∀ k ∈ U, w0.pairGeometric k = true)
    (hcap : w1.contacts.length + U.length ≤ MaxContacts) :
    ∀ (Ur Up : List ContactKey) (wacc : World),
      U = Up ++ Ur → CMAddInv w0 w1 Up wacc →
      CMAddInv w0 w1 (Up ++ Ur)
        (Ur.foldl (fun wa key => (wa.AddKey mm key).2) wacc) := by
  intro Ur
  induction Ur with
  | nil =>
    intro Up wacc hsplit hinv
    simpa using hinv
  | cons k Ur ih =>
    intro Up wacc hsplit hinv
    unfold CMAddInv at hinv
    obtain ⟨hEnv, ⟨A, hA, hAkeys⟩, hG3, hG4⟩ := hinv
    rw [List.foldl_cons]
    have hkU : k ∈ U := by
      rw [hsplit]
      exact List.mem_append_right _ (List.mem_cons_self k Ur)
    have hgeo : w0.pairGeometric k = true := hUgeo k hkU
    have hkUp : k ∉ Up := by
      intro hm
      have hnd : (Up ++ k :: Ur).Nodup := hsplit ▸ hUnodup
      exact (List.disjoint_of_nodup_append hnd) hm
        (List.mem_cons_self k Ur)
    obtain ⟨lmin, lmax, hmin, hmax, hlt, hne, hov⟩ := cm_geo_elim w0 k hgeo
    have htree : wacc.tree = w0.tree := cm_env_tree hEnv.1
    have hsplit2 : U = (Up ++ [k]) ++ Ur := by
      rw [List.append_assoc]
      exact hsplit
    have hgoal : ∀ wacc2, CMAddInv w0 w1 (Up ++ [k]) wacc2 →
        CMAddInv w0 w1 (Up ++ k :: Ur)
          (Ur.foldl (fun wa key => (wa.AddKey mm key).2) wacc2) := by
      intro wacc2 hinv2
      have h := ih (Up ++ [k]) wacc2 hsplit2 hinv2
      rwa [List.append_assoc] at h
    cases helig : w0.pairEligible k with
    | false =>
      have hscp0 : w0.ShouldCollidePair k = false := by
        rw [World.pairEligible, hgeo, Bool.true_and] at helig
        exact helig
      have hscpW : wacc.ShouldCollidePair k = false := by
        rw [cm_scp_congr hEnv]
        exact hscp0
      rw [cm_AddKey_reject_scp mm wacc k hscpW]
      apply hgoal
      unfold CMAddInv
      refine ⟨hEnv, ⟨A, hA, ?_⟩, hG3, hG4⟩
      rw [hAkeys, List.filter_append]
      simp [helig]
    | true =>
      have hscp0 : w0.ShouldCollidePair k = true := by
        rw [World.pairEligible, Bool.and_eq_true] at helig
        exact helig.2
      have hscpW : wacc.ShouldCollidePair k = true := by
        rw [cm_scp_congr hEnv]
        exact hscp0
      by_cases hsurv : k ∈ w1.contacts.map Prod.fst
      · obtain ⟨kc, hkc, hkck⟩ := List.mem_map.mp hsurv
        obtain ⟨hmA, hmB⟩ := hG4 kc hkc
        have hmA2 : ∃ ci ∈ (wacc.getBody
            ((wacc.tree.leafAt k.minK).getD default).body).contacts,
            ci.1 = k := by
          refine ⟨kc, ?_, hkck⟩
          rw [htree, ← hkck]
          exact hmA
        have hmB2 : ∃ ci ∈ (wacc.getBody
            ((wacc.tree.leafAt k.maxK).getD default).body).contacts,
            ci.1 = k := by
          refine ⟨kc, ?_, hkck⟩
          rw [htree, ← hkck]
          exact hmB
        rw [cm_AddKey_reject_dup mm wacc k hscpW hmA2 hmB2]
        apply hgoal
        unfold CMAddInv
        refine ⟨hEnv, ⟨A, hA, ?_⟩, hG3, hG4⟩
        rw [hAkeys, List.filter_append]
        simp [hsurv]
      · have hdA : ∀ ci ∈ (wacc.getBody
            ((wacc.tree.leafAt k.minK).getD default).body).contacts,
            ci.1 ≠ k := by
          intro ci hci hcik
          have h3 := hG3 _ ci hci
          rw [hA] at h3
          rcases List.mem_append.mp h3 with h4 | h4
          · exact hsurv (hcik ▸ List.mem_map_of_mem Prod.fst h4)
          · have h5 : ci.1 ∈ A.map Prod.fst := List.mem_map_of_mem _ h4
            rw [hAkeys] at h5
            exact hkUp (hcik ▸ (List.mem_filter.mp h5).1)
        have hdB : ∀ ci ∈ (wacc.getBody
            ((wacc.tree.leafAt k.maxK).getD default).body).contacts,
            ci.1 ≠ k := by
          intro ci hci hcik
          have h3 := hG3 _ ci hci
          rw [hA] at h3
          rcases List.mem_append.mp h3 with h4 | h4
          · exact hsurv (hcik ▸ List.mem_map_of_mem Prod.fst h4)
          · have h5 : ci.1 ∈ A.map Prod.fst := List.mem_map_of_mem _ h4
            rw [hAkeys] at h5
            exact hkUp (hcik ▸ (List.mem_filter.mp h5).1)
        have hcapW : wacc.contacts.length < MaxContacts := by
          have hAlen : A.length ≤ Up.length := by
            have h6 : A.length = (Up.filter (fun k2 =>
                w0.pairEligible k2 &&
                  !(decide (k2 ∈ w1.contacts.map Prod.fst)))).length := by
              rw [← hAkeys, List.length_map]
            rw [h6]
            exact List.length_filter_le _ _
          have hUlen : Up.length + (Ur.length + 1) = U.length := by
            rw [hsplit, List.length_append, List.length_cons]
          have hwlen : wacc.contacts.length
              = w1.contacts.length + A.length := by
            rw [hA, List.length_append]
          omega
        rw [cm_AddKey_accept mm wacc k hscpW hdA hdB hcapW]
        apply hgoal
        unfold CMAddInv
        refine ⟨cm_EnvEq_trans (cm_EnvEq_AddKeyDo mm wacc k) hEnv,
          ⟨A ++ [(k, cmNewCid wacc k)], ?_, ?_⟩, ?_, ?_⟩
        · rw [cm_AddKeyDo_contacts, hA, List.append_assoc]
        · rw [List.map_append, hAkeys, List.filter_append]
          have hpredk : (w0.pairEligible k &&
              !(decide (k ∈ w1.contacts.map Prod.fst))) = true := by
            rw [helig]
            simp [hsurv]
          simp [hpredk]
        · intro b kc hkc
          rcases cm_AddKeyDo_mem_back mm wacc k b kc hkc with h4 | h4
          · rw [cm_AddKeyDo_contacts]
            exact List.mem_append_left _ (hG3 b kc h4)
          · rw [cm_AddKeyDo_contacts, h4]
            exact List.mem_append_right _ (List.mem_singleton.mpr rfl)
        · intro kc hkc
          obtain ⟨hmA, hmB⟩ := hG4 kc hkc
          exact ⟨cm_AddKeyDo_mem_fwd mm wacc k _ kc hmA,
            cm_AddKeyDo_mem_fwd mm wacc k _ kc hmB⟩

theorem cm_after_maintenance_count (mm : MathModel) (w0 w1 : World)
    (h1 : (w0.contacts.map Prod.fst).Nodup)
    (h4 : ∀ kc ∈ w0.contacts, World.ContactRecordOK w0 kc)
    (h5 : ∀ kc ∈ w0.contacts, w0.ShouldCollidePair kc.1 = false →
      (w0.getContact kc.2).needsFiltering = true)
    (h9 : ∀ key, w0.pairEligible key = true →
      key ∉ w0.contacts.map Prod.fst →
      key.minK ∈ w0.proxies ∨ key.maxK ∈ w0.proxies)
    (h10 : ∀ p ∈ w0.proxies, (w0.tree.leafAt p).isSome = true)
    (h11 : w0.contacts.length +
      (List.length w0.tree) * (List.length w0.tree) ≤ MaxContacts)
    (hw1c : w1.contacts = w0.contacts.filter (fun e => w0.keepContact e))
    (hw1env : World.EnvEq w1 w0)
    (hw1prox : w1.proxies = w0.proxies)
    (hG3init : ∀ b kc, kc ∈ (w1.getBody b).contacts → kc ∈ w1.contacts)
    (hG4init : ∀ kc ∈ w1.contacts,
      kc ∈ (w1.getBody
        (((w0.tree.leafAt kc.1.minK).getD default).body)).contacts ∧
      kc ∈ (w1.getBody
        (((w0.tree.leafAt kc.1.maxK).getD default).body)).contacts) :
    ∀ key, ((World.FindNewContacts mm w1).contacts.map Prod.fst).count key
      = if w0.pairEligible key then 1 else 0 := by
  intro key
  have htree1 : w1.tree = w0.tree := cm_env_tree hw1env.1
  have hSorted : ((w1.proxyKeysOf).mergeSort ContactKey.leb).Pairwise
      (fun a b => ContactKey.leb a b = true) :=
    List.sorted_mergeSort leb_trans leb_total w1.proxyKeysOf
  set U : List ContactKey :=
    compressConsecutive ((w1.proxyKeysOf).mergeSort ContactKey.leb)
    with hUdef
  have hFNC : World.FindNewContacts mm w1
      = U.foldl (fun wacc key => (wacc.AddKey mm key).2)
        { w1 with proxies := [] } := by
    rw [hUdef]
    rfl
  have hUnodup : U.Nodup := by
    rw [hUdef]
    exact compressConsecutive_nodup _ hSorted
  have hUmem : ∀ k, k ∈ U ↔ k ∈ w1.proxyKeysOf := by
    intro k
    rw [hUdef, mem_compressConsecutive, List.mem_mergeSort]
  have hUgeo : ∀ k ∈ U, w0.pairGeometric k = true := by
    intro k hk
    rw [hUmem k] at hk
    obtain ⟨pid, hpid, hkp⟩ := (cm_proxyKeys_mem w1 k).mp hk
    have hpid0 : pid ∈ w0.proxies := hw1prox ▸ hpid
    obtain ⟨lp, hlp⟩ := Option.isSome_iff_exists.mp (h10 pid hpid0)
    have hlp1 : w1.tree.leafAt pid = some lp := by
      rw [htree1]
      exact hlp
    have hg := cm_pairKeysFor_sound w1 pid lp hlp1 k hkp
    rw [cm_geo_congr htree1] at hg
    exact hg
  have hUbound : U.length ≤
      (List.length w0.tree) * (List.length w0.tree) := by
    refine cm_key_list_bound U _ hUnodup ?_
    intro k hk
    obtain ⟨lmin, lmax, hmin, hmax, hlt, _, _⟩ :=
      cm_geo_elim w0 k (hUgeo k hk)
    have h2 := leafAt_lt_length _ _ _ hmax
    exact ⟨Nat.lt_trans hlt h2, h2⟩
  have hw1len : w1.contacts.length ≤ w0.contacts.length := by
    rw [hw1c]
    exact (List.filter_sublist _).length_le
  have hcapU : w1.contacts.length + U.length ≤ MaxContacts := by omega
  have hinit2 : CMAddInv w0 w1 [] { w1 with proxies := [] } := by
    unfold CMAddInv
    refine ⟨⟨hw1env.1, hw1env.2⟩,
      ⟨[], (List.append_nil w1.contacts).symm, rfl⟩, ?_, ?_⟩
    · intro b kc h
      exact hG3init b kc h
    · intro kc hkc
      exact hG4init kc hkc
  have hresAdd := cm_addFold mm w0 w1 U hUnodup hUgeo hcapU U []
    { w1 with proxies := [] } rfl hinit2
  rw [List.nil_append] at hresAdd
  unfold CMAddInv at hresAdd
  obtain ⟨_, ⟨A, hAF, hAkeysF⟩, _, _⟩ := hresAdd
  rw [hFNC, hAF]
  have hcc : ({ w1 with proxies := [] } : World).contacts
      = w1.contacts := rfl
  rw [hcc, List.map_append, List.count_append, hAkeysF]
  have hsurvNodup : (w1.contacts.map Prod.fst).Nodup := by
    rw [hw1c]
    exact h1.sublist ((List.filter_sublist _).map Prod.fst)
  have hsurvElig : ∀ kk ∈ w1.contacts.map Prod.fst,
      w0.pairEligible kk = true := by
    intro kk hkk
    obtain ⟨kc, hkc, hfst⟩ := List.mem_map.mp hkk
    rw [hw1c, List.mem_filter] at hkc
    obtain ⟨hkc0, hkeep⟩ := hkc
    rw [← hfst]
    exact cm_kept_elig w0 kc (h4 kc hkc0) (h5 kc hkc0) hkeep
  cases helig : w0.pairEligible key with
  | true =>
    by_cases hsurv : key ∈ w1.contacts.map Prod.fst
    · rw [List.count_eq_one_of_mem hsurvNodup hsurv]
      have hnot : key ∉ U.filter (fun k => w0.pairEligible k &&
          !(decide (k ∈ w1.contacts.map Prod.fst))) := by
        intro hmem
        have h3 := (List.mem_filter.mp hmem).2
        simp only [Bool.and_eq_true, Bool.not_eq_true',
          decide_eq_false_iff_not] at h3
        exact h3.2 hsurv
      rw [List.count_eq_zero_of_not_mem hnot]
      rfl
    · rw [List.count_eq_zero_of_not_mem hsurv]
      have hnotold : key ∉ w0.contacts.map Prod.fst := by
        intro hmem
        obtain ⟨kc, hkc, hfst⟩ := List.mem_map.mp hmem
        have hkeep : w0.keepContact kc = true :=
          cm_elig_keep w0 kc (h4 kc hkc) (by rw [hfst]; exact helig)
        have hmem1 : kc ∈ w1.contacts := by
          rw [hw1c]
          exact List.mem_filter.mpr ⟨hkc, hkeep⟩
        exact hsurv (hfst ▸ List.mem_map_of_mem Prod.fst hmem1)
      obtain ⟨lmin, lmax, hmin, hmax, hlt, hne, hov⟩ :=
        cm_geo_elim w0 key (by
          rw [World.pairEligible, Bool.and_eq_true] at helig
          exact helig.1)
      have hminW : w1.tree.leafAt key.minK = some lmin := by
        rw [htree1]
        exact hmin
      have hmaxW : w1.tree.leafAt key.maxK = some lmax := by
        rw [htree1]
        exact hmax
      have hkeyPK : key ∈ w1.proxyKeysOf := by
        rw [cm_proxyKeys_mem]
        rcases h9 key helig hnotold with hp | hp
        · exact ⟨key.minK, by rw [hw1prox]; exact hp,
            cm_pairKeysFor_complete_min w1 key lmin lmax hminW hmaxW
              hlt hne hov⟩
        · exact ⟨key.maxK, by rw [hw1prox]; exact hp,
            cm_pairKeysFor_complete_max w1 key lmin lmax hminW hmaxW
              hlt hne hov⟩
      have hkeyU : key ∈ U := (hUmem key).mpr hkeyPK
      have hmemF : key ∈ U.filter (fun k => w0.pairEligible k &&
          !(decide (k ∈ w1.contacts.map Prod.fst))) :=
        List.mem_filter.mpr ⟨hkeyU, by rw [helig]; simp [hsurv]⟩
      rw [List.count_eq_one_of_mem (List.Nodup.filter _ hUnodup) hmemF]
      rfl
  | false =>
    have hnot1 : key ∉ w1.contacts.map Prod.fst := fun hm =>
      Bool.noConfusion ((hsurvElig key hm).symm.trans helig)
    have hnot2 : key ∉ U.filter (fun k => w0.pairEligible k &&
        !(decide (k ∈ w1.contacts.map Prod.fst))) := by
      intro hm
      have h3 := (List.mem_filter.mp hm).2
      rw [Bool.and_eq_true] at h3
      exact Bool.noConfusion (h3.1.symm.trans helig)
    rw [List.count_eq_zero_of_not_mem hnot1,
      List.count_eq_zero_of_not_mem hnot2]
    rfl

/-- C3 (amended): after the contact-destruction and contact-discovery
passes of a step, the keyed contact list holds exactly one contact for
every eligible pair key - both tree nodes are leaves on distinct bodies
with overlapping fattened AABBs, the key is normalized, at least one of
the two bodies is accelerable with no joint between them disabling
collision, and the fixtures' filter pair allows collision - and none for
any other key, given a coherent pre-pass state: distinct keys and contact
slots, records matching their leaves, filter-flag coverage, body contact
lists consistent with the world list, move-queue coverage of new eligible
pairs, valid moved proxies, and room under the contact cap.  This
corrects the claim's eligibility conditions: overlap and filter and
joint permission alone do not suffice - the code also requires distinct
bodies and at least one accelerable body. -/
theorem c3_contact_set_after_maintenance (mm : MathModel) (w0 : World)
    (h1 : (w0.contacts.map Prod.fst).Nodup)
    (h2 : (w0.contacts.map Prod.snd).Nodup)
    (h4 : ∀ kc ∈ w0.contacts, World.ContactRecordOK w0 kc)
    (h5 : ∀ kc ∈ w0.contacts, w0.ShouldCollidePair kc.1 = false →
      (w0.getContact kc.2).needsFiltering = true)
    (h6 : ∀ kc ∈ w0.contacts,
      kc ∈ (w0.getBody ((w0.getContact kc.2).bodyA)).contacts ∧
      kc ∈ (w0.getBody ((w0.getContact kc.2).bodyB)).contacts)
    (h7 : ∀ b kc, kc ∈ (w0.getBody b).contacts → kc ∈ w0.contacts ∧
      (b = (w0.getContact kc.2).bodyA ∨ b = (w0.getContact kc.2).bodyB))
    (h8 : ∀ b, ((w0.getBody b).contacts.map Prod.snd).Nodup)
    (h9 : ∀ key, w0.pairEligible key = true →
      key ∉ w0.contacts.map Prod.fst →
      key.minK ∈ w0.proxies ∨ key.maxK ∈ w0.proxies)
    (h10 : ∀ p ∈ w0.proxies, (w0.tree.leafAt p).isSome = true)
    (h11 : w0.contacts.length +
      (List.length w0.tree) * (List.length w0.tree) ≤ MaxContacts) :
    ∀ key,
      (((World.FindNewContacts mm w0.DestroyContactsPhase).contacts.map
        Prod.fst).count key) = if w0.pairEligible key then 1 else 0 := by
  have hinit : CMDestroyInv w0 [] (w0, []) := by
    unfold CMDestroyInv
    refine ⟨cm_SideEq_refl w0, cm_TJEq_refl w0, rfl,
      fun kc _ _ => rfl, fun b kc h => h, h8, ?_, ?_⟩
    · intro b kc _
      simp
    · intro kc hkc _
      exact h6 kc hkc
  have hres := cm_destroyFold w0 h2 h4 h7 w0.contacts [] (w0, [])
    (by simp) hinit
  rw [List.nil_append] at hres
  unfold CMDestroyInv at hres
  obtain ⟨hresSide, hresTJ, hresKept, _, hBL1, _, hBL3, hBL4⟩ := hres
  have hc : (w0.DestroyContactsPhase).contacts
      = w0.contacts.filter (fun e => w0.keepContact e) := hresKept
  have hw1env : World.EnvEq w0.DestroyContactsPhase w0 := by
    have h := cm_EnvEq_of hresSide hresTJ
    exact ⟨h.1, h.2⟩
  have hw1prox : (w0.DestroyContactsPhase).proxies = w0.proxies := by
    have h := cm_side_proxies hresSide
    exact h
  have hG3init : ∀ b kc,
      kc ∈ ((w0.DestroyContactsPhase).getBody b).contacts →
      kc ∈ (w0.DestroyContactsPhase).contacts := by
    intro b kc h
    have hm0 := (h7 b kc (hBL1 b kc h)).1
    have hnD := hBL3 b kc h
    rw [hc]
    cases hkp : w0.keepContact kc with
    | true => exact List.mem_filter.mpr ⟨hm0, hkp⟩
    | false =>
      exfalso
      refine hnD (List.mem_map_of_mem Prod.snd ?_)
      exact List.mem_filter.mpr ⟨hm0, by simp [hkp]⟩
  have hG4init : ∀ kc ∈ (w0.DestroyContactsPhase).contacts,
      kc ∈ ((w0.DestroyContactsPhase).getBody
        (((w0.tree.leafAt kc.1.minK).getD default).body)).contacts ∧
      kc ∈ ((w0.DestroyContactsPhase).getBody
        (((w0.tree.leafAt kc.1.maxK).getD default).body)).contacts := by
    intro kc hkc
    rw [hc, List.mem_filter] at hkc
    obtain ⟨hm0, hkeep⟩ := hkc
    have hnD : kc.2 ∉ (w0.contacts.filter
        (fun e => !(w0.keepContact e))).map Prod.snd := by
      intro hmem
      obtain ⟨kc2, hkc2, hsnd⟩ := List.mem_map.mp hmem
      rw [List.mem_filter] at hkc2
      obtain ⟨hkc20, hkp2⟩ := hkc2
      have hkk : kc2 = kc :=
        List.inj_on_of_nodup_map h2 hkc20 hm0 hsnd
      rw [hkk, hkeep] at hkp2
      exact Bool.noConfusion hkp2
    obtain ⟨hmA, hmB⟩ := hBL4 kc hm0 hnD
    obtain ⟨lmin, lmax, hmin, hmax, hbA, hbB, _, _, _, _⟩ := h4 kc hm0
    constructor
    · have hidx : ((w0.tree.leafAt kc.1.minK).getD default).body
          = (w0.getContact kc.2).bodyA := by
        rw [hmin, hbA]
        rfl
      rw [hidx]
      exact hmA
    · have hidx : ((w0.tree.leafAt kc.1.maxK).getD default).body
          = (w0.getContact kc.2).bodyB := by
        rw [hmax, hbB]
        rfl
      rw [hidx]
      exact hmB
  exact cm_after_maintenance_count mm w0 w0.DestroyContactsPhase
    h1 h4 h5 h9 h10 h11 hc hw1env hw1prox hG3init hG4init

/-- C3 counterexample to the claim as stated: a completed step on two
enabled static bodies whose fattened proxy AABBs overlap, whose default
filters allow collision, and with no joint between them, produces no
contact at all - the code additionally requires at least one of the two
bodies to be accelerable (WorldImpl.cpp ShouldCollide, lines 429-445),
which the claim omits. -/
theorem c3_contact_iff_counterexample :
    twoStaticOverlapWorld.tree.TestOverlap 0 1 = true ∧
    ShouldCollideFixtures (twoStaticOverlapWorld.getFixture 0)
      (twoStaticOverlapWorld.getFixture 1) = true ∧
    (twoStaticOverlapWorld.getBody 0).joints = [] ∧
    (twoStaticOverlapWorld.getBody 1).joints = [] ∧
    (World.Step mmZero id
      { deltaTime := 0, aabbExtension := 1 / 10, displaceMultiplier := 1 }
      twoStaticOverlapWorld).map World.contacts = Except.ok [] := by
  refine ⟨rfl, rfl, rfl, rfl, ?_⟩
  have hms : ([⟨0, 1⟩, ⟨0, 1⟩] : List ContactKey).mergeSort ContactKey.leb
      = ([⟨0, 1⟩, ⟨0, 1⟩] : List ContactKey) :=
    List.mergeSort_of_sorted (by decide)
  have h1 : World.Step mmZero id
      { deltaTime := 0, aabbExtension := 1 / 10, displaceMultiplier := 1 }
      twoStaticOverlapWorld
      = Except.ok { (compressConsecutive
          (([⟨0, 1⟩, ⟨0, 1⟩] : List ContactKey).mergeSort
            ContactKey.leb)).foldl
          (fun wacc key => (wacc.AddKey mmZero key).2)
          { World.maintPrefix
              { deltaTime := 0, aabbExtension := 1 / 10,
                displaceMultiplier := 1 } twoStaticOverlapWorld
            with proxies := [] } with locked := false } := rfl
  rw [h1, hms]
  rfl

theorem c3_contact_set_after_maintenance_witness :
    dynPairWorld.pairEligible ⟨0, 1⟩ = true ∧
    ((World.FindNewContacts mmZero
      dynPairWorld.DestroyContactsPhase).contacts.map Prod.fst).count
        ⟨0, 1⟩ = (if dynPairWorld.pairEligible ⟨0, 1⟩ then 1 else 0) := by
  constructor
  · rfl
  · refine c3_contact_set_after_maintenance mmZero dynPairWorld
      (by decide) (by decide) ?_ ?_ ?_ ?_ ?_ ?_ ?_ (by decide) ⟨0, 1⟩
    · intro kc h
      exact absurd h (List.not_mem_nil kc)
    · intro kc h
      exact absurd h (List.not_mem_nil kc)
    · intro kc h
      exact absurd h (List.not_mem_nil kc)
    · intro b kc h
      exfalso
      rcases b with _ | _ | n
      · exact absurd h (List.not_mem_nil kc)
      · exact absurd h (List.not_mem_nil kc)
      · rw [cm_getBody_oob dynPairWorld (n + 2) (Nat.le_add_left 2 n)] at h
        exact absurd h (List.not_mem_nil kc)
    · intro b
      rcases b with _ | _ | n
      · decide
      · decide
      · rw [cm_getBody_oob dynPairWorld (n + 2) (Nat.le_add_left 2 n)]
        decide
    · intro k helig _
      have hgeo : dynPairWorld.pairGeometric k = true := by
        rw [World.pairEligible, Bool.and_eq_true] at helig
        exact helig.1
      obtain ⟨lmin, lmax, hmin, hmax, hlt, _, _⟩ :=
        cm_geo_elim dynPairWorld k hgeo
      have hmax2 : k.maxK < 2 := leafAt_lt_length _ _ _ hmax
      have hmin0 : k.minK = 0 := by omega
      left
      rw [hmin0]
      simp [dynPairWorld]
    · intro p hp
      simp only [dynPairWorld, List.mem_cons, List.not_mem_nil, or_false]
        at hp
      rcases hp with rfl | rfl <;> rfl

end PlayRho
